import Mathlib

/-!
Verification of the Codec2 buffer-interchange and format-conversion layer
(media/codec2/sfplugin/Codec2Buffer.cpp and
media/codec2/sfplugin/utils/Codec2BufferUtils.cpp).

The development shallowly embeds the data model (plane layouts, media images,
graphic views), the pixel-format classifiers, the plane-copy engine
(`ImageCopy` in both directions, with its fast libyuv-backed paths and the
generic strided fallback), the graphic-view/media-image converter, the raw
memory-block pool, and the linear/dummy/encrypted buffer wrappers.

Memories are byte-addressed maps `Int → Nat`.  A copy between two distinct
allocations is modelled as a nested row/column loop of `memcpy` region writes;
every copy routine used by `ImageCopy` is an instance of the single primitive
`cpyRows`, applied through explicit "correspondence" records (`Corr`) that
record the destination and source walk of the nested loop exactly as the
source code performs it.
-/

set_option linter.unusedVariables false

/-- Byte-addressed memory: each address holds a byte value.  The source and the
destination buffer of a copy are distinct allocations in the code, so they are
distinct values of this type and a copy never aliases its own source. -/
abbrev Mem : Type := Int → Nat

/-- Model of `memcpy` of `n` bytes into `dst` at address `d` from `src` at
address `s`. -/
def memcpyM (dst : Mem) (d : Int) (src : Mem) (s : Int) (n : Nat) : Mem :=
  fun a => if d ≤ a ∧ a < d + n then src (s + (a - d)) else dst a

/-- Column loop of a copy: for each `c < cols`, `memcpy` `n` bytes from
`s + sC*c` to `d + dC*c`.  All reads come from the fixed source memory. -/
def cpyCols (src : Mem) (s sC : Int) (dst : Mem) (d dC : Int) (n : Nat) : Nat → Mem
  | 0 => dst
  | c + 1 => memcpyM (cpyCols src s sC dst d dC n c) (d + dC * (c : Int)) src
      (s + sC * (c : Int)) n

/-- Row loop of a copy: for each `r < rows`, run the column loop with the row
bases advanced by the respective row increments. -/
def cpyRows (src : Mem) (s sR sC : Int) (dst : Mem) (d dR dC : Int) (n cols : Nat) :
    Nat → Mem
  | 0 => dst
  | r + 1 => cpyCols src (s + sR * (r : Int)) sC
      (cpyRows src s sR sC dst d dR dC n cols r) (d + dR * (r : Int)) dC n cols

/-- A correspondence: one nested-loop copy with destination walk
`dB + dR*r + dC*c + b` and source walk `sB + sR*r + sC*c + b`
for `r < rows`, `c < cols`, `b < n`. -/
structure Corr where
  dB : Int
  dR : Int
  dC : Int
  sB : Int
  sR : Int
  sC : Int
  n : Nat
  rows : Nat
  cols : Nat
deriving DecidableEq, Repr

/-- Swap the destination and source sides of a correspondence. -/
def Corr.mirror (c : Corr) : Corr :=
  ⟨c.sB, c.sR, c.sC, c.dB, c.dR, c.dC, c.n, c.rows, c.cols⟩

/-- Destination address of byte `b` of sample `(r, col)`. -/
def Corr.dAddr (c : Corr) (r col b : Nat) : Int :=
  c.dB + c.dR * (r : Int) + c.dC * (col : Int) + (b : Int)

/-- Source address of byte `b` of sample `(r, col)`. -/
def Corr.sAddr (c : Corr) (r col b : Nat) : Int :=
  c.sB + c.sR * (r : Int) + c.sC * (col : Int) + (b : Int)

/-- Membership of an address in the destination region of a correspondence. -/
def Corr.InD (c : Corr) (a : Int) : Prop :=
  ∃ r, r < c.rows ∧ ∃ col, col < c.cols ∧ ∃ b, b < c.n ∧ a = c.dAddr r col b

/-- Destination-side sanity: nonnegative increments, the column increment
covers one sample, and the row increment covers one row of samples.  Under
these conditions every destination address is written by at most one loop
iteration. -/
def Corr.DSane (c : Corr) : Prop :=
  0 ≤ c.dR ∧ 0 ≤ c.dC ∧ (1 < c.cols → (c.n : Int) ≤ c.dC) ∧
    (1 < c.rows → c.dC * ((c.cols : Int) - 1) + c.n ≤ c.dR)

/-- Destination regions of two correspondences do not intersect. -/
def Corr.DDisj (c1 c2 : Corr) : Prop :=
  ∀ a : Int, c1.InD a → c2.InD a → False

/-- Exclusive upper bound of the destination region span (valid under
`DSane`). -/
def Corr.dHi (c : Corr) : Int :=
  c.dB + c.dR * ((c.rows : Int) - 1) + c.dC * ((c.cols : Int) - 1) + c.n

/-- Decidable sufficient condition for disjointness: the destination span of
one correspondence ends before the other begins. -/
def Corr.Sep (c1 c2 : Corr) : Prop := c1.dHi ≤ c2.dB ∨ c2.dHi ≤ c1.dB

instance (c1 c2 : Corr) : Decidable (c1.Sep c2) :=
  inferInstanceAs (Decidable (_ ∨ _))

/-- Run one correspondence: nested row/column copy reading `src`, writing
`dst`. -/
def cpyRowsOf (src : Mem) (c : Corr) (dst : Mem) : Mem :=
  cpyRows src c.sB c.sR c.sC dst c.dB c.dR c.dC c.n c.cols c.rows

/-- Run a list of correspondences in order. -/
def applyCorrs (src : Mem) (cs : List Corr) (dst : Mem) : Mem :=
  cs.foldl (fun m c => cpyRowsOf src c m) dst

/-- Semantic channel of a plane (C2PlaneInfo::channel_t). -/
inductive C2Channel where
  | Y
  | CB
  | CR
  | R
  | G
  | B
  | A
deriving DecidableEq, Repr

/-- Endianness of a sample word (C2PlaneInfo::endianness_t). -/
inductive C2Endian where
  | NATIVE
  | BIG
  | LITTLE
deriving DecidableEq, Repr

/-- Plane geometry (C2PlaneInfo of the codec2 core headers). -/
structure C2PlaneInfo where
  channel : C2Channel
  colInc : Int
  rowInc : Int
  colSampling : Nat
  rowSampling : Nat
  allocatedDepth : Nat
  bitDepth : Nat
  rightShift : Nat
  endianness : C2Endian
  rootIx : Nat
  offset : Nat
deriving DecidableEq, Repr

/-- Layout type (C2PlanarLayout::type_t). -/
inductive C2LayoutType where
  | YUV
  | YUVA
  | RGB
  | RGBA
  | UNKNOWN
deriving DecidableEq, Repr

/-- Plane layout of a graphic buffer (C2PlanarLayout).  `planes` is total;
only indices below `numPlanes` are meaningful, matching the C array of
size 4. -/
structure C2PlanarLayout where
  type : C2LayoutType
  numPlanes : Nat
  rootPlanes : Nat
  planes : Nat → C2PlaneInfo

/-- Plane index constant of C2PlanarLayout. -/
def PLANE_Y : Nat := 0

/-- Plane index constant of C2PlanarLayout. -/
def PLANE_U : Nat := 1

/-- Plane index constant of C2PlanarLayout. -/
def PLANE_V : Nat := 2

/-- Plane index constant of C2PlanarLayout. -/
def PLANE_R : Nat := 0

/-- Plane index constant of C2PlanarLayout. -/
def PLANE_G : Nat := 1

/-- Plane index constant of C2PlanarLayout. -/
def PLANE_B : Nat := 2

/-- Plane index constant of C2PlanarLayout. -/
def PLANE_A : Nat := 3

/-- A mapped graphic view (C2GraphicView): dimensions, crop, layout, an error
status, and the mapped base address of each root plane. -/
structure C2GraphicView where
  width : Nat
  height : Nat
  cropWidth : Nat
  cropHeight : Nat
  layout : C2PlanarLayout
  rootAddr : Nat → Int
  err : Int

/-- Modelled from the spec: per-plane data pointers of a mapped view
(C2GraphicView::data of the codec2 core library, which is not among the given
sources).  Plane `i` points at its root plane's mapped base plus the plane's
`offset`, the "byte offset of the plane's origin from a common base
pointer". -/
def C2GraphicView.data (v : C2GraphicView) (i : Nat) : Int :=
  v.rootAddr (v.layout.planes i).rootIx + ((v.layout.planes i).offset : Int)

/-- MediaImage2 type tag (MEDIA_IMAGE_TYPE_*). -/
inductive MediaImageType where
  | YUV
  | RGB
  | RGBA
  | Y
  | UNKNOWN
deriving DecidableEq, Repr

/-- One plane descriptor of a MediaImage2. -/
structure MediaImage2Plane where
  mOffset : Nat
  mColInc : Int
  mRowInc : Int
  mHorizSubsampling : Nat
  mVertSubsampling : Nat
deriving DecidableEq, Repr

/-- Flat-image descriptor (MediaImage2 of media/hardware/VideoAPI.h).
`mPlane` is total; only indices below `mNumPlanes` are meaningful. -/
structure MediaImage2 where
  mType : MediaImageType
  mNumPlanes : Nat
  mWidth : Nat
  mHeight : Nat
  mBitDepth : Nat
  mBitDepthAllocated : Nat
  mPlane : Nat → MediaImage2Plane

/-- Android status_t values used by this layer. -/
inductive Status where
  | OK
  | BAD_VALUE
  | NO_INIT
  | NO_MEMORY
deriving DecidableEq, Repr

/-- divUp of AUtils: ceiling division. -/
def divUp (a b : Nat) : Nat := (a + b - 1) / b

/-- align of AUtils (alignment to a power of two), in div/mul form. -/
def alignUp (v a : Nat) : Nat := ((v + a - 1) / a) * a

/-- IsYUV420 over a graphic view. -/
def IsYUV420 (view : C2GraphicView) : Bool :=
  let layout := view.layout
  layout.numPlanes == 3 &&
  layout.type == C2LayoutType.YUV &&
  (layout.planes PLANE_Y).channel == C2Channel.Y &&
  (layout.planes PLANE_Y).allocatedDepth == 8 &&
  (layout.planes PLANE_Y).bitDepth == 8 &&
  (layout.planes PLANE_Y).rightShift == 0 &&
  (layout.planes PLANE_Y).colSampling == 1 &&
  (layout.planes PLANE_Y).rowSampling == 1 &&
  (layout.planes PLANE_U).channel == C2Channel.CB &&
  (layout.planes PLANE_U).allocatedDepth == 8 &&
  (layout.planes PLANE_U).bitDepth == 8 &&
  (layout.planes PLANE_U).rightShift == 0 &&
  (layout.planes PLANE_U).colSampling == 2 &&
  (layout.planes PLANE_U).rowSampling == 2 &&
  (layout.planes PLANE_V).channel == C2Channel.CR &&
  (layout.planes PLANE_V).allocatedDepth == 8 &&
  (layout.planes PLANE_V).bitDepth == 8 &&
  (layout.planes PLANE_V).rightShift == 0 &&
  (layout.planes PLANE_V).colSampling == 2 &&
  (layout.planes PLANE_V).rowSampling == 2

/-- IsYUV420_10bit over a graphic view. -/
def IsYUV420_10bit (view : C2GraphicView) : Bool :=
  let layout := view.layout
  layout.numPlanes == 3 &&
  layout.type == C2LayoutType.YUV &&
  (layout.planes PLANE_Y).channel == C2Channel.Y &&
  (layout.planes PLANE_Y).allocatedDepth == 16 &&
  (layout.planes PLANE_Y).bitDepth == 10 &&
  (layout.planes PLANE_Y).colSampling == 1 &&
  (layout.planes PLANE_Y).rowSampling == 1 &&
  (layout.planes PLANE_U).channel == C2Channel.CB &&
  (layout.planes PLANE_U).allocatedDepth == 16 &&
  (layout.planes PLANE_U).bitDepth == 10 &&
  (layout.planes PLANE_U).colSampling == 2 &&
  (layout.planes PLANE_U).rowSampling == 2 &&
  (layout.planes PLANE_V).channel == C2Channel.CR &&
  (layout.planes PLANE_V).allocatedDepth == 16 &&
  (layout.planes PLANE_V).bitDepth == 10 &&
  (layout.planes PLANE_V).colSampling == 2 &&
  (layout.planes PLANE_V).rowSampling == 2

/-- IsNV12 over a graphic view. -/
def IsNV12 (view : C2GraphicView) : Bool :=
  if !IsYUV420 view then false
  else
    let layout := view.layout
    layout.rootPlanes == 2 &&
    (layout.planes PLANE_U).colInc == 2 &&
    (layout.planes PLANE_U).rootIx == PLANE_U &&
    (layout.planes PLANE_U).offset == 0 &&
    (layout.planes PLANE_V).colInc == 2 &&
    (layout.planes PLANE_V).rootIx == PLANE_U &&
    (layout.planes PLANE_V).offset == 1

/-- IsP010 over a graphic view. -/
def IsP010 (view : C2GraphicView) : Bool :=
  if !IsYUV420_10bit view then false
  else
    let layout := view.layout
    layout.rootPlanes == 2 &&
    (layout.planes PLANE_U).colInc == 4 &&
    (layout.planes PLANE_U).rootIx == PLANE_U &&
    (layout.planes PLANE_U).offset == 0 &&
    (layout.planes PLANE_V).colInc == 4 &&
    (layout.planes PLANE_V).rootIx == PLANE_U &&
    (layout.planes PLANE_V).offset == 2 &&
    (layout.planes PLANE_Y).rightShift == 6 &&
    (layout.planes PLANE_U).rightShift == 6 &&
    (layout.planes PLANE_V).rightShift == 6

/-- IsNV21 over a graphic view. -/
def IsNV21 (view : C2GraphicView) : Bool :=
  if !IsYUV420 view then false
  else
    let layout := view.layout
    layout.rootPlanes == 2 &&
    (layout.planes PLANE_U).colInc == 2 &&
    (layout.planes PLANE_U).rootIx == PLANE_V &&
    (layout.planes PLANE_U).offset == 1 &&
    (layout.planes PLANE_V).colInc == 2 &&
    (layout.planes PLANE_V).rootIx == PLANE_V &&
    (layout.planes PLANE_V).offset == 0

/-- IsI420 over a graphic view. -/
def IsI420 (view : C2GraphicView) : Bool :=
  if !IsYUV420 view then false
  else
    let layout := view.layout
    layout.rootPlanes == 3 &&
    (layout.planes PLANE_U).colInc == 1 &&
    (layout.planes PLANE_U).rootIx == PLANE_U &&
    (layout.planes PLANE_U).offset == 0 &&
    (layout.planes PLANE_V).colInc == 1 &&
    (layout.planes PLANE_V).rootIx == PLANE_V &&
    (layout.planes PLANE_V).offset == 0

/-- IsYUV420 over a MediaImage2. -/
def MediaImage2.IsYUV420 (img : MediaImage2) : Bool :=
  img.mType == MediaImageType.YUV &&
  img.mNumPlanes == 3 &&
  img.mBitDepth == 8 &&
  img.mBitDepthAllocated == 8 &&
  (img.mPlane 0).mHorizSubsampling == 1 &&
  (img.mPlane 0).mVertSubsampling == 1 &&
  (img.mPlane 1).mHorizSubsampling == 2 &&
  (img.mPlane 1).mVertSubsampling == 2 &&
  (img.mPlane 2).mHorizSubsampling == 2 &&
  (img.mPlane 2).mVertSubsampling == 2

/-- IsNV12 over a MediaImage2. -/
def MediaImage2.IsNV12 (img : MediaImage2) : Bool :=
  if !img.IsYUV420 then false
  else
    (img.mPlane 1).mColInc == 2 &&
    (img.mPlane 2).mColInc == 2 &&
    (img.mPlane 2).mOffset == (img.mPlane 1).mOffset + 1

/-- IsNV21 over a MediaImage2. -/
def MediaImage2.IsNV21 (img : MediaImage2) : Bool :=
  if !img.IsYUV420 then false
  else
    (img.mPlane 1).mColInc == 2 &&
    (img.mPlane 2).mColInc == 2 &&
    (img.mPlane 1).mOffset == (img.mPlane 2).mOffset + 1

/-- IsI420 over a MediaImage2. -/
def MediaImage2.IsI420 (img : MediaImage2) : Bool :=
  if !img.IsYUV420 then false
  else
    (img.mPlane 1).mColInc == 1 &&
    (img.mPlane 2).mColInc == 1 &&
    decide ((img.mPlane 1).mOffset < (img.mPlane 2).mOffset)

/-- Model of libyuv::CopyPlane: for each of `height` rows, copy `width`
contiguous bytes; the strides advance the source and destination row bases. -/
def CopyPlaneCorr (sB sStride dB dStride : Int) (width height : Nat) : Corr :=
  ⟨dB, dStride, 1, sB, sStride, 1, width, height, 1⟩

/-- Model of libyuv::NV21ToNV12 (also invoked with exchanged chroma arguments
to turn NV12 into NV21): copy the luma plane and swap each chroma byte pair,
`dst[2k] = src[2k+1]` and `dst[2k+1] = src[2k]`, over `(w+1)/2` pairs and
`(h+1)/2` rows. -/
def nv21ToNV12Corrs (sY sSY sVU sSVU dY dSY dUV dSUV : Int) (w h : Nat) :
    List Corr :=
  [CopyPlaneCorr sY sSY dY dSY w h,
   ⟨dUV, dSUV, 2, sVU + 1, sSVU, 2, 1, (h + 1) / 2, (w + 1) / 2⟩,
   ⟨dUV + 1, dSUV, 2, sVU, sSVU, 2, 1, (h + 1) / 2, (w + 1) / 2⟩]

/-- Model of libyuv::NV12ToI420: copy luma and de-interleave chroma,
`dst_u[k] = src_uv[2k]`, `dst_v[k] = src_uv[2k+1]`. -/
def nv12ToI420Corrs (sY sSY sUV sSUV dY dSY dU dSU dV dSV : Int) (w h : Nat) :
    List Corr :=
  [CopyPlaneCorr sY sSY dY dSY w h,
   ⟨dU, dSU, 1, sUV, sSUV, 2, 1, (h + 1) / 2, (w + 1) / 2⟩,
   ⟨dV, dSV, 1, sUV + 1, sSUV, 2, 1, (h + 1) / 2, (w + 1) / 2⟩]

/-- Model of libyuv::NV21ToI420: NV12ToI420 with the two output planes
exchanged, `dst_v[k] = src_vu[2k]`, `dst_u[k] = src_vu[2k+1]`. -/
def nv21ToI420Corrs (sY sSY sVU sSVU dY dSY dU dSU dV dSV : Int) (w h : Nat) :
    List Corr :=
  [CopyPlaneCorr sY sSY dY dSY w h,
   ⟨dV, dSV, 1, sVU, sSVU, 2, 1, (h + 1) / 2, (w + 1) / 2⟩,
   ⟨dU, dSU, 1, sVU + 1, sSVU, 2, 1, (h + 1) / 2, (w + 1) / 2⟩]

/-- Model of libyuv::I420ToNV12: copy luma and interleave chroma,
`dst_uv[2k] = src_u[k]`, `dst_uv[2k+1] = src_v[k]`. -/
def i420ToNV12Corrs (sY sSY sU sSU sV sSV dY dSY dUV dSUV : Int) (w h : Nat) :
    List Corr :=
  [CopyPlaneCorr sY sSY dY dSY w h,
   ⟨dUV, dSUV, 2, sU, sSU, 1, 1, (h + 1) / 2, (w + 1) / 2⟩,
   ⟨dUV + 1, dSUV, 2, sV, sSV, 1, 1, (h + 1) / 2, (w + 1) / 2⟩]

/-- Model of libyuv::I420ToNV21: I420ToNV12 with the chroma sources
exchanged, `dst_vu[2k] = src_v[k]`, `dst_vu[2k+1] = src_u[k]`. -/
def i420ToNV21Corrs (sY sSY sU sSU sV sSV dY dSY dVU dSVU : Int) (w h : Nat) :
    List Corr :=
  [CopyPlaneCorr sY sSY dY dSY w h,
   ⟨dVU, dSVU, 2, sV, sSV, 1, 1, (h + 1) / 2, (w + 1) / 2⟩,
   ⟨dVU + 1, dSVU, 2, sU, sSU, 1, 1, (h + 1) / 2, (w + 1) / 2⟩]

/-- Base address of plane `i` of a flat image whose buffer starts at
`imgBase`. -/
def imgPlaneAddr (imgBase : Int) (img : MediaImage2) (i : Nat) : Int :=
  imgBase + ((img.mPlane i).mOffset : Int)

/-- Per-plane compatibility guard at the top of the plane loop of
`_ImageCopy`. -/
def planeCompatible (plane : C2PlaneInfo) (ip : MediaImage2Plane)
    (bitDepthAllocated bpp : Nat) : Bool :=
  !(plane.colSampling != ip.mHorizSubsampling ||
    plane.rowSampling != ip.mVertSubsampling ||
    plane.allocatedDepth != bitDepthAllocated ||
    decide (plane.allocatedDepth < plane.bitDepth) ||
    plane.rightShift != plane.allocatedDepth - plane.bitDepth ||
    (decide (1 < bpp) && plane.endianness != C2Endian.NATIVE))

/-- canCopyByRow of the generic path: both column increments equal the sample
width in bytes. -/
def canCopyByRow (plane : C2PlaneInfo) (ip : MediaImage2Plane) (bpp : Nat) :
    Bool :=
  plane.colInc == (bpp : Int) && ip.mColInc == (bpp : Int)

/-- canCopyByPlane of the generic path: canCopyByRow and equal row
increments. -/
def canCopyByPlane (plane : C2PlaneInfo) (ip : MediaImage2Plane) (bpp : Nat) :
    Bool :=
  canCopyByRow plane ip bpp && plane.rowInc == ip.mRowInc

/-- The copy granularity the generic path selects for one plane. -/
inductive Granularity where
  | wholePlane
  | perRow
  | perPixel
deriving DecidableEq, Repr

/-- Granularity selection of the generic path, in the order the source tests
its two booleans. -/
def copyGranularity (plane : C2PlaneInfo) (ip : MediaImage2Plane) (bpp : Nat) :
    Granularity :=
  if canCopyByPlane plane ip bpp then .wholePlane
  else if canCopyByRow plane ip bpp then .perRow
  else .perPixel

/-- The correspondence (image side as destination) of one plane of the
generic copy: one block copy of `rowInc * planeH` bytes, a per-row copy of
`min` of the two row increments, or a per-pixel copy of `bpp` bytes with
independent column increments. -/
def genPlaneCorr (vB : Int) (plane : C2PlaneInfo) (iB : Int)
    (ip : MediaImage2Plane) (bpp planeW planeH : Nat) : Corr :=
  match copyGranularity plane ip bpp with
  | .wholePlane =>
      ⟨iB, 0, 0, vB, 0, 0, (plane.rowInc * (planeH : Int)).toNat, 1, 1⟩
  | .perRow =>
      ⟨iB, ip.mRowInc, 0, vB, plane.rowInc, 0,
        (min plane.rowInc ip.mRowInc).toNat, planeH, 1⟩
  | .perPixel =>
      ⟨iB, ip.mRowInc, ip.mColInc, vB, plane.rowInc, plane.colInc, bpp,
        planeH, planeW⟩

/-- Plane loop of the generic `_ImageCopy` template with `k` planes left,
current plane index `i`, and the destination memory as accumulator.  The
compatibility guard of each plane runs before its copy, so a failure leaves
the planes before it already copied.  `toImg` is the template direction: the
destination is the image memory when true, the view memory when false. -/
def imageCopyGeneric (toImg : Bool) (srcMem : Mem) (view : C2GraphicView)
    (img : MediaImage2) (imgBase : Int) : Nat → Nat → Mem → Status × Mem
  | _, 0, dmem => (.OK, dmem)
  | i, k + 1, dmem =>
    let plane := view.layout.planes i
    let ip := img.mPlane i
    let bpp := divUp img.mBitDepthAllocated 8
    if planeCompatible plane ip img.mBitDepthAllocated bpp then
      let planeW := img.mWidth / plane.colSampling
      let planeH := img.mHeight / plane.rowSampling
      let corr := genPlaneCorr (view.data i) plane (imgPlaneAddr imgBase img i)
        ip bpp planeW planeH
      imageCopyGeneric toImg srcMem view img imgBase (i + 1) k
        (cpyRowsOf srcMem (if toImg then corr else corr.mirror) dmem)
    else (.BAD_VALUE, dmem)

/-- Model of the generic `_ImageCopy` template over all planes of the view. -/
def _ImageCopy (toImg : Bool) (srcMem : Mem) (view : C2GraphicView)
    (img : MediaImage2) (imgBase : Int) (dmem : Mem) : Status × Mem :=
  imageCopyGeneric toImg srcMem view img imgBase 0 view.layout.numPlanes dmem

/-- The correspondence the generic plane loop runs for plane `i`, oriented
for the template direction `toImg` (the loop builds the image-destination
correspondence and mirrors it when the view is the destination). -/
def genCorrAt (toImg : Bool) (view : C2GraphicView) (img : MediaImage2)
    (imgBase : Int) (i : Nat) : Corr :=
  let plane := view.layout.planes i
  let c := genPlaneCorr (view.data i) plane (imgPlaneAddr imgBase img i)
    (img.mPlane i) (divUp img.mBitDepthAllocated 8)
    (img.mWidth / plane.colSampling) (img.mHeight / plane.rowSampling)
  if toImg then c else c.mirror

/-- Model of `ImageCopy(uint8_t *imgBase, const MediaImage2 *img, const
C2GraphicView &view)`: copy the view into the flat image.  The null-pointer
guards are not modelled (the model cannot form a null image or base pointer);
the dimension guard is.  A libyuv call fails exactly when the crop width or
height is zero (the pointers are never null here), in which case the source
falls through to the generic path. -/
def ImageCopyToImg (imgMem : Mem) (imgBase : Int) (img : MediaImage2)
    (view : C2GraphicView) (viewMem : Mem) : Status × Mem :=
  if view.cropWidth ≠ img.mWidth ∨ view.cropHeight ≠ img.mHeight then
    (.BAD_VALUE, imgMem)
  else
    let srcY := view.data 0
    let srcU := view.data 1
    let srcV := view.data 2
    let ssY := (view.layout.planes 0).rowInc
    let ssU := (view.layout.planes 1).rowInc
    let ssV := (view.layout.planes 2).rowInc
    let dY := imgPlaneAddr imgBase img 0
    let dU := imgPlaneAddr imgBase img 1
    let dV := imgPlaneAddr imgBase img 2
    let dsY := (img.mPlane 0).mRowInc
    let dsU := (img.mPlane 1).mRowInc
    let dsV := (img.mPlane 2).mRowInc
    let w := view.cropWidth
    let h := view.cropHeight
    let yuvOk := 0 < w ∧ 0 < h
    if IsNV12 view then
      if img.IsNV12 then
        (.OK, applyCorrs viewMem
          [CopyPlaneCorr srcY ssY dY dsY w h,
           CopyPlaneCorr srcU ssU dU dsU w (h / 2)] imgMem)
      else if img.IsNV21 then
        if yuvOk then
          (.OK, applyCorrs viewMem
            (nv21ToNV12Corrs srcY ssY srcU ssU dY dsY dV dsV w h) imgMem)
        else _ImageCopy true viewMem view img imgBase imgMem
      else if img.IsI420 then
        if yuvOk then
          (.OK, applyCorrs viewMem
            (nv12ToI420Corrs srcY ssY srcU ssU dY dsY dU dsU dV dsV w h) imgMem)
        else _ImageCopy true viewMem view img imgBase imgMem
      else _ImageCopy true viewMem view img imgBase imgMem
    else if IsNV21 view then
      if img.IsNV12 then
        if yuvOk then
          (.OK, applyCorrs viewMem
            (nv21ToNV12Corrs srcY ssY srcV ssV dY dsY dU dsU w h) imgMem)
        else _ImageCopy true viewMem view img imgBase imgMem
      else if img.IsNV21 then
        (.OK, applyCorrs viewMem
          [CopyPlaneCorr srcY ssY dY dsY w h,
           CopyPlaneCorr srcV ssV dV dsV w (h / 2)] imgMem)
      else if img.IsI420 then
        if yuvOk then
          (.OK, applyCorrs viewMem
            (nv21ToI420Corrs srcY ssY srcV ssV dY dsY dU dsU dV dsV w h) imgMem)
        else _ImageCopy true viewMem view img imgBase imgMem
      else _ImageCopy true viewMem view img imgBase imgMem
    else if IsI420 view then
      if img.IsNV12 then
        if yuvOk then
          (.OK, applyCorrs viewMem
            (i420ToNV12Corrs srcY ssY srcU ssU srcV ssV dY dsY dU dsU w h) imgMem)
        else _ImageCopy true viewMem view img imgBase imgMem
      else if img.IsNV21 then
        if yuvOk then
          (.OK, applyCorrs viewMem
            (i420ToNV21Corrs srcY ssY srcU ssU srcV ssV dY dsY dV dsV w h) imgMem)
        else _ImageCopy true viewMem view img imgBase imgMem
      else if img.IsI420 then
        (.OK, applyCorrs viewMem
          [CopyPlaneCorr srcY ssY dY dsY w h,
           CopyPlaneCorr srcU ssU dU dsU (w / 2) (h / 2),
           CopyPlaneCorr srcV ssV dV dsV (w / 2) (h / 2)] imgMem)
      else _ImageCopy true viewMem view img imgBase imgMem
    else _ImageCopy true viewMem view img imgBase imgMem

/-- Model of `ImageCopy(C2GraphicView &view, const uint8_t *imgBase, const
MediaImage2 *img)`: copy the flat image into the view.  Same conventions as
`ImageCopyToImg`; the source dispatches on the image shape first, then the
view shape. -/
def ImageCopyToView (viewMem : Mem) (view : C2GraphicView) (imgBase : Int)
    (img : MediaImage2) (imgMem : Mem) : Status × Mem :=
  if view.cropWidth ≠ img.mWidth ∨ view.cropHeight ≠ img.mHeight then
    (.BAD_VALUE, viewMem)
  else
    let sY := imgPlaneAddr imgBase img 0
    let sU := imgPlaneAddr imgBase img 1
    let sV := imgPlaneAddr imgBase img 2
    let ssY := (img.mPlane 0).mRowInc
    let ssU := (img.mPlane 1).mRowInc
    let ssV := (img.mPlane 2).mRowInc
    let dY := view.data 0
    let dU := view.data 1
    let dV := view.data 2
    let dsY := (view.layout.planes 0).rowInc
    let dsU := (view.layout.planes 1).rowInc
    let dsV := (view.layout.planes 2).rowInc
    let w := view.cropWidth
    let h := view.cropHeight
    let yuvOk := 0 < w ∧ 0 < h
    if img.IsNV12 then
      if IsNV12 view then
        (.OK, applyCorrs imgMem
          [CopyPlaneCorr sY ssY dY dsY w h,
           CopyPlaneCorr sU ssU dU dsU w (h / 2)] viewMem)
      else if IsNV21 view then
        if yuvOk then
          (.OK, applyCorrs imgMem
            (nv21ToNV12Corrs sY ssY sU ssU dY dsY dV dsV w h) viewMem)
        else _ImageCopy false imgMem view img imgBase viewMem
      else if IsI420 view then
        if yuvOk then
          (.OK, applyCorrs imgMem
            (nv12ToI420Corrs sY ssY sU ssU dY dsY dU dsU dV dsV w h) viewMem)
        else _ImageCopy false imgMem view img imgBase viewMem
      else _ImageCopy false imgMem view img imgBase viewMem
    else if img.IsNV21 then
      if IsNV12 view then
        if yuvOk then
          (.OK, applyCorrs imgMem
            (nv21ToNV12Corrs sY ssY sV ssV dY dsY dU dsU w h) viewMem)
        else _ImageCopy false imgMem view img imgBase viewMem
      else if IsNV21 view then
        (.OK, applyCorrs imgMem
          [CopyPlaneCorr sY ssY dY dsY w h,
           CopyPlaneCorr sV ssV dV dsV w (h / 2)] viewMem)
      else if IsI420 view then
        if yuvOk then
          (.OK, applyCorrs imgMem
            (nv21ToI420Corrs sY ssY sV ssV dY dsY dU dsU dV dsV w h) viewMem)
        else _ImageCopy false imgMem view img imgBase viewMem
      else _ImageCopy false imgMem view img imgBase viewMem
    else if img.IsI420 then
      if IsNV12 view then
        if yuvOk then
          (.OK, applyCorrs imgMem
            (i420ToNV12Corrs sY ssY sU ssU sV ssV dY dsY dU dsU w h) viewMem)
        else _ImageCopy false imgMem view img imgBase viewMem
      else if IsNV21 view then
        if yuvOk then
          (.OK, applyCorrs imgMem
            (i420ToNV21Corrs sY ssY sU ssU sV ssV dY dsY dV dsV w h) viewMem)
        else _ImageCopy false imgMem view img imgBase viewMem
      else if IsI420 view then
        (.OK, applyCorrs imgMem
          [CopyPlaneCorr sY ssY dY dsY w h,
           CopyPlaneCorr sU ssU dU dsU (w / 2) (h / 2),
           CopyPlaneCorr sV ssV dV dsV (w / 2) (h / 2)] viewMem)
      else _ImageCopy false imgMem view img imgBase viewMem
    else _ImageCopy false imgMem view img imgBase viewMem

/-- SDK color-format constant (MediaCodecConstants.h). -/
def COLOR_FormatYUV420Flexible : Int := 2135033992

/-- SDK color-format constant (MediaCodecConstants.h). -/
def COLOR_FormatYUV420Planar : Int := 19

/-- SDK color-format constant (MediaCodecConstants.h). -/
def COLOR_FormatYUV420PackedPlanar : Int := 20

/-- SDK color-format constant (MediaCodecConstants.h). -/
def COLOR_FormatYUV420SemiPlanar : Int := 21

/-- SDK color-format constant (MediaCodecConstants.h). -/
def COLOR_FormatYUV420PackedSemiPlanar : Int := 39

/-- SDK color-format constant (MediaCodecConstants.h). -/
def COLOR_FormatYUVP010 : Int := 54

/-- SDK color-format constant (MediaCodecConstants.h). -/
def COLOR_FormatYUV411Planar : Int := 17

/-- SDK color-format constant (MediaCodecConstants.h). -/
def COLOR_FormatYUV411PackedPlanar : Int := 18

/-- SDK color-format constant (MediaCodecConstants.h). -/
def COLOR_FormatYUV422Planar : Int := 22

/-- SDK color-format constant (MediaCodecConstants.h). -/
def COLOR_FormatYUV422PackedPlanar : Int := 23

/-- SDK color-format constant (MediaCodecConstants.h). -/
def COLOR_FormatYUV422SemiPlanar : Int := 24

/-- SDK color-format constant (MediaCodecConstants.h). -/
def COLOR_FormatYUV422PackedSemiPlanar : Int := 40

/-- SDK color-format constant (MediaCodecConstants.h). -/
def COLOR_FormatYUV422Flexible : Int := 2135042184

/-- SDK color-format constant (MediaCodecConstants.h). -/
def COLOR_FormatYUV444Flexible : Int := 2135181448

/-- SDK color-format constant (MediaCodecConstants.h). -/
def COLOR_FormatYUV444Interleaved : Int := 29

/-- SDK color-format constant (MediaCodecConstants.h). -/
def COLOR_FormatSurface : Int := 2130708361

/-- SDK color-format constant (MediaCodecConstants.h). -/
def COLOR_FormatRGBFlexible : Int := 2134292616

/-- SDK color-format constant (MediaCodecConstants.h). -/
def COLOR_Format24bitBGR888 : Int := 12

/-- SDK color-format constant (MediaCodecConstants.h). -/
def COLOR_Format24bitRGB888 : Int := 11

/-- SDK color-format constant (MediaCodecConstants.h). -/
def COLOR_FormatRGBAFlexible : Int := 2134288520

/-- SDK color-format constant (MediaCodecConstants.h). -/
def COLOR_Format32bitABGR8888 : Int := 2130747392

/-- SDK color-format constant (MediaCodecConstants.h). -/
def COLOR_Format32bitARGB8888 : Int := 16

/-- SDK color-format constant (MediaCodecConstants.h). -/
def COLOR_Format32bitBGRA8888 : Int := 15

/-- Modelled from the spec: C2PlaneInfo::minOffset of the codec2 core library
(not among the given sources) — the smallest byte offset addressed by a
`width × height` sample grid of this plane, per the spec's "tightest
contiguous byte span covering all planes' addressable extents". -/
def C2PlaneInfo.minOffset (p : C2PlaneInfo) (width height : Nat) : Int :=
  (if 0 < width ∧ p.colInc < 0 then p.colInc * ((width : Int) - 1) else 0) +
  (if 0 < height ∧ p.rowInc < 0 then p.rowInc * ((height : Int) - 1) else 0)

/-- Modelled from the spec: C2PlaneInfo::maxOffset of the codec2 core library
(not among the given sources) — one past the largest byte offset addressed by
a `width × height` sample grid of this plane (the last sample occupies the
allocated bytes of one sample word). -/
def C2PlaneInfo.maxOffset (p : C2PlaneInfo) (width height : Nat) : Int :=
  (divUp p.allocatedDepth 8 : Int) +
  (if 0 < width ∧ 0 < p.colInc then p.colInc * ((width : Int) - 1) else 0) +
  (if 0 < height ∧ 0 < p.rowInc then p.rowInc * ((height : Int) - 1) else 0)

/-- The two integer entries of the AMessage format that the converter reads:
KEY_COLOR_FORMAT and "android._color-format"; `none` models an absent
entry. -/
structure AMessageM where
  colorFormat : Option Int
  componentColorFormat : Option Int
deriving DecidableEq, Repr

/-- An ABuffer: base pointer, capacity, and the visible range set by
`setRange(0, size)`. -/
structure ABufferM where
  base : Int
  capacity : Nat
  size : Nat
deriving DecidableEq, Repr

/-- The MediaImage2 produced by `memset(mediaImage, 0, sizeof(*mediaImage))`
(type tag 0 is MEDIA_IMAGE_TYPE_UNKNOWN). -/
def zeroMediaImage2 : MediaImage2 where
  mType := .UNKNOWN
  mNumPlanes := 0
  mWidth := 0
  mHeight := 0
  mBitDepth := 0
  mBitDepthAllocated := 0
  mPlane := fun _ => ⟨0, 0, 0, 0, 0⟩

/-- The state of a GraphicView2MediaImageConverter after construction. -/
structure ConverterState where
  mInitCheck : Status
  mView : C2GraphicView
  mWidth : Nat
  mHeight : Nat
  mClientColorFormat : Int
  mComponentColorFormat : Int
  mWrapped : Option ABufferM
  mAllocatedDepth : Nat
  mBackBufferSize : Nat
  mMediaImage : MediaImage2
  mBackBuffer : Option ABufferM

/-- The scan of the wrapping block of the converter: fold over the planes
accumulating (minPtr, maxPtr, planeSize), with `k` planes left at index `i`.
planeStride is `std::abs(rowInc / colInc)` with C truncating division. -/
def wrapScanGo (view : C2GraphicView) (depth : Nat) :
    Nat → Nat → Int × Int × Int → Int × Int × Int
  | _, 0, acc => acc
  | i, k + 1, (minPtr, maxPtr, planeSize) =>
    let plane := view.layout.planes i
    let planeStride : Int := (Int.tdiv plane.rowInc plane.colInc).natAbs
    let mo := plane.minOffset (view.width / plane.colSampling)
      (view.height / plane.rowSampling)
    let mx := plane.maxOffset (view.width / plane.colSampling)
      (view.height / plane.rowSampling)
    let minPtr' := if view.data i + mo < minPtr then view.data i + mo else minPtr
    let maxPtr' := if maxPtr < view.data i + mx then view.data i + mx else maxPtr
    let planeSize' := planeSize +
      planeStride * (divUp depth 8 : Int) * (alignUp view.height 64 : Int) /
        (plane.rowSampling : Int)
    wrapScanGo view depth (i + 1) k (minPtr', maxPtr', planeSize')

/-- The wrapping scan over all planes, starting from `data[0]` for both
pointers and zero accumulated plane size. -/
def wrapScan (view : C2GraphicView) (depth : Nat) : Int × Int × Int :=
  wrapScanGo view depth 0 view.layout.numPlanes (view.data 0, view.data 0, 0)

/-- The final per-plane validation loop of the converter: rejects a plane with
more meaningful than allocated bits, a right shift that is not MSB alignment,
a wide sample that is not native-endian, or a depth differing from plane 0;
accumulates the back-buffer size `stride * vStride / rowSampling /
colSampling` over the planes.  Returns `none` on rejection. -/
def converterFinalCheckGo (layout : C2PlanarLayout)
    (depth bit stride vStride : Nat) : Nat → Nat → Nat → Option Nat
  | _, 0, acc => some acc
  | i, k + 1, acc =>
    let plane := layout.planes i
    if plane.allocatedDepth < plane.bitDepth ∨
        plane.rightShift ≠ plane.allocatedDepth - plane.bitDepth then none
    else if 8 < plane.allocatedDepth ∧ plane.endianness ≠ .NATIVE then none
    else if plane.allocatedDepth ≠ depth ∨ plane.bitDepth ≠ bit then none
    else converterFinalCheckGo layout depth bit stride vStride (i + 1) k
      (acc + stride * vStride / plane.rowSampling / plane.colSampling)

/-- The final validation loop over all planes. -/
def converterFinalCheck (layout : C2PlanarLayout)
    (depth bit stride vStride : Nat) : Option Nat :=
  converterFinalCheckGo layout depth bit stride vStride 0 layout.numPlanes 0

/-- The shared ending of every successful branch of the converter
constructor: run the wrapping scan, wrap when the span starts at `data[0]`
and fits inside the theoretical plane size, fill in the media image header,
and run the final per-plane validation loop. -/
def converterTail (view : C2GraphicView) (clientFmt compFmt : Int)
    (mAllocatedDepth bitDepth stride vStride : Nat)
    (img1 : MediaImage2) (tryWrapping : Bool) : ConverterState :=
  let layout := view.layout
  let scan := wrapScan view mAllocatedDepth
  let minPtr := scan.1
  let maxPtr := scan.2.1
  let planeSize := scan.2.2
  let doWrap := tryWrapping ∧ minPtr = view.data 0 ∧
    maxPtr - minPtr ≤ planeSize
  let imgW := if doWrap then
      { img1 with mPlane := fun i => if i < layout.numPlanes then
          { mOffset := (view.data i - minPtr).toNat,
            mColInc := (layout.planes i).colInc,
            mRowInc := (layout.planes i).rowInc,
            mHorizSubsampling := (layout.planes i).colSampling,
            mVertSubsampling := (layout.planes i).rowSampling }
        else img1.mPlane i }
    else img1
  let wrapped := if doWrap then
      some (⟨minPtr, (maxPtr - minPtr).toNat, (maxPtr - minPtr).toNat⟩ :
        ABufferM)
    else none
  let img2 := { imgW with
    mNumPlanes := layout.numPlanes,
    mWidth := view.cropWidth, mHeight := view.cropHeight,
    mBitDepth := bitDepth, mBitDepthAllocated := mAllocatedDepth }
  match converterFinalCheck layout mAllocatedDepth bitDepth stride vStride with
  | none =>
    { mInitCheck := .BAD_VALUE, mView := view, mWidth := view.width,
      mHeight := view.height, mClientColorFormat := clientFmt,
      mComponentColorFormat := compFmt, mWrapped := wrapped,
      mAllocatedDepth := mAllocatedDepth, mBackBufferSize := 0,
      mMediaImage := img2, mBackBuffer := none }
  | some bufSize =>
    { mInitCheck := .OK, mView := view, mWidth := view.width,
      mHeight := view.height, mClientColorFormat := clientFmt,
      mComponentColorFormat := compFmt, mWrapped := wrapped,
      mAllocatedDepth := mAllocatedDepth, mBackBufferSize := bufSize,
      mMediaImage := img2, mBackBuffer := none }

/-- The client-format bit-depth table of the converter's YUV branch. -/
def yuvClientBitDepth (clientFmt : Int) : Option Int :=
  if clientFmt = COLOR_FormatYUVP010 then some 10
  else if clientFmt = COLOR_FormatYUV411PackedPlanar ∨
      clientFmt = COLOR_FormatYUV411Planar ∨
      clientFmt = COLOR_FormatYUV420Flexible ∨
      clientFmt = COLOR_FormatYUV420PackedPlanar ∨
      clientFmt = COLOR_FormatYUV420PackedSemiPlanar ∨
      clientFmt = COLOR_FormatYUV420Planar ∨
      clientFmt = COLOR_FormatYUV420SemiPlanar ∨
      clientFmt = COLOR_FormatYUV422Flexible ∨
      clientFmt = COLOR_FormatYUV422PackedPlanar ∨
      clientFmt = COLOR_FormatYUV422PackedSemiPlanar ∨
      clientFmt = COLOR_FormatYUV422Planar ∨
      clientFmt = COLOR_FormatYUV422SemiPlanar ∨
      clientFmt = COLOR_FormatYUV444Flexible ∨
      clientFmt = COLOR_FormatYUV444Interleaved then some 8
  else none

/-- The YUV branch's detection of a standard 8-bit 4:2:0 layout. -/
def yuv420888Flag (view : C2GraphicView) : Bool :=
  let layout := view.layout
  let yPlane := layout.planes PLANE_Y
  let uPlane := layout.planes PLANE_U
  let vPlane := layout.planes PLANE_V
  (yPlane.rowSampling == 1 && yPlane.colSampling == 1 &&
   uPlane.rowSampling == 2 && uPlane.colSampling == 2 &&
   vPlane.rowSampling == 2 && vPlane.colSampling == 2) &&
  ((layout.planes 0).allocatedDepth == 8 &&
   (layout.planes 0).bitDepth == 8 &&
   (layout.planes 1).allocatedDepth == 8 &&
   (layout.planes 1).bitDepth == 8 &&
   (layout.planes 2).allocatedDepth == 8 &&
   (layout.planes 2).bitDepth == 8) &&
  yPlane.colInc == 1 && uPlane.rowInc == vPlane.rowInc

/-- The copy format the YUV branch selects from the client format and the
actual layout. -/
def yuvCopyFormat (view : C2GraphicView) (clientFmt : Int) : Int :=
  let uPlane := view.layout.planes PLANE_U
  let vPlane := view.layout.planes PLANE_V
  let yPlane := view.layout.planes PLANE_Y
  if yuv420888Flag view && clientFmt == COLOR_FormatYUV420Flexible then
    if uPlane.colInc == 2 && vPlane.colInc == 2 &&
        yPlane.rowInc == uPlane.rowInc then
      COLOR_FormatYUV420PackedSemiPlanar
    else if uPlane.colInc == 1 && vPlane.colInc == 1 &&
        yPlane.rowInc == uPlane.rowInc * 2 then
      COLOR_FormatYUV420PackedPlanar
    else clientFmt
  else clientFmt

/-- The planar 4:2:0 media image header of the YUV branch. -/
def yuvImgPlanar (stride vStride : Nat) : MediaImage2 :=
  let img0 := { zeroMediaImage2 with mType := .YUV }
  { img0 with
    mPlane := fun i =>
    if i = 0 then ⟨0, 1, (stride : Int), 1, 1⟩
    else if i = 1 then
      ⟨stride * vStride, 1, (stride / 2 : Nat), 2, 2⟩
    else if i = 2 then
      ⟨stride * vStride * 5 / 4, 1, (stride / 2 : Nat), 2, 2⟩
    else img0.mPlane i }

/-- The semiplanar 4:2:0 media image header of the YUV branch. -/
def yuvImgSemi (stride vStride : Nat) : MediaImage2 :=
  let img0 := { zeroMediaImage2 with mType := .YUV }
  { img0 with
    mPlane := fun i =>
    if i = 0 then ⟨0, 1, (stride : Int), 1, 1⟩
    else if i = 1 then ⟨stride * vStride, 2, (stride : Int), 2, 2⟩
    else if i = 2 then
      ⟨stride * vStride + 1, 2, (stride : Int), 2, 2⟩
    else img0.mPlane i }

/-- The P010 media image header of the YUV branch. -/
def yuvImgP010 (stride vStride : Nat) : MediaImage2 :=
  let img0 := { zeroMediaImage2 with mType := .YUV }
  { img0 with
    mPlane := fun i =>
    if i = 0 then ⟨0, 2, (stride : Int), 1, 1⟩
    else if i = 1 then ⟨stride * vStride, 4, (stride : Int), 2, 2⟩
    else if i = 2 then
      ⟨stride * vStride + 2, 4, (stride : Int), 2, 2⟩
    else img0.mPlane i }

/-- The media image header the YUV branch builds for any other layout. -/
def yuvImgDefault (view : C2GraphicView)
    (mAllocatedDepth stride vStride : Nat) : MediaImage2 :=
  let img0 := { zeroMediaImage2 with mType := .YUV }
  let yPlane := view.layout.planes PLANE_Y
  let uPlane := view.layout.planes PLANE_U
  let vPlane := view.layout.planes PLANE_V
  let colInc := divUp mAllocatedDepth 8
  let rowIncY := stride * colInc / yPlane.colSampling
  let offsetU := rowIncY * vStride / yPlane.rowSampling
  let rowIncU := stride * colInc / uPlane.colSampling
  let offsetV := offsetU + rowIncU * vStride / uPlane.rowSampling
  let rowIncV := stride * colInc / vPlane.colSampling
  { img0 with
    mPlane := fun i =>
    if i = 0 then
      ⟨0, (colInc : Int), (rowIncY : Int), yPlane.colSampling,
        yPlane.rowSampling⟩
    else if i = 1 then
      ⟨offsetU, (colInc : Int), (rowIncU : Int),
        uPlane.colSampling, uPlane.rowSampling⟩
    else if i = 2 then
      ⟨offsetV, (colInc : Int), (rowIncV : Int),
        vPlane.colSampling, vPlane.rowSampling⟩
    else img0.mPlane i }

/-- Wrapping eligibility of the planar YUV sub-branch. -/
def yuvTryWrapPlanar (view : C2GraphicView) (tryWrapping0 : Bool)
    (clientFmt : Int) : Bool :=
  let yPlane := view.layout.planes PLANE_Y
  let uPlane := view.layout.planes PLANE_U
  let vPlane := view.layout.planes PLANE_V
  if tryWrapping0 && clientFmt != COLOR_FormatYUV420Flexible then
    yuv420888Flag view && uPlane.colInc == 1 && vPlane.colInc == 1 &&
    yPlane.rowInc == uPlane.rowInc * 2 &&
    decide (view.data 0 < view.data 1) &&
    decide (view.data 1 < view.data 2)
  else tryWrapping0

/-- Wrapping eligibility of the semiplanar YUV sub-branch. -/
def yuvTryWrapSemi (view : C2GraphicView) (tryWrapping0 : Bool)
    (clientFmt : Int) : Bool :=
  let yPlane := view.layout.planes PLANE_Y
  let uPlane := view.layout.planes PLANE_U
  let vPlane := view.layout.planes PLANE_V
  if tryWrapping0 && clientFmt != COLOR_FormatYUV420Flexible then
    yuv420888Flag view && uPlane.colInc == 2 && vPlane.colInc == 2 &&
    yPlane.rowInc == uPlane.rowInc &&
    decide (view.data 0 < view.data 1) &&
    decide (view.data 1 < view.data 2)
  else tryWrapping0

/-- Wrapping eligibility of the P010 YUV sub-branch. -/
def yuvTryWrapP010 (view : C2GraphicView) (tryWrapping0 : Bool) : Bool :=
  let yPlane := view.layout.planes PLANE_Y
  let uPlane := view.layout.planes PLANE_U
  let vPlane := view.layout.planes PLANE_V
  if tryWrapping0 then
    yPlane.allocatedDepth == 16 && uPlane.allocatedDepth == 16 &&
    vPlane.allocatedDepth == 16 && yPlane.bitDepth == 10 &&
    uPlane.bitDepth == 10 && vPlane.bitDepth == 10 &&
    yPlane.rightShift == 6 && uPlane.rightShift == 6 &&
    vPlane.rightShift == 6 && yPlane.rowSampling == 1 &&
    yPlane.colSampling == 1 && uPlane.rowSampling == 2 &&
    uPlane.colSampling == 2 && vPlane.rowSampling == 2 &&
    vPlane.colSampling == 2 && yPlane.colInc == 2 &&
    uPlane.colInc == 4 && vPlane.colInc == 4 &&
    yPlane.rowInc == uPlane.rowInc &&
    yPlane.rowInc == vPlane.rowInc
  else tryWrapping0

/-- The YUV branch of the converter constructor. -/
def converterYUV (view : C2GraphicView) (format : AMessageM)
    (copy : Bool) : ConverterState :=
  let clientFmt := format.colorFormat.getD COLOR_FormatYUV420Flexible
  let compFmt := format.componentColorFormat.getD COLOR_FormatYUV420Flexible
  let fail := fun (st : Status) (img : MediaImage2) (depth : Nat) =>
    ({ mInitCheck := st, mView := view, mWidth := view.width,
       mHeight := view.height, mClientColorFormat := clientFmt,
       mComponentColorFormat := compFmt, mWrapped := none,
       mAllocatedDepth := depth, mBackBufferSize := 0, mMediaImage := img,
       mBackBuffer := none } : ConverterState)
  let mAllocatedDepth := (view.layout.planes 0).allocatedDepth
  let bitDepth := (view.layout.planes 0).bitDepth
  let stride := alignUp view.cropWidth 2 *
    divUp (view.layout.planes 0).allocatedDepth 8
  let vStride := alignUp view.cropHeight 2
  let tryWrapping0 := !copy
  let tail := fun (img1 : MediaImage2) (tryWrapping : Bool) =>
    converterTail view clientFmt compFmt mAllocatedDepth bitDepth stride
      vStride img1 tryWrapping
  let img0 := { zeroMediaImage2 with mType := .YUV }
  if view.layout.numPlanes ≠ 3 then fail .BAD_VALUE img0 mAllocatedDepth
  else if (yuvClientBitDepth clientFmt).isSome ∧
      (yuvClientBitDepth clientFmt).getD 0 ≠ (bitDepth : Int) then
    fail .BAD_VALUE img0 mAllocatedDepth
  else if (view.layout.planes PLANE_Y).channel ≠ .Y ∨
      (view.layout.planes PLANE_U).channel ≠ .CB ∨
      (view.layout.planes PLANE_V).channel ≠ .CR then
    fail .BAD_VALUE img0 mAllocatedDepth
  else if yuvCopyFormat view clientFmt = COLOR_FormatYUV420Flexible ∨
      yuvCopyFormat view clientFmt = COLOR_FormatYUV420Planar ∨
      yuvCopyFormat view clientFmt = COLOR_FormatYUV420PackedPlanar then
    tail (yuvImgPlanar stride vStride)
      (yuvTryWrapPlanar view tryWrapping0 clientFmt)
  else if yuvCopyFormat view clientFmt = COLOR_FormatYUV420SemiPlanar ∨
      yuvCopyFormat view clientFmt = COLOR_FormatYUV420PackedSemiPlanar then
    tail (yuvImgSemi stride vStride)
      (yuvTryWrapSemi view tryWrapping0 clientFmt)
  else if yuvCopyFormat view clientFmt = COLOR_FormatYUVP010 then
    tail (yuvImgP010 stride vStride) (yuvTryWrapP010 view tryWrapping0)
  else
    tail (yuvImgDefault view mAllocatedDepth stride vStride) tryWrapping0

/-- Model of the GraphicView2MediaImageConverter constructor. -/
def GraphicView2MediaImageConverter (view : C2GraphicView) (format : AMessageM)
    (copy : Bool) : ConverterState :=
  let clientFmt := format.colorFormat.getD COLOR_FormatYUV420Flexible
  let compFmt := format.componentColorFormat.getD COLOR_FormatYUV420Flexible
  let fail := fun (st : Status) (img : MediaImage2) (depth : Nat) =>
    ({ mInitCheck := st, mView := view, mWidth := view.width,
       mHeight := view.height, mClientColorFormat := clientFmt,
       mComponentColorFormat := compFmt, mWrapped := none,
       mAllocatedDepth := depth, mBackBufferSize := 0, mMediaImage := img,
       mBackBuffer := none } : ConverterState)
  if view.err ≠ 0 then fail .BAD_VALUE zeroMediaImage2 0
  else
    let layout := view.layout
    if layout.numPlanes = 0 then fail .BAD_VALUE zeroMediaImage2 0
    else
      let mAllocatedDepth := (layout.planes 0).allocatedDepth
      let bitDepth := (layout.planes 0).bitDepth
      let stride := alignUp view.cropWidth 2 * divUp (layout.planes 0).allocatedDepth 8
      let vStride := alignUp view.cropHeight 2
      let tryWrapping0 := !copy
      let tail := fun (img1 : MediaImage2) (tryWrapping : Bool) =>
        converterTail view clientFmt compFmt mAllocatedDepth bitDepth stride
          vStride img1 tryWrapping
      match layout.type with
      | .YUV => converterYUV view format copy
      | .YUVA => fail .NO_INIT zeroMediaImage2 mAllocatedDepth
      | .RGB =>
        let img0 := { zeroMediaImage2 with mType := .RGB }
        if clientFmt = COLOR_FormatSurface ∨ clientFmt = COLOR_FormatRGBFlexible ∨
            clientFmt = COLOR_Format24bitBGR888 ∨
            clientFmt = COLOR_Format24bitRGB888 then
          if layout.numPlanes ≠ 3 then fail .BAD_VALUE img0 mAllocatedDepth
          else tail img0 tryWrapping0
        else fail .BAD_VALUE img0 mAllocatedDepth
      | .RGBA =>
        let img0 := { zeroMediaImage2 with mType := .RGBA }
        if clientFmt = COLOR_FormatSurface ∨
            clientFmt = COLOR_FormatRGBAFlexible ∨
            clientFmt = COLOR_Format32bitABGR8888 ∨
            clientFmt = COLOR_Format32bitARGB8888 ∨
            clientFmt = COLOR_Format32bitBGRA8888 then
          if layout.numPlanes ≠ 4 then fail .BAD_VALUE img0 mAllocatedDepth
          else tail img0 tryWrapping0
        else fail .BAD_VALUE img0 mAllocatedDepth
      | .UNKNOWN =>
        let img0 := { zeroMediaImage2 with mType := .UNKNOWN }
        if layout.numPlanes = 1 then
          let plane := layout.planes 0
          let tryW := if plane.colInc < 0 ∨ plane.rowInc < 0 then false
            else tryWrapping0
          let imgU := { img0 with
                  mPlane := fun i =>
            if i = 0 then
              ⟨0, (plane.colInc.natAbs : Int), (plane.rowInc.natAbs : Int),
                plane.colSampling, plane.rowSampling⟩
            else img0.mPlane i }
          tail imgU tryW
        else fail .NO_INIT img0 mAllocatedDepth

/-- GraphicView2MediaImageConverter::initCheck. -/
def ConverterState.initCheck (st : ConverterState) : Status := st.mInitCheck

/-- GraphicView2MediaImageConverter::backBufferSize. -/
def ConverterState.backBufferSize (st : ConverterState) : Nat :=
  st.mBackBufferSize

/-- GraphicView2MediaImageConverter::wrap: the wrapped buffer, unless a back
buffer has been adopted. -/
def ConverterState.wrap (st : ConverterState) : Option ABufferM :=
  if st.mBackBuffer.isNone then st.mWrapped else none

/-- GraphicView2MediaImageConverter::setBackBuffer: reject a null buffer or
one smaller than the required size; otherwise clamp its range and adopt
it. -/
def ConverterState.setBackBuffer (st : ConverterState) :
    Option ABufferM → Bool × ConverterState
  | none => (false, st)
  | some b =>
    if b.capacity < st.mBackBufferSize then (false, st)
    else (true, { st with mBackBuffer := some { b with size := st.mBackBufferSize } })

/-- GraphicView2MediaImageConverter::copyToMediaImage: return the recorded
init status when it is not OK; otherwise run ImageCopy into the back buffer.
The result is `none` when the source would dereference a null back buffer. -/
def ConverterState.copyToMediaImage (st : ConverterState)
    (viewMem imgMem : Mem) : Option (Status × Mem) :=
  if st.mInitCheck ≠ .OK then some (st.mInitCheck, imgMem)
  else match st.mBackBuffer with
    | none => none
    | some b =>
      some (ImageCopyToImg imgMem b.base st.mMediaImage st.mView viewMem)

/-- A block of the raw memory-block pool: an allocation identity and a
size. -/
structure PoolBlock where
  blockId : Nat
  size : Nat
deriving DecidableEq, Repr

/-- State of MemoryBlockPoolImpl; `nextId` models the identity of the next
fresh heap allocation (distinct from every earlier one). -/
structure PoolState where
  mFreeBlocks : List PoolBlock
  mBlocksInUse : List PoolBlock
  mCurrentSize : Nat
  nextId : Nat
deriving DecidableEq, Repr

/-- MemoryBlockPoolImpl::fetch: drop every free block whose size differs from
the request, set the current size, then reuse the front free block or
allocate a fresh one. -/
def PoolState.fetch (st : PoolState) (size : Nat) : PoolBlock × PoolState :=
  let free := st.mFreeBlocks.filter (fun b => b.size == size)
  match free with
  | [] =>
    (⟨st.nextId, size⟩,
     ⟨[], ⟨st.nextId, size⟩ :: st.mBlocksInUse, size, st.nextId + 1⟩)
  | b :: rest => (b, ⟨rest, b :: st.mBlocksInUse, size, st.nextId⟩)

/-- MemoryBlockPoolImpl::release: return the block to the front of the free
list when its size is the current size, else discard it. -/
def PoolState.release (st : PoolState) (b : PoolBlock) : PoolState :=
  let inUse := st.mBlocksInUse.erase b
  if b.size = st.mCurrentSize then
    { st with mFreeBlocks := b :: st.mFreeBlocks, mBlocksInUse := inUse }
  else { st with mBlocksInUse := inUse }

/-- A fresh MemoryBlockPool (the current size starts effectively
unconstrained; zero here, no fetch or release depends on it before the first
fetch sets it). -/
def emptyPool : PoolState := ⟨[], [], 0, 0⟩

/-- Trace fetch(100) on a fresh pool. -/
def poolTrace1a : PoolBlock × PoolState := emptyPool.fetch 100

/-- ... then release and fetch(200). -/
def poolTrace1b : PoolBlock × PoolState :=
  (poolTrace1a.2.release poolTrace1a.1).fetch 200

/-- ... then release and fetch(100) again. -/
def poolTrace1c : PoolBlock × PoolState :=
  (poolTrace1b.2.release poolTrace1b.1).fetch 100

/-- Trace fetch(4096) on a fresh pool. -/
def poolTrace2a : PoolBlock × PoolState := emptyPool.fetch 4096

/-- ... then release and fetch(4096) again. -/
def poolTrace2b : PoolBlock × PoolState :=
  (poolTrace2a.2.release poolTrace2a.1).fetch 4096

/-- Block type of C2BufferData. -/
inductive C2BufType where
  | LINEAR
  | GRAPHIC
deriving DecidableEq, Repr

/-- A linear block of a C2Buffer together with the result of mapping it:
`size` is the declared block size; `mapErr`, `mapData` and `mapCapacity`
describe the C2ReadView that `map().get()` yields. -/
structure LinBlock where
  size : Nat
  mapErr : Int
  mapData : Int
  mapCapacity : Nat
deriving DecidableEq, Repr

/-- The data of a C2Buffer as seen through `data()`. -/
structure C2BufferData where
  btype : C2BufType
  linearBlocks : List LinBlock
deriving DecidableEq, Repr

/-- The state of a Codec2Buffer wrapper relevant to the linear copy helpers:
the backing buffer base (none models a null `base()`), its capacity and the
visible range. -/
structure LinearWrapper where
  base : Option Int
  capacity : Nat
  rangeOffset : Nat
  rangeLength : Nat
deriving DecidableEq, Repr

/-- Codec2Buffer::canCopyLinear. -/
def Codec2Buffer.canCopyLinear (this : LinearWrapper)
    (buffer : Option C2BufferData) : Bool :=
  if this.base.isNone then false
  else match buffer with
    | none => true
    | some buf =>
      if buf.btype != C2BufType.LINEAR then false
      else match buf.linearBlocks with
        | [] => true
        | [blk] => !decide (this.capacity < blk.size)
        | _ => false

/-- Codec2Buffer::copyLinear: empty or absent sources succeed with an empty
visible range; a mapping error or a mapped capacity beyond this buffer's
capacity fails with no state change; otherwise the mapped bytes are copied
and the range is set to the mapped capacity. -/
def Codec2Buffer.copyLinear (this : LinearWrapper) (mem : Mem)
    (buffer : Option C2BufferData) : Bool × LinearWrapper × Mem :=
  match buffer with
  | none => (true, { this with rangeOffset := 0, rangeLength := 0 }, mem)
  | some buf =>
    match buf.linearBlocks with
    | [] => (true, { this with rangeOffset := 0, rangeLength := 0 }, mem)
    | blk :: _ =>
      if blk.size = 0 then
        (true, { this with rangeOffset := 0, rangeLength := 0 }, mem)
      else if blk.mapErr ≠ 0 then (false, this, mem)
      else if this.capacity < blk.mapCapacity then (false, this, mem)
      else
        (true, { this with rangeOffset := 0, rangeLength := blk.mapCapacity },
         memcpyM mem (this.base.getD 0) (fun a => mem a) blk.mapData
           blk.mapCapacity)

/-- The state of a DummyContainerBuffer: the held C2Buffer reference (by
identity) and the visible range length. -/
structure DummyContainer where
  mBufferRef : Option Nat
  rangeLength : Nat
deriving DecidableEq, Repr

/-- DummyContainerBuffer::canCopy: only an empty wrapper may copy. -/
def DummyContainerBuffer.canCopy (st : DummyContainer)
    (buffer : Option Nat) : Bool :=
  st.mBufferRef.isNone

/-- DummyContainerBuffer::copy: adopt the source reference unconditionally
and set the visible range to one byte when a source is present. -/
def DummyContainerBuffer.copy (st : DummyContainer) (buffer : Option Nat) :
    Bool × DummyContainer :=
  (true, { mBufferRef := buffer,
           rangeLength := if buffer.isSome then 1 else 0 })

/-- Modelled from the spec: a C2WriteView of the codec2 core library (not
among the given sources) — a mapped writable window over a linear block.
`offset` is the internal write cursor; the remaining size is
`capacity - offset` and writes go to `base + offset`. -/
structure C2WriteViewM where
  err : Int
  base : Int
  capacity : Nat
  offset : Nat
deriving DecidableEq, Repr

/-- Remaining size of a write view. -/
def C2WriteViewM.size (v : C2WriteViewM) : Nat := v.capacity - v.offset

/-- Current write address of a write view. -/
def C2WriteViewM.dataAddr (v : C2WriteViewM) : Int := v.base + (v.offset : Int)

/-- EncryptedLinearBlockBuffer::MappedBlock constructor: mapping the block
yields a write view whose cursor is at zero. -/
def MappedBlock.construct (err : Int) (base : Int) (capacity : Nat) :
    C2WriteViewM :=
  ⟨err, base, capacity, 0⟩

/-- EncryptedLinearBlockBuffer::MappedBlock::copyDecryptedContent: fail on a
mapping error or when fewer than `length` bytes remain; otherwise copy
exactly `length` bytes from the decrypted source and advance the cursor. -/
def MappedBlock.copyDecryptedContent (mView : C2WriteViewM) (mem : Mem)
    (decrypted : Mem) (decryptedAddr : Int) (length : Nat) :
    Bool × C2WriteViewM × Mem :=
  if mView.err ≠ 0 then (false, mView, mem)
  else if mView.size < length then (false, mView, mem)
  else (true, { mView with offset := mView.offset + length },
    memcpyM mem mView.dataAddr decrypted decryptedAddr length)

/-- EncryptedLinearBlockBuffer::MappedBlock destructor: reset the cursor to
zero. -/
def MappedBlock.destruct (mView : C2WriteViewM) : C2WriteViewM :=
  { mView with offset := 0 }

/-- Shorthand to build a native-endian plane description. -/
def mkPlane (ch : C2Channel) (colInc rowInc : Int) (cs rs ad bd rsft : Nat)
    (rootIx offset : Nat) : C2PlaneInfo :=
  ⟨ch, colInc, rowInc, cs, rs, ad, bd, rsft, .NATIVE, rootIx, offset⟩

/-- A concrete 4×4 NV12 view: a 16-byte Y root plane at address 0, then an
interleaved UV root plane at address 16. -/
def nv12ViewEx : C2GraphicView where
  width := 4
  height := 4
  cropWidth := 4
  cropHeight := 4
  layout :=
    { type := .YUV, numPlanes := 3, rootPlanes := 2,
      planes := fun i =>
        if i = 0 then mkPlane .Y 1 4 1 1 8 8 0 0 0
        else if i = 1 then mkPlane .CB 2 4 2 2 8 8 0 1 0
        else mkPlane .CR 2 4 2 2 8 8 0 1 1 }
  rootAddr := fun n => if n = 1 then 16 else 0
  err := 0

/-- A concrete 4×4 NV21 view: Y root plane at 0, interleaved VU root plane at
16 (the V plane is the root). -/
def nv21ViewEx : C2GraphicView where
  width := 4
  height := 4
  cropWidth := 4
  cropHeight := 4
  layout :=
    { type := .YUV, numPlanes := 3, rootPlanes := 2,
      planes := fun i =>
        if i = 0 then mkPlane .Y 1 4 1 1 8 8 0 0 0
        else if i = 1 then mkPlane .CB 2 4 2 2 8 8 0 2 1
        else mkPlane .CR 2 4 2 2 8 8 0 2 0 }
  rootAddr := fun n => if n = 2 then 16 else 0
  err := 0

/-- A concrete 4×4 I420 view: Y at 0, U root plane at 16, V root plane at
20. -/
def i420ViewEx : C2GraphicView where
  width := 4
  height := 4
  cropWidth := 4
  cropHeight := 4
  layout :=
    { type := .YUV, numPlanes := 3, rootPlanes := 3,
      planes := fun i =>
        if i = 0 then mkPlane .Y 1 4 1 1 8 8 0 0 0
        else if i = 1 then mkPlane .CB 1 2 2 2 8 8 0 1 0
        else mkPlane .CR 1 2 2 2 8 8 0 2 0 }
  rootAddr := fun n => if n = 1 then 16 else if n = 2 then 20 else 0
  err := 0

/-- A concrete 4×4 P010 view: 16-bit samples with 10 meaningful MSB-aligned
bits; Y root plane at 0 (32 bytes), interleaved UV root plane at 32. -/
def p010ViewEx : C2GraphicView where
  width := 4
  height := 4
  cropWidth := 4
  cropHeight := 4
  layout :=
    { type := .YUV, numPlanes := 3, rootPlanes := 2,
      planes := fun i =>
        if i = 0 then mkPlane .Y 2 8 1 1 16 10 6 0 0
        else if i = 1 then mkPlane .CB 4 8 2 2 16 10 6 1 0
        else mkPlane .CR 4 8 2 2 16 10 6 1 2 }
  rootAddr := fun n => if n = 1 then 32 else 0
  err := 0

/-- A concrete 4×4 NV12 flat image: Y rows of stride 4, interleaved UV at
offset 16. -/
def nv12ImgEx : MediaImage2 where
  mType := .YUV
  mNumPlanes := 3
  mWidth := 4
  mHeight := 4
  mBitDepth := 8
  mBitDepthAllocated := 8
  mPlane := fun i =>
    if i = 0 then ⟨0, 1, 4, 1, 1⟩
    else if i = 1 then ⟨16, 2, 4, 2, 2⟩
    else ⟨17, 2, 4, 2, 2⟩

/-- A concrete 4×4 NV21 flat image. -/
def nv21ImgEx : MediaImage2 where
  mType := .YUV
  mNumPlanes := 3
  mWidth := 4
  mHeight := 4
  mBitDepth := 8
  mBitDepthAllocated := 8
  mPlane := fun i =>
    if i = 0 then ⟨0, 1, 4, 1, 1⟩
    else if i = 1 then ⟨17, 2, 4, 2, 2⟩
    else ⟨16, 2, 4, 2, 2⟩

/-- A concrete 4×4 I420 flat image. -/
def i420ImgEx : MediaImage2 where
  mType := .YUV
  mNumPlanes := 3
  mWidth := 4
  mHeight := 4
  mBitDepth := 8
  mBitDepthAllocated := 8
  mPlane := fun i =>
    if i = 0 then ⟨0, 1, 4, 1, 1⟩
    else if i = 1 then ⟨16, 1, 2, 2, 2⟩
    else ⟨20, 1, 2, 2, 2⟩

/-- A concrete 4×4 P010-shaped flat image (no classifier of the source
recognizes it; the generic path handles it). -/
def p010ImgEx : MediaImage2 where
  mType := .YUV
  mNumPlanes := 3
  mWidth := 4
  mHeight := 4
  mBitDepth := 10
  mBitDepthAllocated := 16
  mPlane := fun i =>
    if i = 0 then ⟨0, 2, 8, 1, 1⟩
    else if i = 1 then ⟨32, 4, 8, 2, 2⟩
    else ⟨34, 4, 8, 2, 2⟩

/-- A degenerate 2×2 NV12 flat image whose luma row stride is zero: every
classifier test of the source still accepts it, but its rows alias. -/
def nv12ImgDegenerate : MediaImage2 where
  mType := .YUV
  mNumPlanes := 3
  mWidth := 2
  mHeight := 2
  mBitDepth := 8
  mBitDepthAllocated := 8
  mPlane := fun i =>
    if i = 0 then ⟨0, 1, 0, 1, 1⟩
    else if i = 1 then ⟨4, 2, 2, 2, 2⟩
    else ⟨5, 2, 2, 2, 2⟩

/-- A concrete 2×2 NV12 view matching `nv12ImgDegenerate`'s dimensions. -/
def nv12ViewSmall : C2GraphicView where
  width := 2
  height := 2
  cropWidth := 2
  cropHeight := 2
  layout :=
    { type := .YUV, numPlanes := 3, rootPlanes := 2,
      planes := fun i =>
        if i = 0 then mkPlane .Y 1 2 1 1 8 8 0 0 0
        else if i = 1 then mkPlane .CB 2 2 2 2 8 8 0 1 0
        else mkPlane .CR 2 2 2 2 8 8 0 1 1 }
  rootAddr := fun n => if n = 1 then 4 else 0
  err := 0

/-- A concrete memory filled with distinct small byte values. -/
def exMem : Mem := fun a => a.toNat % 256

/-- A second concrete memory, everywhere different from `exMem` on the
addresses the examples use. -/
def exMem2 : Mem := fun a => (a.toNat + 7) % 199

/-- A concrete 2×2 interleaved RGB view (one root plane, three channels). -/
def rgbViewEx : C2GraphicView where
  width := 2
  height := 2
  cropWidth := 2
  cropHeight := 2
  layout :=
    { type := .RGB, numPlanes := 3, rootPlanes := 1,
      planes := fun i =>
        if i = 0 then mkPlane .R 3 6 1 1 8 8 0 0 0
        else if i = 1 then mkPlane .G 3 6 1 1 8 8 0 0 1
        else mkPlane .B 3 6 1 1 8 8 0 0 2 }
  rootAddr := fun _ => 0
  err := 0

/-- A concrete 16×16 single-plane view of UNKNOWN layout type: the converter
wraps it (256 addressable bytes), yet the theoretical plane size is padded to
a 64-aligned height (1024 bytes). -/
def unknownViewEx : C2GraphicView where
  width := 16
  height := 16
  cropWidth := 16
  cropHeight := 16
  layout :=
    { type := .UNKNOWN, numPlanes := 1, rootPlanes := 1,
      planes := fun _ => mkPlane .Y 1 16 1 1 8 8 0 0 0 }
  rootAddr := fun _ => 0
  err := 0

/-- A concrete 2×2 YUVA view. -/
def yuvaViewEx : C2GraphicView where
  width := 2
  height := 2
  cropWidth := 2
  cropHeight := 2
  layout :=
    { type := .YUVA, numPlanes := 4, rootPlanes := 1,
      planes := fun i =>
        if i = 0 then mkPlane .Y 4 8 1 1 8 8 0 0 0
        else if i = 1 then mkPlane .CB 4 8 1 1 8 8 0 0 1
        else if i = 2 then mkPlane .CR 4 8 1 1 8 8 0 0 2
        else mkPlane .A 4 8 1 1 8 8 0 0 3 }
  rootAddr := fun _ => 0
  err := 0

theorem memcpyM_hit (dst : Mem) (d : Int) (src : Mem) (s : Int) (n : Nat)
    (b : Nat) (hb : b < n) :
    memcpyM dst d src s n (d + (b : Int)) = src (s + (b : Int)) := by
  unfold memcpyM
  rw [if_pos ⟨by omega, by omega⟩]
  congr 1
  omega

theorem memcpyM_miss (dst : Mem) (d : Int) (src : Mem) (s : Int) (n : Nat)
    (a : Int) (h : ∀ b : Nat, b < n → a ≠ d + (b : Int)) :
    memcpyM dst d src s n a = dst a := by
  unfold memcpyM
  rw [if_neg]
  rintro ⟨h1, h2⟩
  exact h (a - d).toNat (by omega) (by omega)

theorem cpyCols_hit (src : Mem) (s sC : Int) (dst : Mem) (d dC : Int) (n : Nat)
    (hdC : 0 ≤ dC) (c b : Nat) (hb : b < n) :
    ∀ cols, (1 < cols → (n : Int) ≤ dC) → c < cols →
      cpyCols src s sC dst d dC n cols (d + dC * (c : Int) + (b : Int)) =
        src (s + sC * (c : Int) + (b : Int)) := by
  intro cols
  induction cols with
  | zero => intro _ hc; omega
  | succ C ih =>
    intro hsane hc
    simp only [cpyCols]
    by_cases hcC : c = C
    · subst hcC
      exact memcpyM_hit _ _ _ _ _ b hb
    · have hcC' : c < C := by omega
      rw [memcpyM_miss]
      · exact ih (fun h1 => hsane (by omega)) hcC'
      · intro b' hb'
        have hn : (n : Int) ≤ dC := hsane (by omega)
        have h1 : dC * ((c : Int) + 1) ≤ dC * (C : Int) :=
          mul_le_mul_of_nonneg_left (by omega) hdC
        have h2 : dC * ((c : Int) + 1) = dC * (c : Int) + dC := by ring
        intro heq
        have hb1 : ((b : Int)) < (n : Int) := by omega
        linarith

theorem cpyCols_miss (src : Mem) (s sC : Int) (dst : Mem) (d dC : Int) (n : Nat)
    (a : Int) :
    ∀ cols : Nat, (∀ c : Nat, c < cols → ∀ b : Nat, b < n →
        a ≠ d + dC * (c : Int) + (b : Int)) →
      cpyCols src s sC dst d dC n cols a = dst a := by
  intro cols
  induction cols with
  | zero => intro _; rfl
  | succ C ih =>
    intro h
    simp only [cpyCols]
    rw [memcpyM_miss]
    · exact ih (fun c hc b hb => h c (by omega) b hb)
    · intro b hb
      exact h C (by omega) b hb

theorem cpyRows_hit (src : Mem) (s sR sC : Int) (dst : Mem) (d dR dC : Int)
    (n cols : Nat) (hdR : 0 ≤ dR) (hdC : 0 ≤ dC)
    (hcolSane : 1 < cols → (n : Int) ≤ dC) (r c b : Nat)
    (hc : c < cols) (hb : b < n) :
    ∀ rows, (1 < rows → dC * ((cols : Int) - 1) + n ≤ dR) → r < rows →
      cpyRows src s sR sC dst d dR dC n cols rows
          (d + dR * (r : Int) + dC * (c : Int) + (b : Int)) =
        src (s + sR * (r : Int) + sC * (c : Int) + (b : Int)) := by
  intro rows
  induction rows with
  | zero => intro _ hr; omega
  | succ R ih =>
    intro hrowSane hr
    simp only [cpyRows]
    by_cases hrR : r = R
    · subst hrR
      exact cpyCols_hit src (s + sR * (r : Int)) sC
        (cpyRows src s sR sC dst d dR dC n cols r) (d + dR * (r : Int)) dC n hdC
        c b hb cols hcolSane hc
    · have hrR' : r < R := by omega
      rw [cpyCols_miss]
      · exact ih (fun h1 => hrowSane (by omega)) hrR'
      · intro c' hc' b' hb'
        have hspan : dC * ((cols : Int) - 1) + n ≤ dR := hrowSane (by omega)
        have h1 : dC * (c : Int) ≤ dC * ((cols : Int) - 1) :=
          mul_le_mul_of_nonneg_left (by omega) hdC
        have h2 : dR * ((r : Int) + 1) ≤ dR * (R : Int) :=
          mul_le_mul_of_nonneg_left (by omega) hdR
        have h3 : dR * ((r : Int) + 1) = dR * (r : Int) + dR := by ring
        have h4 : 0 ≤ dC * (c' : Int) := mul_nonneg hdC (by omega)
        have hb1 : ((b : Int)) < (n : Int) := by omega
        have hb2 : (0 : Int) ≤ (b' : Int) := by omega
        intro heq
        linarith

theorem cpyRows_miss (src : Mem) (s sR sC : Int) (dst : Mem) (d dR dC : Int)
    (n cols : Nat) (a : Int) :
    ∀ rows : Nat, (∀ r : Nat, r < rows → ∀ c : Nat, c < cols → ∀ b : Nat, b < n →
        a ≠ d + dR * (r : Int) + dC * (c : Int) + (b : Int)) →
      cpyRows src s sR sC dst d dR dC n cols rows a = dst a := by
  intro rows
  induction rows with
  | zero => intro _; rfl
  | succ R ih =>
    intro h
    simp only [cpyRows]
    rw [cpyCols_miss]
    · exact ih (fun r hr c hc b hb => h r (by omega) c hc b hb)
    · intro c hc b hb
      exact h R (by omega) c hc b hb

theorem cpyRowsOf_hit (src dst : Mem) (c : Corr) (hs : c.DSane) (r col b : Nat)
    (hr : r < c.rows) (hc : col < c.cols) (hb : b < c.n) :
    cpyRowsOf src c dst (c.dAddr r col b) = src (c.sAddr r col b) := by
  exact cpyRows_hit src c.sB c.sR c.sC dst c.dB c.dR c.dC c.n c.cols
    hs.1 hs.2.1 hs.2.2.1 r col b hc hb c.rows hs.2.2.2 hr

theorem cpyRowsOf_miss (src dst : Mem) (c : Corr) (a : Int) (h : ¬ c.InD a) :
    cpyRowsOf src c dst a = dst a := by
  apply cpyRows_miss
  intro r hr col hc b hb heq
  exact h ⟨r, hr, col, hc, b, hb, heq⟩

theorem applyCorrs_cons (src : Mem) (c : Corr) (cs : List Corr) (dst : Mem) :
    applyCorrs src (c :: cs) dst = applyCorrs src cs (cpyRowsOf src c dst) := rfl

theorem applyCorrs_append_one (src : Mem) (cs : List Corr) (c : Corr) (dst : Mem) :
    applyCorrs src (cs ++ [c]) dst = cpyRowsOf src c (applyCorrs src cs dst) := by
  simp [applyCorrs, List.foldl_append]

theorem applyCorrs_missAll (src : Mem) (cs : List Corr) (dst : Mem) (a : Int)
    (h : ∀ c ∈ cs, ¬ c.InD a) :
    applyCorrs src cs dst a = dst a := by
  induction cs generalizing dst with
  | nil => rfl
  | cons c cs ih =>
    rw [applyCorrs_cons, ih _ (fun c' hc' => h c' (by simp [hc'])),
      cpyRowsOf_miss src dst c a (h c (by simp))]

theorem applyCorrs_hit (src dst : Mem) (cs1 cs2 : List Corr) (c : Corr)
    (hs : c.DSane) (hdis : ∀ c' ∈ cs2, c.DDisj c') (r col b : Nat)
    (hr : r < c.rows) (hc : col < c.cols) (hb : b < c.n) :
    applyCorrs src (cs1 ++ c :: cs2) dst (c.dAddr r col b) =
      src (c.sAddr r col b) := by
  have hfold : applyCorrs src (cs1 ++ c :: cs2) dst =
      applyCorrs src cs2 (cpyRowsOf src c (applyCorrs src cs1 dst)) := by
    simp [applyCorrs, List.foldl_append]
  rw [hfold,
    applyCorrs_missAll src cs2 _ _
      (fun c' hc' hIn => hdis c' hc' _ ⟨r, hr, col, hc, b, hb, rfl⟩ hIn),
    cpyRowsOf_hit src _ c hs r col b hr hc hb]

theorem applyCorrs_restore (fwdMem src : Mem) (csB : List Corr)
    (h : ∀ cB ∈ csB, cB.DSane ∧ ∀ r col b, r < cB.rows → col < cB.cols →
        b < cB.n → fwdMem (cB.sAddr r col b) = src (cB.dAddr r col b))
    (a : Int) :
    applyCorrs fwdMem csB src a = src a := by
  induction csB using List.reverseRecOn with
  | nil => rfl
  | append_singleton cs cB ih =>
    rw [applyCorrs_append_one]
    by_cases hIn : cB.InD a
    · obtain ⟨r, hr, col, hc, b, hb, rfl⟩ := hIn
      rw [cpyRowsOf_hit _ _ _ (h cB (by simp)).1 r col b hr hc hb]
      exact (h cB (by simp)).2 r col b hr hc hb
    · rw [cpyRowsOf_miss _ _ _ _ hIn]
      exact ih (fun c hc => h c (by simp [hc]))

/-- Master round-trip theorem: run the forward correspondences `csF` (writing
the destination buffer), then the backward correspondences `csB` (writing the
source buffer).  If every forward destination region is written by at most one
iteration, forward regions are pairwise disjoint, and every backward
correspondence is the mirror of a forward one (also uniquely written), then
the source memory is restored everywhere. -/
theorem roundTrip_master (src dst : Mem) (csF csB : List Corr)
    (hsaneF : ∀ c ∈ csF, c.DSane) (hdisF : csF.Pairwise Corr.DDisj)
    (hB : ∀ cB ∈ csB, cB.DSane ∧ cB.mirror ∈ csF) (a : Int) :
    applyCorrs (applyCorrs src csF dst) csB src a = src a := by
  apply applyCorrs_restore
  intro cB hcB
  refine ⟨(hB cB hcB).1, ?_⟩
  intro r col b hr hc hb
  obtain ⟨cs1, cs2, hsplit⟩ := List.append_of_mem (hB cB hcB).2
  have hdis : ∀ c' ∈ cs2, (cB.mirror).DDisj c' := by
    rw [hsplit, List.pairwise_append] at hdisF
    exact fun c' h' => (List.pairwise_cons.mp hdisF.2.1).1 c' h'
  have := applyCorrs_hit src dst cs1 cs2 cB.mirror
    (hsaneF _ (by rw [hsplit]; simp)) hdis r col b hr hc hb
  rw [hsplit]
  exact this

theorem InD_bounds (c : Corr) (hdR : 0 ≤ c.dR) (hdC : 0 ≤ c.dC) (a : Int)
    (hIn : c.InD a) : c.dB ≤ a ∧ a < c.dHi := by
  obtain ⟨r, hr, col, hc, b, hb, rfl⟩ := hIn
  unfold Corr.dAddr Corr.dHi
  constructor
  · have h1 : 0 ≤ c.dR * (r : Int) := mul_nonneg hdR (by omega)
    have h2 : 0 ≤ c.dC * (col : Int) := mul_nonneg hdC (by omega)
    have h3 : (0 : Int) ≤ (b : Int) := by omega
    linarith
  · have h1 : c.dR * (r : Int) ≤ c.dR * ((c.rows : Int) - 1) :=
      mul_le_mul_of_nonneg_left (by omega) hdR
    have h2 : c.dC * (col : Int) ≤ c.dC * ((c.cols : Int) - 1) :=
      mul_le_mul_of_nonneg_left (by omega) hdC
    have h3 : ((b : Int)) < (c.n : Int) := by omega
    linarith

theorem DDisj_of_sep (c1 c2 : Corr) (h1R : 0 ≤ c1.dR) (h1C : 0 ≤ c1.dC)
    (h2R : 0 ≤ c2.dR) (h2C : 0 ≤ c2.dC)
    (hsep : c1.dHi ≤ c2.dB ∨ c2.dHi ≤ c1.dB) : c1.DDisj c2 := by
  intro a hIn1 hIn2
  have b1 := InD_bounds c1 h1R h1C a hIn1
  have b2 := InD_bounds c2 h2R h2C a hIn2
  rcases hsep with h | h <;> linarith

theorem DDisj_interleave (dB S dC off : Int) (n rows cols : Nat)
    (s1B s1R s1C s2B s2R s2C : Int)
    (hn : 0 < n) (hoff : 0 < off) (hno : (n : Int) ≤ off)
    (hod : off + (n : Int) ≤ dC) (hS0 : 0 ≤ S) (hS : dC * (cols : Int) ≤ S) :
    Corr.DDisj ⟨dB, S, dC, s1B, s1R, s1C, n, rows, cols⟩
      ⟨dB + off, S, dC, s2B, s2R, s2C, n, rows, cols⟩ := by
  intro a hIn1 hIn2
  simp only [Corr.InD, Corr.dAddr] at hIn1 hIn2
  obtain ⟨r1, hr1, c1, hc1, b1, hb1, ha1⟩ := hIn1
  obtain ⟨r2, hr2, c2, hc2, b2, hb2, ha2⟩ := hIn2
  have heq := ha1.symm.trans ha2
  have hdC0 : (0 : Int) < dC := by linarith
  have hb1i : ((b1 : Int)) < (n : Int) := by omega
  have hb2i : ((b2 : Int)) < (n : Int) := by omega
  have hb1z : (0 : Int) ≤ (b1 : Int) := by omega
  have hb2z : (0 : Int) ≤ (b2 : Int) := by omega
  rcases Nat.lt_trichotomy r1 r2 with hlt | heqr | hgt
  · have hm : S * ((r2 : Int) - (r1 : Int)) = S * (r2 : Int) - S * (r1 : Int) := by
      ring
    have hge : S ≤ S * ((r2 : Int) - (r1 : Int)) :=
      le_mul_of_one_le_right hS0 (by omega)
    have hcb1 : dC * (c1 : Int) ≤ dC * ((cols : Int) - 1) :=
      mul_le_mul_of_nonneg_left (by omega) (le_of_lt hdC0)
    have hcb2 : 0 ≤ dC * (c2 : Int) := mul_nonneg (le_of_lt hdC0) (by omega)
    have hring : dC * ((cols : Int) - 1) = dC * (cols : Int) - dC := by ring
    linarith
  · subst heqr
    have heq2 : dC * (c1 : Int) + (b1 : Int) = off + dC * (c2 : Int) + (b2 : Int) := by
      linarith
    rcases Nat.lt_trichotomy c1 c2 with hclt | hceq | hcgt
    · have hm : dC * ((c2 : Int) - (c1 : Int)) = dC * (c2 : Int) - dC * (c1 : Int) := by
        ring
      have hge : dC ≤ dC * ((c2 : Int) - (c1 : Int)) :=
        le_mul_of_one_le_right (le_of_lt hdC0) (by omega)
      linarith
    · subst hceq
      have : (b1 : Int) = off + (b2 : Int) := by linarith
      linarith
    · have hm : dC * ((c1 : Int) - (c2 : Int)) = dC * (c1 : Int) - dC * (c2 : Int) := by
        ring
      have hge : dC ≤ dC * ((c1 : Int) - (c2 : Int)) :=
        le_mul_of_one_le_right (le_of_lt hdC0) (by omega)
      linarith
  · have hm : S * ((r1 : Int) - (r2 : Int)) = S * (r1 : Int) - S * (r2 : Int) := by
      ring
    have hge : S ≤ S * ((r1 : Int) - (r2 : Int)) :=
      le_mul_of_one_le_right hS0 (by omega)
    have hcb2 : dC * (c2 : Int) ≤ dC * ((cols : Int) - 1) :=
      mul_le_mul_of_nonneg_left (by omega) (le_of_lt hdC0)
    have hcb1 : 0 ≤ dC * (c1 : Int) := mul_nonneg (le_of_lt hdC0) (by omega)
    have hring : dC * ((cols : Int) - 1) = dC * (cols : Int) - dC := by ring
    linarith

theorem DSane_row (dB dS sB sS : Int) (n rows : Nat) (h0 : 0 ≤ dS)
    (h1 : (n : Int) ≤ dS) : Corr.DSane ⟨dB, dS, 1, sB, sS, 1, n, rows, 1⟩ :=
  ⟨h0, zero_le_one, fun h => absurd h (Nat.lt_irrefl 1),
   fun h => by
     show (1 : Int) * (((1 : Nat) : Int) - 1) + (n : Int) ≤ dS
     push_cast
     linarith⟩

theorem DSane_grid (dB dS dC sB sS sC : Int) (n rows cols : Nat)
    (h0 : 0 ≤ dS) (h1 : 0 ≤ dC) (h2 : (n : Int) ≤ dC)
    (h3 : dC * ((cols : Int) - 1) + n ≤ dS) :
    Corr.DSane ⟨dB, dS, dC, sB, sS, sC, n, rows, cols⟩ :=
  ⟨h0, h1, fun _ => h2, fun _ => h3⟩

theorem img_not_nv12_of_nv21 (m : MediaImage2) (h : m.IsNV21 = true) :
    m.IsNV12 = false := by
  cases h12 : m.IsNV12
  · rfl
  · cases hy : m.IsYUV420 <;>
      simp [MediaImage2.IsNV12, MediaImage2.IsNV21, hy] at h12 h
    omega

theorem img_not_nv12_of_i420 (m : MediaImage2) (h : m.IsI420 = true) :
    m.IsNV12 = false := by
  cases h12 : m.IsNV12
  · rfl
  · cases hy : m.IsYUV420 <;>
      simp [MediaImage2.IsNV12, MediaImage2.IsI420, hy] at h12 h
    omega

theorem img_not_nv21_of_i420 (m : MediaImage2) (h : m.IsI420 = true) :
    m.IsNV21 = false := by
  cases h21 : m.IsNV21
  · rfl
  · cases hy : m.IsYUV420 <;>
      simp [MediaImage2.IsNV21, MediaImage2.IsI420, hy] at h21 h
    omega

theorem view_not_nv12_of_nv21 (v : C2GraphicView) (h : IsNV21 v = true) :
    IsNV12 v = false := by
  cases h12 : IsNV12 v
  · rfl
  · cases hy : IsYUV420 v <;> simp [IsNV12, IsNV21, hy] at h12 h
    omega

theorem view_not_nv12_of_i420 (v : C2GraphicView) (h : IsI420 v = true) :
    IsNV12 v = false := by
  cases h12 : IsNV12 v
  · rfl
  · cases hy : IsYUV420 v <;> simp [IsNV12, IsI420, hy] at h12 h
    omega

theorem view_not_nv21_of_i420 (v : C2GraphicView) (h : IsI420 v = true) :
    IsNV21 v = false := by
  cases h21 : IsNV21 v
  · rfl
  · cases hy : IsYUV420 v <;> simp [IsNV21, IsI420, hy] at h21 h
    omega

theorem view_yuv420_not_10bit (v : C2GraphicView) (hy : IsYUV420 v = true) :
    IsYUV420_10bit v = false := by
  cases h10 : IsYUV420_10bit v
  · rfl
  · simp [IsYUV420, IsYUV420_10bit] at hy h10
    omega

theorem view_not_p010_of_yuv420 (v : C2GraphicView) (hy : IsYUV420 v = true) :
    IsP010 v = false := by
  cases hp : IsP010 v
  · rfl
  · rw [IsP010, view_yuv420_not_10bit v hy] at hp
    simp at hp

theorem view_nv12_yuv420 (v : C2GraphicView) (h : IsNV12 v = true) :
    IsYUV420 v = true := by
  cases hy : IsYUV420 v
  · rw [IsNV12, hy] at h
    simp at h
  · rfl

theorem view_nv21_yuv420 (v : C2GraphicView) (h : IsNV21 v = true) :
    IsYUV420 v = true := by
  cases hy : IsYUV420 v
  · rw [IsNV21, hy] at h
    simp at h
  · rfl

theorem view_i420_yuv420 (v : C2GraphicView) (h : IsI420 v = true) :
    IsYUV420 v = true := by
  cases hy : IsYUV420 v
  · rw [IsI420, hy] at h
    simp at h
  · rfl

theorem view_not_nv12_of_p010 (v : C2GraphicView) (h : IsP010 v = true) :
    IsNV12 v = false := by
  cases h12 : IsNV12 v
  · rfl
  · rw [view_not_p010_of_yuv420 v (view_nv12_yuv420 v h12)] at h
    simp at h

theorem view_not_nv21_of_p010 (v : C2GraphicView) (h : IsP010 v = true) :
    IsNV21 v = false := by
  cases h21 : IsNV21 v
  · rfl
  · rw [view_not_p010_of_yuv420 v (view_nv21_yuv420 v h21)] at h
    simp at h

theorem view_not_i420_of_p010 (v : C2GraphicView) (h : IsP010 v = true) :
    IsI420 v = false := by
  cases h420 : IsI420 v
  · rfl
  · rw [view_not_p010_of_yuv420 v (view_i420_yuv420 v h420)] at h
    simp at h

theorem fwd_nv12_nv12 (v : C2GraphicView) (m : MediaImage2)
    (viewMem imgMem : Mem) (imgBase : Int)
    (hv : IsNV12 v = true) (hm : m.IsNV12 = true)
    (hw : v.cropWidth = m.mWidth) (hh : v.cropHeight = m.mHeight) :
    ImageCopyToImg imgMem imgBase m v viewMem =
      (.OK, applyCorrs viewMem
        [CopyPlaneCorr (v.data 0) ((v.layout.planes 0).rowInc)
           (imgPlaneAddr imgBase m 0) ((m.mPlane 0).mRowInc) v.cropWidth
           v.cropHeight,
         CopyPlaneCorr (v.data 1) ((v.layout.planes 1).rowInc)
           (imgPlaneAddr imgBase m 1) ((m.mPlane 1).mRowInc) v.cropWidth
           (v.cropHeight / 2)] imgMem) := by
  simp [ImageCopyToImg, hv, hm, hw, hh]

theorem back_nv12_nv12 (v : C2GraphicView) (m : MediaImage2)
    (viewMem srcMem : Mem) (imgBase : Int)
    (hv : IsNV12 v = true) (hm : m.IsNV12 = true)
    (hw : v.cropWidth = m.mWidth) (hh : v.cropHeight = m.mHeight) :
    ImageCopyToView viewMem v imgBase m srcMem =
      (.OK, applyCorrs srcMem
        [CopyPlaneCorr (imgPlaneAddr imgBase m 0) ((m.mPlane 0).mRowInc)
           (v.data 0) ((v.layout.planes 0).rowInc) v.cropWidth v.cropHeight,
         CopyPlaneCorr (imgPlaneAddr imgBase m 1) ((m.mPlane 1).mRowInc)
           (v.data 1) ((v.layout.planes 1).rowInc) v.cropWidth
           (v.cropHeight / 2)] viewMem) := by
  simp [ImageCopyToView, hv, hm, hw, hh]

theorem rt_nv12_nv12 (v : C2GraphicView) (m : MediaImage2)
    (viewMem imgMem : Mem) (imgBase : Int)
    (hv : IsNV12 v = true) (hm : m.IsNV12 = true)
    (hw : v.cropWidth = m.mWidth) (hh : v.cropHeight = m.mHeight)
    (hiY0 : 0 ≤ (m.mPlane 0).mRowInc)
    (hiY : (v.cropWidth : Int) ≤ (m.mPlane 0).mRowInc)
    (hiU0 : 0 ≤ (m.mPlane 1).mRowInc)
    (hiU : (v.cropWidth : Int) ≤ (m.mPlane 1).mRowInc)
    (hvY0 : 0 ≤ (v.layout.planes 0).rowInc)
    (hvY : (v.cropWidth : Int) ≤ (v.layout.planes 0).rowInc)
    (hvU0 : 0 ≤ (v.layout.planes 1).rowInc)
    (hvU : (v.cropWidth : Int) ≤ (v.layout.planes 1).rowInc)
    (hsep : Corr.Sep
      (CopyPlaneCorr (v.data 0) ((v.layout.planes 0).rowInc)
        (imgPlaneAddr imgBase m 0) ((m.mPlane 0).mRowInc) v.cropWidth
        v.cropHeight)
      (CopyPlaneCorr (v.data 1) ((v.layout.planes 1).rowInc)
        (imgPlaneAddr imgBase m 1) ((m.mPlane 1).mRowInc) v.cropWidth
        (v.cropHeight / 2))) :
    ∀ a, (ImageCopyToView viewMem v imgBase m
        (ImageCopyToImg imgMem imgBase m v viewMem).2).2 a = viewMem a := by
  intro a
  rw [fwd_nv12_nv12 v m viewMem imgMem imgBase hv hm hw hh,
    back_nv12_nv12 v m viewMem _ imgBase hv hm hw hh]
  apply roundTrip_master
  · intro c hc
    simp only [List.mem_cons, List.not_mem_nil, or_false] at hc
    rcases hc with rfl | rfl
    · exact DSane_row _ _ _ _ _ _ hiY0 hiY
    · exact DSane_row _ _ _ _ _ _ hiU0 hiU
  · refine List.pairwise_cons.mpr ⟨?_, List.pairwise_singleton _ _⟩
    intro c' hc'
    simp only [List.mem_singleton] at hc'
    subst hc'
    exact DDisj_of_sep _ _ hiY0 (by norm_num [CopyPlaneCorr]) hiU0
      (by norm_num [CopyPlaneCorr]) hsep
  · intro cB hcB
    simp only [List.mem_cons, List.not_mem_nil, or_false] at hcB
    rcases hcB with rfl | rfl
    · exact ⟨DSane_row _ _ _ _ _ _ hvY0 hvY, by simp [CopyPlaneCorr, Corr.mirror]⟩
    · exact ⟨DSane_row _ _ _ _ _ _ hvU0 hvU, by simp [CopyPlaneCorr, Corr.mirror]⟩

theorem Sep_of_within (c1 chull cs : Corr) (hdB : chull.dB ≤ cs.dB)
    (hdHi : cs.dHi ≤ chull.dHi) (h : c1.Sep chull) : c1.Sep cs := by
  unfold Corr.Sep at *
  rcases h with h | h
  · left; linarith
  · right; linarith

theorem fwd_nv12_nv21 (v : C2GraphicView) (m : MediaImage2)
    (viewMem imgMem : Mem) (imgBase : Int)
    (hv : IsNV12 v = true) (hm : m.IsNV21 = true)
    (hw : v.cropWidth = m.mWidth) (hh : v.cropHeight = m.mHeight)
    (hw0 : 0 < v.cropWidth) (hh0 : 0 < v.cropHeight) :
    ImageCopyToImg imgMem imgBase m v viewMem =
      (.OK, applyCorrs viewMem
        (nv21ToNV12Corrs (v.data 0) ((v.layout.planes 0).rowInc)
          (v.data 1) ((v.layout.planes 1).rowInc)
          (imgPlaneAddr imgBase m 0) ((m.mPlane 0).mRowInc)
          (imgPlaneAddr imgBase m 2) ((m.mPlane 2).mRowInc)
          v.cropWidth v.cropHeight) imgMem) := by
  have hw0' : 0 < m.mWidth := hw ▸ hw0
  have hh0' : 0 < m.mHeight := hh ▸ hh0
  simp [ImageCopyToImg, hv, hm, img_not_nv12_of_nv21 m hm, hw, hh, hw0', hh0']

theorem back_nv12_nv21 (v : C2GraphicView) (m : MediaImage2)
    (viewMem srcMem : Mem) (imgBase : Int)
    (hv : IsNV12 v = true) (hm : m.IsNV21 = true)
    (hw : v.cropWidth = m.mWidth) (hh : v.cropHeight = m.mHeight)
    (hw0 : 0 < v.cropWidth) (hh0 : 0 < v.cropHeight) :
    ImageCopyToView viewMem v imgBase m srcMem =
      (.OK, applyCorrs srcMem
        (nv21ToNV12Corrs (imgPlaneAddr imgBase m 0) ((m.mPlane 0).mRowInc)
          (imgPlaneAddr imgBase m 2) ((m.mPlane 2).mRowInc)
          (v.data 0) ((v.layout.planes 0).rowInc)
          (v.data 1) ((v.layout.planes 1).rowInc)
          v.cropWidth v.cropHeight) viewMem) := by
  have hw0' : 0 < m.mWidth := hw ▸ hw0
  have hh0' : 0 < m.mHeight := hh ▸ hh0
  simp [ImageCopyToView, hv, hm, img_not_nv12_of_nv21 m hm, hw, hh, hw0', hh0']

theorem rt_nv12_nv21 (v : C2GraphicView) (m : MediaImage2)
    (viewMem imgMem : Mem) (imgBase : Int)
    (hv : IsNV12 v = true) (hm : m.IsNV21 = true)
    (hw : v.cropWidth = m.mWidth) (hh : v.cropHeight = m.mHeight)
    (hw0 : 0 < v.cropWidth) (hh0 : 0 < v.cropHeight)
    (hiY0 : 0 ≤ (m.mPlane 0).mRowInc)
    (hiY : (v.cropWidth : Int) ≤ (m.mPlane 0).mRowInc)
    (hiV0 : 0 ≤ (m.mPlane 2).mRowInc)
    (hiV : 2 * ((((v.cropWidth + 1) / 2 : Nat)) : Int) ≤ (m.mPlane 2).mRowInc)
    (hvY0 : 0 ≤ (v.layout.planes 0).rowInc)
    (hvY : (v.cropWidth : Int) ≤ (v.layout.planes 0).rowInc)
    (hvU0 : 0 ≤ (v.layout.planes 1).rowInc)
    (hvU : 2 * ((((v.cropWidth + 1) / 2 : Nat)) : Int) ≤ (v.layout.planes 1).rowInc)
    (hsep : Corr.Sep
      ⟨imgPlaneAddr imgBase m 0, (m.mPlane 0).mRowInc, 1, v.data 0,
        (v.layout.planes 0).rowInc, 1, v.cropWidth, v.cropHeight, 1⟩
      ⟨imgPlaneAddr imgBase m 2, (m.mPlane 2).mRowInc, 2, v.data 1 + 1,
        (v.layout.planes 1).rowInc, 2, 2, (v.cropHeight + 1) / 2,
        (v.cropWidth + 1) / 2⟩) :
    ∀ a, (ImageCopyToView viewMem v imgBase m
        (ImageCopyToImg imgMem imgBase m v viewMem).2).2 a = viewMem a := by
  intro a
  rw [fwd_nv12_nv21 v m viewMem imgMem imgBase hv hm hw hh hw0 hh0,
    back_nv12_nv21 v m viewMem _ imgBase hv hm hw hh hw0 hh0]
  set vY := v.data 0
  set vU := v.data 1
  set iY := imgPlaneAddr imgBase m 0
  set iV := imgPlaneAddr imgBase m 2
  set svY := (v.layout.planes 0).rowInc
  set svU := (v.layout.planes 1).rowInc
  set siY := (m.mPlane 0).mRowInc
  set siV := (m.mPlane 2).mRowInc
  set w := v.cropWidth
  set h := v.cropHeight
  apply roundTrip_master
  · intro c hc
    simp only [nv21ToNV12Corrs, CopyPlaneCorr, List.mem_cons, List.not_mem_nil,
      or_false] at hc
    rcases hc with rfl | rfl | rfl
    · exact DSane_row _ _ _ _ _ _ hiY0 hiY
    · refine DSane_grid _ _ _ _ _ _ _ _ _ hiV0 (by norm_num) (by norm_num) ?_
      simp only [Nat.cast_one]
      linarith
    · refine DSane_grid _ _ _ _ _ _ _ _ _ hiV0 (by norm_num) (by norm_num) ?_
      simp only [Nat.cast_one]
      linarith
  · simp only [nv21ToNV12Corrs, CopyPlaneCorr]
    refine List.pairwise_cons.mpr ⟨?_,
      List.pairwise_cons.mpr ⟨?_, List.pairwise_singleton _ _⟩⟩
    · intro c' hc'
      simp only [List.mem_cons, List.not_mem_nil, or_false] at hc'
      rcases hc' with rfl | rfl
      · refine DDisj_of_sep _ _ hiY0 (by norm_num) hiV0 (by norm_num)
          (Sep_of_within _
            ⟨iV, siV, 2, vU + 1, svU, 2, 2, (h + 1) / 2, (w + 1) / 2⟩ _
            ?_ ?_ hsep)
        · show (iV : Int) ≤ iV
          exact le_refl iV
        · simp only [Corr.dHi, Nat.cast_one, Nat.cast_ofNat]
          linarith
      · refine DDisj_of_sep _ _ hiY0 (by norm_num) hiV0 (by norm_num)
          (Sep_of_within _
            ⟨iV, siV, 2, vU + 1, svU, 2, 2, (h + 1) / 2, (w + 1) / 2⟩ _
            ?_ ?_ hsep)
        · show (iV : Int) ≤ iV + 1
          linarith
        · simp only [Corr.dHi, Nat.cast_one, Nat.cast_ofNat]
          linarith
    · intro c' hc'
      simp only [List.mem_singleton] at hc'
      subst hc'
      exact DDisj_interleave iV siV 2 1 1 ((h + 1) / 2) ((w + 1) / 2)
        (vU + 1) svU 2 vU svU 2 (by norm_num) (by norm_num) (by norm_num)
        (by norm_num) hiV0 hiV
  · intro cB hcB
    simp only [nv21ToNV12Corrs, CopyPlaneCorr, List.mem_cons, List.not_mem_nil,
      or_false] at hcB
    rcases hcB with rfl | rfl | rfl
    · exact ⟨DSane_row _ _ _ _ _ _ hvY0 hvY,
        by simp [nv21ToNV12Corrs, CopyPlaneCorr, Corr.mirror]⟩
    · refine ⟨DSane_grid _ _ _ _ _ _ _ _ _ hvU0 (by norm_num) (by norm_num)
        (by simp only [Nat.cast_one]; linarith), ?_⟩
      simp [nv21ToNV12Corrs, CopyPlaneCorr, Corr.mirror]
    · refine ⟨DSane_grid _ _ _ _ _ _ _ _ _ hvU0 (by norm_num) (by norm_num)
        (by simp only [Nat.cast_one]; linarith), ?_⟩
      simp [nv21ToNV12Corrs, CopyPlaneCorr, Corr.mirror]

theorem fwd_nv21_nv12 (v : C2GraphicView) (m : MediaImage2)
    (viewMem imgMem : Mem) (imgBase : Int)
    (hv : IsNV21 v = true) (hm : m.IsNV12 = true)
    (hw : v.cropWidth = m.mWidth) (hh : v.cropHeight = m.mHeight)
    (hw0 : 0 < v.cropWidth) (hh0 : 0 < v.cropHeight) :
    ImageCopyToImg imgMem imgBase m v viewMem =
      (.OK, applyCorrs viewMem
        (nv21ToNV12Corrs (v.data 0) ((v.layout.planes 0).rowInc)
          (v.data 2) ((v.layout.planes 2).rowInc)
          (imgPlaneAddr imgBase m 0) ((m.mPlane 0).mRowInc)
          (imgPlaneAddr imgBase m 1) ((m.mPlane 1).mRowInc)
          v.cropWidth v.cropHeight) imgMem) := by
  have hw0' : 0 < m.mWidth := hw ▸ hw0
  have hh0' : 0 < m.mHeight := hh ▸ hh0
  simp [ImageCopyToImg, view_not_nv12_of_nv21 v hv, hv, hm, hw, hh, hw0', hh0']

theorem back_nv21_nv12 (v : C2GraphicView) (m : MediaImage2)
    (viewMem srcMem : Mem) (imgBase : Int)
    (hv : IsNV21 v = true) (hm : m.IsNV12 = true)
    (hw : v.cropWidth = m.mWidth) (hh : v.cropHeight = m.mHeight)
    (hw0 : 0 < v.cropWidth) (hh0 : 0 < v.cropHeight) :
    ImageCopyToView viewMem v imgBase m srcMem =
      (.OK, applyCorrs srcMem
        (nv21ToNV12Corrs (imgPlaneAddr imgBase m 0) ((m.mPlane 0).mRowInc)
          (imgPlaneAddr imgBase m 1) ((m.mPlane 1).mRowInc)
          (v.data 0) ((v.layout.planes 0).rowInc)
          (v.data 2) ((v.layout.planes 2).rowInc)
          v.cropWidth v.cropHeight) viewMem) := by
  have hw0' : 0 < m.mWidth := hw ▸ hw0
  have hh0' : 0 < m.mHeight := hh ▸ hh0
  simp [ImageCopyToView, view_not_nv12_of_nv21 v hv, hv, hm, hw, hh, hw0', hh0']

theorem rt_nv21_nv12 (v : C2GraphicView) (m : MediaImage2)
    (viewMem imgMem : Mem) (imgBase : Int)
    (hv : IsNV21 v = true) (hm : m.IsNV12 = true)
    (hw : v.cropWidth = m.mWidth) (hh : v.cropHeight = m.mHeight)
    (hw0 : 0 < v.cropWidth) (hh0 : 0 < v.cropHeight)
    (hiY0 : 0 ≤ (m.mPlane 0).mRowInc)
    (hiY : (v.cropWidth : Int) ≤ (m.mPlane 0).mRowInc)
    (hiU0 : 0 ≤ (m.mPlane 1).mRowInc)
    (hiU : 2 * ((((v.cropWidth + 1) / 2 : Nat)) : Int) ≤ (m.mPlane 1).mRowInc)
    (hvY0 : 0 ≤ (v.layout.planes 0).rowInc)
    (hvY : (v.cropWidth : Int) ≤ (v.layout.planes 0).rowInc)
    (hvV0 : 0 ≤ (v.layout.planes 2).rowInc)
    (hvV : 2 * ((((v.cropWidth + 1) / 2 : Nat)) : Int) ≤ (v.layout.planes 2).rowInc)
    (hsep : Corr.Sep
      ⟨imgPlaneAddr imgBase m 0, (m.mPlane 0).mRowInc, 1, v.data 0,
        (v.layout.planes 0).rowInc, 1, v.cropWidth, v.cropHeight, 1⟩
      ⟨imgPlaneAddr imgBase m 1, (m.mPlane 1).mRowInc, 2, v.data 2 + 1,
        (v.layout.planes 2).rowInc, 2, 2, (v.cropHeight + 1) / 2,
        (v.cropWidth + 1) / 2⟩) :
    ∀ a, (ImageCopyToView viewMem v imgBase m
        (ImageCopyToImg imgMem imgBase m v viewMem).2).2 a = viewMem a := by
  intro a
  rw [fwd_nv21_nv12 v m viewMem imgMem imgBase hv hm hw hh hw0 hh0,
    back_nv21_nv12 v m viewMem _ imgBase hv hm hw hh hw0 hh0]
  set vY := v.data 0
  set vV := v.data 2
  set iY := imgPlaneAddr imgBase m 0
  set iU := imgPlaneAddr imgBase m 1
  set svY := (v.layout.planes 0).rowInc
  set svV := (v.layout.planes 2).rowInc
  set siY := (m.mPlane 0).mRowInc
  set siU := (m.mPlane 1).mRowInc
  set w := v.cropWidth
  set h := v.cropHeight
  apply roundTrip_master
  · intro c hc
    simp only [nv21ToNV12Corrs, CopyPlaneCorr, List.mem_cons, List.not_mem_nil,
      or_false] at hc
    rcases hc with rfl | rfl | rfl
    · exact DSane_row _ _ _ _ _ _ hiY0 hiY
    · refine DSane_grid _ _ _ _ _ _ _ _ _ hiU0 (by norm_num) (by norm_num) ?_
      simp only [Nat.cast_one]
      linarith
    · refine DSane_grid _ _ _ _ _ _ _ _ _ hiU0 (by norm_num) (by norm_num) ?_
      simp only [Nat.cast_one]
      linarith
  · simp only [nv21ToNV12Corrs, CopyPlaneCorr]
    refine List.pairwise_cons.mpr ⟨?_,
      List.pairwise_cons.mpr ⟨?_, List.pairwise_singleton _ _⟩⟩
    · intro c' hc'
      simp only [List.mem_cons, List.not_mem_nil, or_false] at hc'
      rcases hc' with rfl | rfl
      · refine DDisj_of_sep _ _ hiY0 (by norm_num) hiU0 (by norm_num)
          (Sep_of_within _
            ⟨iU, siU, 2, vV + 1, svV, 2, 2, (h + 1) / 2, (w + 1) / 2⟩ _
            ?_ ?_ hsep)
        · show (iU : Int) ≤ iU
          exact le_refl iU
        · simp only [Corr.dHi, Nat.cast_one, Nat.cast_ofNat]
          linarith
      · refine DDisj_of_sep _ _ hiY0 (by norm_num) hiU0 (by norm_num)
          (Sep_of_within _
            ⟨iU, siU, 2, vV + 1, svV, 2, 2, (h + 1) / 2, (w + 1) / 2⟩ _
            ?_ ?_ hsep)
        · show (iU : Int) ≤ iU + 1
          linarith
        · simp only [Corr.dHi, Nat.cast_one, Nat.cast_ofNat]
          linarith
    · intro c' hc'
      simp only [List.mem_singleton] at hc'
      subst hc'
      exact DDisj_interleave iU siU 2 1 1 ((h + 1) / 2) ((w + 1) / 2)
        (vV + 1) svV 2 vV svV 2 (by norm_num) (by norm_num) (by norm_num)
        (by norm_num) hiU0 hiU
  · intro cB hcB
    simp only [nv21ToNV12Corrs, CopyPlaneCorr, List.mem_cons, List.not_mem_nil,
      or_false] at hcB
    rcases hcB with rfl | rfl | rfl
    · exact ⟨DSane_row _ _ _ _ _ _ hvY0 hvY,
        by simp [nv21ToNV12Corrs, CopyPlaneCorr, Corr.mirror]⟩
    · refine ⟨DSane_grid _ _ _ _ _ _ _ _ _ hvV0 (by norm_num) (by norm_num)
        (by simp only [Nat.cast_one]; linarith), ?_⟩
      simp [nv21ToNV12Corrs, CopyPlaneCorr, Corr.mirror]
    · refine ⟨DSane_grid _ _ _ _ _ _ _ _ _ hvV0 (by norm_num) (by norm_num)
        (by simp only [Nat.cast_one]; linarith), ?_⟩
      simp [nv21ToNV12Corrs, CopyPlaneCorr, Corr.mirror]

theorem fwd_nv12_i420 (v : C2GraphicView) (m : MediaImage2)
    (viewMem imgMem : Mem) (imgBase : Int)
    (hv : IsNV12 v = true) (hm : m.IsI420 = true)
    (hw : v.cropWidth = m.mWidth) (hh : v.cropHeight = m.mHeight)
    (hw0 : 0 < v.cropWidth) (hh0 : 0 < v.cropHeight) :
    ImageCopyToImg imgMem imgBase m v viewMem =
      (.OK, applyCorrs viewMem
        (nv12ToI420Corrs (v.data 0) ((v.layout.planes 0).rowInc)
          (v.data 1) ((v.layout.planes 1).rowInc)
          (imgPlaneAddr imgBase m 0) ((m.mPlane 0).mRowInc)
          (imgPlaneAddr imgBase m 1) ((m.mPlane 1).mRowInc)
          (imgPlaneAddr imgBase m 2) ((m.mPlane 2).mRowInc)
          v.cropWidth v.cropHeight) imgMem) := by
  have hw0' : 0 < m.mWidth := hw ▸ hw0
  have hh0' : 0 < m.mHeight := hh ▸ hh0
  simp [ImageCopyToImg, hv, hm, img_not_nv12_of_i420 m hm,
    img_not_nv21_of_i420 m hm, hw, hh, hw0', hh0']

theorem back_nv12_i420 (v : C2GraphicView) (m : MediaImage2)
    (viewMem srcMem : Mem) (imgBase : Int)
    (hv : IsNV12 v = true) (hm : m.IsI420 = true)
    (hw : v.cropWidth = m.mWidth) (hh : v.cropHeight = m.mHeight)
    (hw0 : 0 < v.cropWidth) (hh0 : 0 < v.cropHeight) :
    ImageCopyToView viewMem v imgBase m srcMem =
      (.OK, applyCorrs srcMem
        (i420ToNV12Corrs (imgPlaneAddr imgBase m 0) ((m.mPlane 0).mRowInc)
          (imgPlaneAddr imgBase m 1) ((m.mPlane 1).mRowInc)
          (imgPlaneAddr imgBase m 2) ((m.mPlane 2).mRowInc)
          (v.data 0) ((v.layout.planes 0).rowInc)
          (v.data 1) ((v.layout.planes 1).rowInc)
          v.cropWidth v.cropHeight) viewMem) := by
  have hw0' : 0 < m.mWidth := hw ▸ hw0
  have hh0' : 0 < m.mHeight := hh ▸ hh0
  simp [ImageCopyToView, hv, hm, img_not_nv12_of_i420 m hm,
    img_not_nv21_of_i420 m hm, hw, hh, hw0', hh0']

theorem rt_nv12_i420 (v : C2GraphicView) (m : MediaImage2)
    (viewMem imgMem : Mem) (imgBase : Int)
    (hv : IsNV12 v = true) (hm : m.IsI420 = true)
    (hw : v.cropWidth = m.mWidth) (hh : v.cropHeight = m.mHeight)
    (hw0 : 0 < v.cropWidth) (hh0 : 0 < v.cropHeight)
    (hiY0 : 0 ≤ (m.mPlane 0).mRowInc)
    (hiY : (v.cropWidth : Int) ≤ (m.mPlane 0).mRowInc)
    (hiU0 : 0 ≤ (m.mPlane 1).mRowInc)
    (hiU : ((((v.cropWidth + 1) / 2 : Nat)) : Int) ≤ (m.mPlane 1).mRowInc)
    (hiV0 : 0 ≤ (m.mPlane 2).mRowInc)
    (hiV : ((((v.cropWidth + 1) / 2 : Nat)) : Int) ≤ (m.mPlane 2).mRowInc)
    (hvY0 : 0 ≤ (v.layout.planes 0).rowInc)
    (hvY : (v.cropWidth : Int) ≤ (v.layout.planes 0).rowInc)
    (hvU0 : 0 ≤ (v.layout.planes 1).rowInc)
    (hvU : 2 * ((((v.cropWidth + 1) / 2 : Nat)) : Int) ≤ (v.layout.planes 1).rowInc)
    (hsepYU : Corr.Sep
      ⟨imgPlaneAddr imgBase m 0, (m.mPlane 0).mRowInc, 1, v.data 0,
        (v.layout.planes 0).rowInc, 1, v.cropWidth, v.cropHeight, 1⟩
      ⟨imgPlaneAddr imgBase m 1, (m.mPlane 1).mRowInc, 1, v.data 1,
        (v.layout.planes 1).rowInc, 2, 1, (v.cropHeight + 1) / 2,
        (v.cropWidth + 1) / 2⟩)
    (hsepYV : Corr.Sep
      ⟨imgPlaneAddr imgBase m 0, (m.mPlane 0).mRowInc, 1, v.data 0,
        (v.layout.planes 0).rowInc, 1, v.cropWidth, v.cropHeight, 1⟩
      ⟨imgPlaneAddr imgBase m 2, (m.mPlane 2).mRowInc, 1, v.data 1 + 1,
        (v.layout.planes 1).rowInc, 2, 1, (v.cropHeight + 1) / 2,
        (v.cropWidth + 1) / 2⟩)
    (hsepUV : Corr.Sep
      ⟨imgPlaneAddr imgBase m 1, (m.mPlane 1).mRowInc, 1, v.data 1,
        (v.layout.planes 1).rowInc, 2, 1, (v.cropHeight + 1) / 2,
        (v.cropWidth + 1) / 2⟩
      ⟨imgPlaneAddr imgBase m 2, (m.mPlane 2).mRowInc, 1, v.data 1 + 1,
        (v.layout.planes 1).rowInc, 2, 1, (v.cropHeight + 1) / 2,
        (v.cropWidth + 1) / 2⟩) :
    ∀ a, (ImageCopyToView viewMem v imgBase m
        (ImageCopyToImg imgMem imgBase m v viewMem).2).2 a = viewMem a := by
  intro a
  rw [fwd_nv12_i420 v m viewMem imgMem imgBase hv hm hw hh hw0 hh0,
    back_nv12_i420 v m viewMem _ imgBase hv hm hw hh hw0 hh0]
  set vY := v.data 0
  set vU := v.data 1
  set iY := imgPlaneAddr imgBase m 0
  set iU := imgPlaneAddr imgBase m 1
  set iV := imgPlaneAddr imgBase m 2
  set svY := (v.layout.planes 0).rowInc
  set svU := (v.layout.planes 1).rowInc
  set siY := (m.mPlane 0).mRowInc
  set siU := (m.mPlane 1).mRowInc
  set siV := (m.mPlane 2).mRowInc
  set w := v.cropWidth
  set h := v.cropHeight
  apply roundTrip_master
  · intro c hc
    simp only [nv12ToI420Corrs, CopyPlaneCorr, List.mem_cons, List.not_mem_nil,
      or_false] at hc
    rcases hc with rfl | rfl | rfl
    · exact DSane_row _ _ _ _ _ _ hiY0 hiY
    · refine DSane_grid _ _ _ _ _ _ _ _ _ hiU0 (by norm_num) (by norm_num) ?_
      simp only [Nat.cast_one]
      linarith
    · refine DSane_grid _ _ _ _ _ _ _ _ _ hiV0 (by norm_num) (by norm_num) ?_
      simp only [Nat.cast_one]
      linarith
  · simp only [nv12ToI420Corrs, CopyPlaneCorr]
    refine List.pairwise_cons.mpr ⟨?_,
      List.pairwise_cons.mpr ⟨?_, List.pairwise_singleton _ _⟩⟩
    · intro c' hc'
      simp only [List.mem_cons, List.not_mem_nil, or_false] at hc'
      rcases hc' with rfl | rfl
      · exact DDisj_of_sep _ _ hiY0 (by norm_num) hiU0 (by norm_num) hsepYU
      · exact DDisj_of_sep _ _ hiY0 (by norm_num) hiV0 (by norm_num) hsepYV
    · intro c' hc'
      simp only [List.mem_singleton] at hc'
      subst hc'
      exact DDisj_of_sep _ _ hiU0 (by norm_num) hiV0 (by norm_num) hsepUV
  · intro cB hcB
    simp only [i420ToNV12Corrs, CopyPlaneCorr, List.mem_cons, List.not_mem_nil,
      or_false] at hcB
    rcases hcB with rfl | rfl | rfl
    · exact ⟨DSane_row _ _ _ _ _ _ hvY0 hvY,
        by simp [nv12ToI420Corrs, CopyPlaneCorr, Corr.mirror]⟩
    · refine ⟨DSane_grid _ _ _ _ _ _ _ _ _ hvU0 (by norm_num) (by norm_num)
        (by simp only [Nat.cast_one]; linarith), ?_⟩
      simp [nv12ToI420Corrs, CopyPlaneCorr, Corr.mirror]
    · refine ⟨DSane_grid _ _ _ _ _ _ _ _ _ hvU0 (by norm_num) (by norm_num)
        (by simp only [Nat.cast_one]; linarith), ?_⟩
      simp [nv12ToI420Corrs, CopyPlaneCorr, Corr.mirror]

theorem fwd_nv21_i420 (v : C2GraphicView) (m : MediaImage2)
    (viewMem imgMem : Mem) (imgBase : Int)
    (hv : IsNV21 v = true) (hm : m.IsI420 = true)
    (hw : v.cropWidth = m.mWidth) (hh : v.cropHeight = m.mHeight)
    (hw0 : 0 < v.cropWidth) (hh0 : 0 < v.cropHeight) :
    ImageCopyToImg imgMem imgBase m v viewMem =
      (.OK, applyCorrs viewMem
        (nv21ToI420Corrs (v.data 0) ((v.layout.planes 0).rowInc)
          (v.data 2) ((v.layout.planes 2).rowInc)
          (imgPlaneAddr imgBase m 0) ((m.mPlane 0).mRowInc)
          (imgPlaneAddr imgBase m 1) ((m.mPlane 1).mRowInc)
          (imgPlaneAddr imgBase m 2) ((m.mPlane 2).mRowInc)
          v.cropWidth v.cropHeight) imgMem) := by
  have hw0' : 0 < m.mWidth := hw ▸ hw0
  have hh0' : 0 < m.mHeight := hh ▸ hh0
  simp [ImageCopyToImg, view_not_nv12_of_nv21 v hv, hv, hm,
    img_not_nv12_of_i420 m hm, img_not_nv21_of_i420 m hm, hw, hh, hw0', hh0']

theorem back_nv21_i420 (v : C2GraphicView) (m : MediaImage2)
    (viewMem srcMem : Mem) (imgBase : Int)
    (hv : IsNV21 v = true) (hm : m.IsI420 = true)
    (hw : v.cropWidth = m.mWidth) (hh : v.cropHeight = m.mHeight)
    (hw0 : 0 < v.cropWidth) (hh0 : 0 < v.cropHeight) :
    ImageCopyToView viewMem v imgBase m srcMem =
      (.OK, applyCorrs srcMem
        (i420ToNV21Corrs (imgPlaneAddr imgBase m 0) ((m.mPlane 0).mRowInc)
          (imgPlaneAddr imgBase m 1) ((m.mPlane 1).mRowInc)
          (imgPlaneAddr imgBase m 2) ((m.mPlane 2).mRowInc)
          (v.data 0) ((v.layout.planes 0).rowInc)
          (v.data 2) ((v.layout.planes 2).rowInc)
          v.cropWidth v.cropHeight) viewMem) := by
  have hw0' : 0 < m.mWidth := hw ▸ hw0
  have hh0' : 0 < m.mHeight := hh ▸ hh0
  simp [ImageCopyToView, view_not_nv12_of_nv21 v hv, hv, hm,
    img_not_nv12_of_i420 m hm, img_not_nv21_of_i420 m hm, hw, hh, hw0', hh0']

theorem rt_nv21_i420 (v : C2GraphicView) (m : MediaImage2)
    (viewMem imgMem : Mem) (imgBase : Int)
    (hv : IsNV21 v = true) (hm : m.IsI420 = true)
    (hw : v.cropWidth = m.mWidth) (hh : v.cropHeight = m.mHeight)
    (hw0 : 0 < v.cropWidth) (hh0 : 0 < v.cropHeight)
    (hiY0 : 0 ≤ (m.mPlane 0).mRowInc)
    (hiY : (v.cropWidth : Int) ≤ (m.mPlane 0).mRowInc)
    (hiU0 : 0 ≤ (m.mPlane 1).mRowInc)
    (hiU : ((((v.cropWidth + 1) / 2 : Nat)) : Int) ≤ (m.mPlane 1).mRowInc)
    (hiV0 : 0 ≤ (m.mPlane 2).mRowInc)
    (hiV : ((((v.cropWidth + 1) / 2 : Nat)) : Int) ≤ (m.mPlane 2).mRowInc)
    (hvY0 : 0 ≤ (v.layout.planes 0).rowInc)
    (hvY : (v.cropWidth : Int) ≤ (v.layout.planes 0).rowInc)
    (hvV0 : 0 ≤ (v.layout.planes 2).rowInc)
    (hvV : 2 * ((((v.cropWidth + 1) / 2 : Nat)) : Int) ≤ (v.layout.planes 2).rowInc)
    (hsepYV : Corr.Sep
      ⟨imgPlaneAddr imgBase m 0, (m.mPlane 0).mRowInc, 1, v.data 0,
        (v.layout.planes 0).rowInc, 1, v.cropWidth, v.cropHeight, 1⟩
      ⟨imgPlaneAddr imgBase m 2, (m.mPlane 2).mRowInc, 1, v.data 2,
        (v.layout.planes 2).rowInc, 2, 1, (v.cropHeight + 1) / 2,
        (v.cropWidth + 1) / 2⟩)
    (hsepYU : Corr.Sep
      ⟨imgPlaneAddr imgBase m 0, (m.mPlane 0).mRowInc, 1, v.data 0,
        (v.layout.planes 0).rowInc, 1, v.cropWidth, v.cropHeight, 1⟩
      ⟨imgPlaneAddr imgBase m 1, (m.mPlane 1).mRowInc, 1, v.data 2 + 1,
        (v.layout.planes 2).rowInc, 2, 1, (v.cropHeight + 1) / 2,
        (v.cropWidth + 1) / 2⟩)
    (hsepVU : Corr.Sep
      ⟨imgPlaneAddr imgBase m 2, (m.mPlane 2).mRowInc, 1, v.data 2,
        (v.layout.planes 2).rowInc, 2, 1, (v.cropHeight + 1) / 2,
        (v.cropWidth + 1) / 2⟩
      ⟨imgPlaneAddr imgBase m 1, (m.mPlane 1).mRowInc, 1, v.data 2 + 1,
        (v.layout.planes 2).rowInc, 2, 1, (v.cropHeight + 1) / 2,
        (v.cropWidth + 1) / 2⟩) :
    ∀ a, (ImageCopyToView viewMem v imgBase m
        (ImageCopyToImg imgMem imgBase m v viewMem).2).2 a = viewMem a := by
  intro a
  rw [fwd_nv21_i420 v m viewMem imgMem imgBase hv hm hw hh hw0 hh0,
    back_nv21_i420 v m viewMem _ imgBase hv hm hw hh hw0 hh0]
  set vY := v.data 0
  set vV := v.data 2
  set iY := imgPlaneAddr imgBase m 0
  set iU := imgPlaneAddr imgBase m 1
  set iV := imgPlaneAddr imgBase m 2
  set svY := (v.layout.planes 0).rowInc
  set svV := (v.layout.planes 2).rowInc
  set siY := (m.mPlane 0).mRowInc
  set siU := (m.mPlane 1).mRowInc
  set siV := (m.mPlane 2).mRowInc
  set w := v.cropWidth
  set h := v.cropHeight
  apply roundTrip_master
  · intro c hc
    simp only [nv21ToI420Corrs, CopyPlaneCorr, List.mem_cons, List.not_mem_nil,
      or_false] at hc
    rcases hc with rfl | rfl | rfl
    · exact DSane_row _ _ _ _ _ _ hiY0 hiY
    · refine DSane_grid _ _ _ _ _ _ _ _ _ hiV0 (by norm_num) (by norm_num) ?_
      simp only [Nat.cast_one]
      linarith
    · refine DSane_grid _ _ _ _ _ _ _ _ _ hiU0 (by norm_num) (by norm_num) ?_
      simp only [Nat.cast_one]
      linarith
  · simp only [nv21ToI420Corrs, CopyPlaneCorr]
    refine List.pairwise_cons.mpr ⟨?_,
      List.pairwise_cons.mpr ⟨?_, List.pairwise_singleton _ _⟩⟩
    · intro c' hc'
      simp only [List.mem_cons, List.not_mem_nil, or_false] at hc'
      rcases hc' with rfl | rfl
      · exact DDisj_of_sep _ _ hiY0 (by norm_num) hiV0 (by norm_num) hsepYV
      · exact DDisj_of_sep _ _ hiY0 (by norm_num) hiU0 (by norm_num) hsepYU
    · intro c' hc'
      simp only [List.mem_singleton] at hc'
      subst hc'
      exact DDisj_of_sep _ _ hiV0 (by norm_num) hiU0 (by norm_num) hsepVU
  · intro cB hcB
    simp only [i420ToNV21Corrs, CopyPlaneCorr, List.mem_cons, List.not_mem_nil,
      or_false] at hcB
    rcases hcB with rfl | rfl | rfl
    · exact ⟨DSane_row _ _ _ _ _ _ hvY0 hvY,
        by simp [nv21ToI420Corrs, CopyPlaneCorr, Corr.mirror]⟩
    · refine ⟨DSane_grid _ _ _ _ _ _ _ _ _ hvV0 (by norm_num) (by norm_num)
        (by simp only [Nat.cast_one]; linarith), ?_⟩
      simp [nv21ToI420Corrs, CopyPlaneCorr, Corr.mirror]
    · refine ⟨DSane_grid _ _ _ _ _ _ _ _ _ hvV0 (by norm_num) (by norm_num)
        (by simp only [Nat.cast_one]; linarith), ?_⟩
      simp [nv21ToI420Corrs, CopyPlaneCorr, Corr.mirror]

theorem fwd_i420_nv12 (v : C2GraphicView) (m : MediaImage2)
    (viewMem imgMem : Mem) (imgBase : Int)
    (hv : IsI420 v = true) (hm : m.IsNV12 = true)
    (hw : v.cropWidth = m.mWidth) (hh : v.cropHeight = m.mHeight)
    (hw0 : 0 < v.cropWidth) (hh0 : 0 < v.cropHeight) :
    ImageCopyToImg imgMem imgBase m v viewMem =
      (.OK, applyCorrs viewMem
        (i420ToNV12Corrs (v.data 0) ((v.layout.planes 0).rowInc)
          (v.data 1) ((v.layout.planes 1).rowInc)
          (v.data 2) ((v.layout.planes 2).rowInc)
          (imgPlaneAddr imgBase m 0) ((m.mPlane 0).mRowInc)
          (imgPlaneAddr imgBase m 1) ((m.mPlane 1).mRowInc)
          v.cropWidth v.cropHeight) imgMem) := by
  have hw0' : 0 < m.mWidth := hw ▸ hw0
  have hh0' : 0 < m.mHeight := hh ▸ hh0
  simp [ImageCopyToImg, view_not_nv12_of_i420 v hv, view_not_nv21_of_i420 v hv,
    hv, hm, hw, hh, hw0', hh0']

theorem back_i420_nv12 (v : C2GraphicView) (m : MediaImage2)
    (viewMem srcMem : Mem) (imgBase : Int)
    (hv : IsI420 v = true) (hm : m.IsNV12 = true)
    (hw : v.cropWidth = m.mWidth) (hh : v.cropHeight = m.mHeight)
    (hw0 : 0 < v.cropWidth) (hh0 : 0 < v.cropHeight) :
    ImageCopyToView viewMem v imgBase m srcMem =
      (.OK, applyCorrs srcMem
        (nv12ToI420Corrs (imgPlaneAddr imgBase m 0) ((m.mPlane 0).mRowInc)
          (imgPlaneAddr imgBase m 1) ((m.mPlane 1).mRowInc)
          (v.data 0) ((v.layout.planes 0).rowInc)
          (v.data 1) ((v.layout.planes 1).rowInc)
          (v.data 2) ((v.layout.planes 2).rowInc)
          v.cropWidth v.cropHeight) viewMem) := by
  have hw0' : 0 < m.mWidth := hw ▸ hw0
  have hh0' : 0 < m.mHeight := hh ▸ hh0
  simp [ImageCopyToView, view_not_nv12_of_i420 v hv, view_not_nv21_of_i420 v hv,
    hv, hm, hw, hh, hw0', hh0']

theorem rt_i420_nv12 (v : C2GraphicView) (m : MediaImage2)
    (viewMem imgMem : Mem) (imgBase : Int)
    (hv : IsI420 v = true) (hm : m.IsNV12 = true)
    (hw : v.cropWidth = m.mWidth) (hh : v.cropHeight = m.mHeight)
    (hw0 : 0 < v.cropWidth) (hh0 : 0 < v.cropHeight)
    (hiY0 : 0 ≤ (m.mPlane 0).mRowInc)
    (hiY : (v.cropWidth : Int) ≤ (m.mPlane 0).mRowInc)
    (hiU0 : 0 ≤ (m.mPlane 1).mRowInc)
    (hiU : 2 * ((((v.cropWidth + 1) / 2 : Nat)) : Int) ≤ (m.mPlane 1).mRowInc)
    (hvY0 : 0 ≤ (v.layout.planes 0).rowInc)
    (hvY : (v.cropWidth : Int) ≤ (v.layout.planes 0).rowInc)
    (hvU0 : 0 ≤ (v.layout.planes 1).rowInc)
    (hvU : ((((v.cropWidth + 1) / 2 : Nat)) : Int) ≤ (v.layout.planes 1).rowInc)
    (hvV0 : 0 ≤ (v.layout.planes 2).rowInc)
    (hvV : ((((v.cropWidth + 1) / 2 : Nat)) : Int) ≤ (v.layout.planes 2).rowInc)
    (hsep : Corr.Sep
      ⟨imgPlaneAddr imgBase m 0, (m.mPlane 0).mRowInc, 1, v.data 0,
        (v.layout.planes 0).rowInc, 1, v.cropWidth, v.cropHeight, 1⟩
      ⟨imgPlaneAddr imgBase m 1, (m.mPlane 1).mRowInc, 2, v.data 1,
        (v.layout.planes 1).rowInc, 1, 2, (v.cropHeight + 1) / 2,
        (v.cropWidth + 1) / 2⟩) :
    ∀ a, (ImageCopyToView viewMem v imgBase m
        (ImageCopyToImg imgMem imgBase m v viewMem).2).2 a = viewMem a := by
  intro a
  rw [fwd_i420_nv12 v m viewMem imgMem imgBase hv hm hw hh hw0 hh0,
    back_i420_nv12 v m viewMem _ imgBase hv hm hw hh hw0 hh0]
  set vY := v.data 0
  set vU := v.data 1
  set vV := v.data 2
  set iY := imgPlaneAddr imgBase m 0
  set iU := imgPlaneAddr imgBase m 1
  set svY := (v.layout.planes 0).rowInc
  set svU := (v.layout.planes 1).rowInc
  set svV := (v.layout.planes 2).rowInc
  set siY := (m.mPlane 0).mRowInc
  set siU := (m.mPlane 1).mRowInc
  set w := v.cropWidth
  set h := v.cropHeight
  apply roundTrip_master
  · intro c hc
    simp only [i420ToNV12Corrs, CopyPlaneCorr, List.mem_cons, List.not_mem_nil,
      or_false] at hc
    rcases hc with rfl | rfl | rfl
    · exact DSane_row _ _ _ _ _ _ hiY0 hiY
    · refine DSane_grid _ _ _ _ _ _ _ _ _ hiU0 (by norm_num) (by norm_num) ?_
      simp only [Nat.cast_one]
      linarith
    · refine DSane_grid _ _ _ _ _ _ _ _ _ hiU0 (by norm_num) (by norm_num) ?_
      simp only [Nat.cast_one]
      linarith
  · simp only [i420ToNV12Corrs, CopyPlaneCorr]
    refine List.pairwise_cons.mpr ⟨?_,
      List.pairwise_cons.mpr ⟨?_, List.pairwise_singleton _ _⟩⟩
    · intro c' hc'
      simp only [List.mem_cons, List.not_mem_nil, or_false] at hc'
      rcases hc' with rfl | rfl
      · refine DDisj_of_sep _ _ hiY0 (by norm_num) hiU0 (by norm_num)
          (Sep_of_within _
            ⟨iU, siU, 2, vU, svU, 1, 2, (h + 1) / 2, (w + 1) / 2⟩ _
            ?_ ?_ hsep)
        · show (iU : Int) ≤ iU
          exact le_refl iU
        · simp only [Corr.dHi, Nat.cast_one, Nat.cast_ofNat]
          linarith
      · refine DDisj_of_sep _ _ hiY0 (by norm_num) hiU0 (by norm_num)
          (Sep_of_within _
            ⟨iU, siU, 2, vU, svU, 1, 2, (h + 1) / 2, (w + 1) / 2⟩ _
            ?_ ?_ hsep)
        · show (iU : Int) ≤ iU + 1
          linarith
        · simp only [Corr.dHi, Nat.cast_one, Nat.cast_ofNat]
          linarith
    · intro c' hc'
      simp only [List.mem_singleton] at hc'
      subst hc'
      exact DDisj_interleave iU siU 2 1 1 ((h + 1) / 2) ((w + 1) / 2)
        vU svU 1 vV svV 1 (by norm_num) (by norm_num) (by norm_num)
        (by norm_num) hiU0 hiU
  · intro cB hcB
    simp only [nv12ToI420Corrs, CopyPlaneCorr, List.mem_cons, List.not_mem_nil,
      or_false] at hcB
    rcases hcB with rfl | rfl | rfl
    · exact ⟨DSane_row _ _ _ _ _ _ hvY0 hvY,
        by simp [i420ToNV12Corrs, CopyPlaneCorr, Corr.mirror]⟩
    · refine ⟨DSane_grid _ _ _ _ _ _ _ _ _ hvU0 (by norm_num) (by norm_num)
        (by simp only [Nat.cast_one]; linarith), ?_⟩
      simp [i420ToNV12Corrs, CopyPlaneCorr, Corr.mirror]
    · refine ⟨DSane_grid _ _ _ _ _ _ _ _ _ hvV0 (by norm_num) (by norm_num)
        (by simp only [Nat.cast_one]; linarith), ?_⟩
      simp [i420ToNV12Corrs, CopyPlaneCorr, Corr.mirror]

theorem fwd_i420_nv21 (v : C2GraphicView) (m : MediaImage2)
    (viewMem imgMem : Mem) (imgBase : Int)
    (hv : IsI420 v = true) (hm : m.IsNV21 = true)
    (hw : v.cropWidth = m.mWidth) (hh : v.cropHeight = m.mHeight)
    (hw0 : 0 < v.cropWidth) (hh0 : 0 < v.cropHeight) :
    ImageCopyToImg imgMem imgBase m v viewMem =
      (.OK, applyCorrs viewMem
        (i420ToNV21Corrs (v.data 0) ((v.layout.planes 0).rowInc)
          (v.data 1) ((v.layout.planes 1).rowInc)
          (v.data 2) ((v.layout.planes 2).rowInc)
          (imgPlaneAddr imgBase m 0) ((m.mPlane 0).mRowInc)
          (imgPlaneAddr imgBase m 2) ((m.mPlane 2).mRowInc)
          v.cropWidth v.cropHeight) imgMem) := by
  have hw0' : 0 < m.mWidth := hw ▸ hw0
  have hh0' : 0 < m.mHeight := hh ▸ hh0
  simp [ImageCopyToImg, view_not_nv12_of_i420 v hv, view_not_nv21_of_i420 v hv,
    hv, hm, img_not_nv12_of_nv21 m hm, hw, hh, hw0', hh0']

theorem back_i420_nv21 (v : C2GraphicView) (m : MediaImage2)
    (viewMem srcMem : Mem) (imgBase : Int)
    (hv : IsI420 v = true) (hm : m.IsNV21 = true)
    (hw : v.cropWidth = m.mWidth) (hh : v.cropHeight = m.mHeight)
    (hw0 : 0 < v.cropWidth) (hh0 : 0 < v.cropHeight) :
    ImageCopyToView viewMem v imgBase m srcMem =
      (.OK, applyCorrs srcMem
        (nv21ToI420Corrs (imgPlaneAddr imgBase m 0) ((m.mPlane 0).mRowInc)
          (imgPlaneAddr imgBase m 2) ((m.mPlane 2).mRowInc)
          (v.data 0) ((v.layout.planes 0).rowInc)
          (v.data 1) ((v.layout.planes 1).rowInc)
          (v.data 2) ((v.layout.planes 2).rowInc)
          v.cropWidth v.cropHeight) viewMem) := by
  have hw0' : 0 < m.mWidth := hw ▸ hw0
  have hh0' : 0 < m.mHeight := hh ▸ hh0
  simp [ImageCopyToView, view_not_nv12_of_i420 v hv, view_not_nv21_of_i420 v hv,
    hv, hm, img_not_nv12_of_nv21 m hm, hw, hh, hw0', hh0']

theorem rt_i420_nv21 (v : C2GraphicView) (m : MediaImage2)
    (viewMem imgMem : Mem) (imgBase : Int)
    (hv : IsI420 v = true) (hm : m.IsNV21 = true)
    (hw : v.cropWidth = m.mWidth) (hh : v.cropHeight = m.mHeight)
    (hw0 : 0 < v.cropWidth) (hh0 : 0 < v.cropHeight)
    (hiY0 : 0 ≤ (m.mPlane 0).mRowInc)
    (hiY : (v.cropWidth : Int) ≤ (m.mPlane 0).mRowInc)
    (hiV0 : 0 ≤ (m.mPlane 2).mRowInc)
    (hiV : 2 * ((((v.cropWidth + 1) / 2 : Nat)) : Int) ≤ (m.mPlane 2).mRowInc)
    (hvY0 : 0 ≤ (v.layout.planes 0).rowInc)
    (hvY : (v.cropWidth : Int) ≤ (v.layout.planes 0).rowInc)
    (hvU0 : 0 ≤ (v.layout.planes 1).rowInc)
    (hvU : ((((v.cropWidth + 1) / 2 : Nat)) : Int) ≤ (v.layout.planes 1).rowInc)
    (hvV0 : 0 ≤ (v.layout.planes 2).rowInc)
    (hvV : ((((v.cropWidth + 1) / 2 : Nat)) : Int) ≤ (v.layout.planes 2).rowInc)
    (hsep : Corr.Sep
      ⟨imgPlaneAddr imgBase m 0, (m.mPlane 0).mRowInc, 1, v.data 0,
        (v.layout.planes 0).rowInc, 1, v.cropWidth, v.cropHeight, 1⟩
      ⟨imgPlaneAddr imgBase m 2, (m.mPlane 2).mRowInc, 2, v.data 2,
        (v.layout.planes 2).rowInc, 1, 2, (v.cropHeight + 1) / 2,
        (v.cropWidth + 1) / 2⟩) :
    ∀ a, (ImageCopyToView viewMem v imgBase m
        (ImageCopyToImg imgMem imgBase m v viewMem).2).2 a = viewMem a := by
  intro a
  rw [fwd_i420_nv21 v m viewMem imgMem imgBase hv hm hw hh hw0 hh0,
    back_i420_nv21 v m viewMem _ imgBase hv hm hw hh hw0 hh0]
  set vY := v.data 0
  set vU := v.data 1
  set vV := v.data 2
  set iY := imgPlaneAddr imgBase m 0
  set iV := imgPlaneAddr imgBase m 2
  set svY := (v.layout.planes 0).rowInc
  set svU := (v.layout.planes 1).rowInc
  set svV := (v.layout.planes 2).rowInc
  set siY := (m.mPlane 0).mRowInc
  set siV := (m.mPlane 2).mRowInc
  set w := v.cropWidth
  set h := v.cropHeight
  apply roundTrip_master
  · intro c hc
    simp only [i420ToNV21Corrs, CopyPlaneCorr, List.mem_cons, List.not_mem_nil,
      or_false] at hc
    rcases hc with rfl | rfl | rfl
    · exact DSane_row _ _ _ _ _ _ hiY0 hiY
    · refine DSane_grid _ _ _ _ _ _ _ _ _ hiV0 (by norm_num) (by norm_num) ?_
      simp only [Nat.cast_one]
      linarith
    · refine DSane_grid _ _ _ _ _ _ _ _ _ hiV0 (by norm_num) (by norm_num) ?_
      simp only [Nat.cast_one]
      linarith
  · simp only [i420ToNV21Corrs, CopyPlaneCorr]
    refine List.pairwise_cons.mpr ⟨?_,
      List.pairwise_cons.mpr ⟨?_, List.pairwise_singleton _ _⟩⟩
    · intro c' hc'
      simp only [List.mem_cons, List.not_mem_nil, or_false] at hc'
      rcases hc' with rfl | rfl
      · refine DDisj_of_sep _ _ hiY0 (by norm_num) hiV0 (by norm_num)
          (Sep_of_within _
            ⟨iV, siV, 2, vV, svV, 1, 2, (h + 1) / 2, (w + 1) / 2⟩ _
            ?_ ?_ hsep)
        · show (iV : Int) ≤ iV
          exact le_refl iV
        · simp only [Corr.dHi, Nat.cast_one, Nat.cast_ofNat]
          linarith
      · refine DDisj_of_sep _ _ hiY0 (by norm_num) hiV0 (by norm_num)
          (Sep_of_within _
            ⟨iV, siV, 2, vV, svV, 1, 2, (h + 1) / 2, (w + 1) / 2⟩ _
            ?_ ?_ hsep)
        · show (iV : Int) ≤ iV + 1
          linarith
        · simp only [Corr.dHi, Nat.cast_one, Nat.cast_ofNat]
          linarith
    · intro c' hc'
      simp only [List.mem_singleton] at hc'
      subst hc'
      exact DDisj_interleave iV siV 2 1 1 ((h + 1) / 2) ((w + 1) / 2)
        vV svV 1 vU svU 1 (by norm_num) (by norm_num) (by norm_num)
        (by norm_num) hiV0 hiV
  · intro cB hcB
    simp only [nv21ToI420Corrs, CopyPlaneCorr, List.mem_cons, List.not_mem_nil,
      or_false] at hcB
    rcases hcB with rfl | rfl | rfl
    · exact ⟨DSane_row _ _ _ _ _ _ hvY0 hvY,
        by simp [i420ToNV21Corrs, CopyPlaneCorr, Corr.mirror]⟩
    · refine ⟨DSane_grid _ _ _ _ _ _ _ _ _ hvV0 (by norm_num) (by norm_num)
        (by simp only [Nat.cast_one]; linarith), ?_⟩
      simp [i420ToNV21Corrs, CopyPlaneCorr, Corr.mirror]
    · refine ⟨DSane_grid _ _ _ _ _ _ _ _ _ hvU0 (by norm_num) (by norm_num)
        (by simp only [Nat.cast_one]; linarith), ?_⟩
      simp [i420ToNV21Corrs, CopyPlaneCorr, Corr.mirror]

theorem fwd_nv21_nv21 (v : C2GraphicView) (m : MediaImage2)
    (viewMem imgMem : Mem) (imgBase : Int)
    (hv : IsNV21 v = true) (hm : m.IsNV21 = true)
    (hw : v.cropWidth = m.mWidth) (hh : v.cropHeight = m.mHeight) :
    ImageCopyToImg imgMem imgBase m v viewMem =
      (.OK, applyCorrs viewMem
        [CopyPlaneCorr (v.data 0) ((v.layout.planes 0).rowInc)
           (imgPlaneAddr imgBase m 0) ((m.mPlane 0).mRowInc) v.cropWidth
           v.cropHeight,
         CopyPlaneCorr (v.data 2) ((v.layout.planes 2).rowInc)
           (imgPlaneAddr imgBase m 2) ((m.mPlane 2).mRowInc) v.cropWidth
           (v.cropHeight / 2)] imgMem) := by
  simp [ImageCopyToImg, view_not_nv12_of_nv21 v hv, hv, hm,
    img_not_nv12_of_nv21 m hm, hw, hh]

theorem back_nv21_nv21 (v : C2GraphicView) (m : MediaImage2)
    (viewMem srcMem : Mem) (imgBase : Int)
    (hv : IsNV21 v = true) (hm : m.IsNV21 = true)
    (hw : v.cropWidth = m.mWidth) (hh : v.cropHeight = m.mHeight) :
    ImageCopyToView viewMem v imgBase m srcMem =
      (.OK, applyCorrs srcMem
        [CopyPlaneCorr (imgPlaneAddr imgBase m 0) ((m.mPlane 0).mRowInc)
           (v.data 0) ((v.layout.planes 0).rowInc) v.cropWidth v.cropHeight,
         CopyPlaneCorr (imgPlaneAddr imgBase m 2) ((m.mPlane 2).mRowInc)
           (v.data 2) ((v.layout.planes 2).rowInc) v.cropWidth
           (v.cropHeight / 2)] viewMem) := by
  simp [ImageCopyToView, view_not_nv12_of_nv21 v hv, hv, hm,
    img_not_nv12_of_nv21 m hm, hw, hh]

theorem rt_nv21_nv21 (v : C2GraphicView) (m : MediaImage2)
    (viewMem imgMem : Mem) (imgBase : Int)
    (hv : IsNV21 v = true) (hm : m.IsNV21 = true)
    (hw : v.cropWidth = m.mWidth) (hh : v.cropHeight = m.mHeight)
    (hiY0 : 0 ≤ (m.mPlane 0).mRowInc)
    (hiY : (v.cropWidth : Int) ≤ (m.mPlane 0).mRowInc)
    (hiV0 : 0 ≤ (m.mPlane 2).mRowInc)
    (hiV : (v.cropWidth : Int) ≤ (m.mPlane 2).mRowInc)
    (hvY0 : 0 ≤ (v.layout.planes 0).rowInc)
    (hvY : (v.cropWidth : Int) ≤ (v.layout.planes 0).rowInc)
    (hvV0 : 0 ≤ (v.layout.planes 2).rowInc)
    (hvV : (v.cropWidth : Int) ≤ (v.layout.planes 2).rowInc)
    (hsep : Corr.Sep
      (CopyPlaneCorr (v.data 0) ((v.layout.planes 0).rowInc)
        (imgPlaneAddr imgBase m 0) ((m.mPlane 0).mRowInc) v.cropWidth
        v.cropHeight)
      (CopyPlaneCorr (v.data 2) ((v.layout.planes 2).rowInc)
        (imgPlaneAddr imgBase m 2) ((m.mPlane 2).mRowInc) v.cropWidth
        (v.cropHeight / 2))) :
    ∀ a, (ImageCopyToView viewMem v imgBase m
        (ImageCopyToImg imgMem imgBase m v viewMem).2).2 a = viewMem a := by
  intro a
  rw [fwd_nv21_nv21 v m viewMem imgMem imgBase hv hm hw hh,
    back_nv21_nv21 v m viewMem _ imgBase hv hm hw hh]
  apply roundTrip_master
  · intro c hc
    simp only [List.mem_cons, List.not_mem_nil, or_false] at hc
    rcases hc with rfl | rfl
    · exact DSane_row _ _ _ _ _ _ hiY0 hiY
    · exact DSane_row _ _ _ _ _ _ hiV0 hiV
  · refine List.pairwise_cons.mpr ⟨?_, List.pairwise_singleton _ _⟩
    intro c' hc'
    simp only [List.mem_singleton] at hc'
    subst hc'
    exact DDisj_of_sep _ _ hiY0 (by norm_num [CopyPlaneCorr]) hiV0
      (by norm_num [CopyPlaneCorr]) hsep
  · intro cB hcB
    simp only [List.mem_cons, List.not_mem_nil, or_false] at hcB
    rcases hcB with rfl | rfl
    · exact ⟨DSane_row _ _ _ _ _ _ hvY0 hvY, by simp [CopyPlaneCorr, Corr.mirror]⟩
    · exact ⟨DSane_row _ _ _ _ _ _ hvV0 hvV, by simp [CopyPlaneCorr, Corr.mirror]⟩

theorem fwd_i420_i420 (v : C2GraphicView) (m : MediaImage2)
    (viewMem imgMem : Mem) (imgBase : Int)
    (hv : IsI420 v = true) (hm : m.IsI420 = true)
    (hw : v.cropWidth = m.mWidth) (hh : v.cropHeight = m.mHeight) :
    ImageCopyToImg imgMem imgBase m v viewMem =
      (.OK, applyCorrs viewMem
        [CopyPlaneCorr (v.data 0) ((v.layout.planes 0).rowInc)
           (imgPlaneAddr imgBase m 0) ((m.mPlane 0).mRowInc) v.cropWidth
           v.cropHeight,
         CopyPlaneCorr (v.data 1) ((v.layout.planes 1).rowInc)
           (imgPlaneAddr imgBase m 1) ((m.mPlane 1).mRowInc) (v.cropWidth / 2)
           (v.cropHeight / 2),
         CopyPlaneCorr (v.data 2) ((v.layout.planes 2).rowInc)
           (imgPlaneAddr imgBase m 2) ((m.mPlane 2).mRowInc) (v.cropWidth / 2)
           (v.cropHeight / 2)] imgMem) := by
  simp [ImageCopyToImg, view_not_nv12_of_i420 v hv, view_not_nv21_of_i420 v hv,
    hv, hm, img_not_nv12_of_i420 m hm, img_not_nv21_of_i420 m hm, hw, hh]

theorem back_i420_i420 (v : C2GraphicView) (m : MediaImage2)
    (viewMem srcMem : Mem) (imgBase : Int)
    (hv : IsI420 v = true) (hm : m.IsI420 = true)
    (hw : v.cropWidth = m.mWidth) (hh : v.cropHeight = m.mHeight) :
    ImageCopyToView viewMem v imgBase m srcMem =
      (.OK, applyCorrs srcMem
        [CopyPlaneCorr (imgPlaneAddr imgBase m 0) ((m.mPlane 0).mRowInc)
           (v.data 0) ((v.layout.planes 0).rowInc) v.cropWidth v.cropHeight,
         CopyPlaneCorr (imgPlaneAddr imgBase m 1) ((m.mPlane 1).mRowInc)
           (v.data 1) ((v.layout.planes 1).rowInc) (v.cropWidth / 2)
           (v.cropHeight / 2),
         CopyPlaneCorr (imgPlaneAddr imgBase m 2) ((m.mPlane 2).mRowInc)
           (v.data 2) ((v.layout.planes 2).rowInc) (v.cropWidth / 2)
           (v.cropHeight / 2)] viewMem) := by
  simp [ImageCopyToView, view_not_nv12_of_i420 v hv, view_not_nv21_of_i420 v hv,
    hv, hm, img_not_nv12_of_i420 m hm, img_not_nv21_of_i420 m hm, hw, hh]

theorem rt_i420_i420 (v : C2GraphicView) (m : MediaImage2)
    (viewMem imgMem : Mem) (imgBase : Int)
    (hv : IsI420 v = true) (hm : m.IsI420 = true)
    (hw : v.cropWidth = m.mWidth) (hh : v.cropHeight = m.mHeight)
    (hiY0 : 0 ≤ (m.mPlane 0).mRowInc)
    (hiY : (v.cropWidth : Int) ≤ (m.mPlane 0).mRowInc)
    (hiU0 : 0 ≤ (m.mPlane 1).mRowInc)
    (hiU : (((v.cropWidth / 2 : Nat)) : Int) ≤ (m.mPlane 1).mRowInc)
    (hiV0 : 0 ≤ (m.mPlane 2).mRowInc)
    (hiV : (((v.cropWidth / 2 : Nat)) : Int) ≤ (m.mPlane 2).mRowInc)
    (hvY0 : 0 ≤ (v.layout.planes 0).rowInc)
    (hvY : (v.cropWidth : Int) ≤ (v.layout.planes 0).rowInc)
    (hvU0 : 0 ≤ (v.layout.planes 1).rowInc)
    (hvU : (((v.cropWidth / 2 : Nat)) : Int) ≤ (v.layout.planes 1).rowInc)
    (hvV0 : 0 ≤ (v.layout.planes 2).rowInc)
    (hvV : (((v.cropWidth / 2 : Nat)) : Int) ≤ (v.layout.planes 2).rowInc)
    (hsepYU : Corr.Sep
      (CopyPlaneCorr (v.data 0) ((v.layout.planes 0).rowInc)
        (imgPlaneAddr imgBase m 0) ((m.mPlane 0).mRowInc) v.cropWidth
        v.cropHeight)
      (CopyPlaneCorr (v.data 1) ((v.layout.planes 1).rowInc)
        (imgPlaneAddr imgBase m 1) ((m.mPlane 1).mRowInc) (v.cropWidth / 2)
        (v.cropHeight / 2)))
    (hsepYV : Corr.Sep
      (CopyPlaneCorr (v.data 0) ((v.layout.planes 0).rowInc)
        (imgPlaneAddr imgBase m 0) ((m.mPlane 0).mRowInc) v.cropWidth
        v.cropHeight)
      (CopyPlaneCorr (v.data 2) ((v.layout.planes 2).rowInc)
        (imgPlaneAddr imgBase m 2) ((m.mPlane 2).mRowInc) (v.cropWidth / 2)
        (v.cropHeight / 2)))
    (hsepUV : Corr.Sep
      (CopyPlaneCorr (v.data 1) ((v.layout.planes 1).rowInc)
        (imgPlaneAddr imgBase m 1) ((m.mPlane 1).mRowInc) (v.cropWidth / 2)
        (v.cropHeight / 2))
      (CopyPlaneCorr (v.data 2) ((v.layout.planes 2).rowInc)
        (imgPlaneAddr imgBase m 2) ((m.mPlane 2).mRowInc) (v.cropWidth / 2)
        (v.cropHeight / 2))) :
    ∀ a, (ImageCopyToView viewMem v imgBase m
        (ImageCopyToImg imgMem imgBase m v viewMem).2).2 a = viewMem a := by
  intro a
  rw [fwd_i420_i420 v m viewMem imgMem imgBase hv hm hw hh,
    back_i420_i420 v m viewMem _ imgBase hv hm hw hh]
  apply roundTrip_master
  · intro c hc
    simp only [List.mem_cons, List.not_mem_nil, or_false] at hc
    rcases hc with rfl | rfl | rfl
    · exact DSane_row _ _ _ _ _ _ hiY0 hiY
    · exact DSane_row _ _ _ _ _ _ hiU0 hiU
    · exact DSane_row _ _ _ _ _ _ hiV0 hiV
  · refine List.pairwise_cons.mpr ⟨?_,
      List.pairwise_cons.mpr ⟨?_, List.pairwise_singleton _ _⟩⟩
    · intro c' hc'
      simp only [List.mem_cons, List.not_mem_nil, or_false] at hc'
      rcases hc' with rfl | rfl
      · exact DDisj_of_sep _ _ hiY0 (by norm_num [CopyPlaneCorr]) hiU0
          (by norm_num [CopyPlaneCorr]) hsepYU
      · exact DDisj_of_sep _ _ hiY0 (by norm_num [CopyPlaneCorr]) hiV0
          (by norm_num [CopyPlaneCorr]) hsepYV
    · intro c' hc'
      simp only [List.mem_singleton] at hc'
      subst hc'
      exact DDisj_of_sep _ _ hiU0 (by norm_num [CopyPlaneCorr]) hiV0
        (by norm_num [CopyPlaneCorr]) hsepUV
  · intro cB hcB
    simp only [List.mem_cons, List.not_mem_nil, or_false] at hcB
    rcases hcB with rfl | rfl | rfl
    · exact ⟨DSane_row _ _ _ _ _ _ hvY0 hvY, by simp [CopyPlaneCorr, Corr.mirror]⟩
    · exact ⟨DSane_row _ _ _ _ _ _ hvU0 hvU, by simp [CopyPlaneCorr, Corr.mirror]⟩
    · exact ⟨DSane_row _ _ _ _ _ _ hvV0 hvV, by simp [CopyPlaneCorr, Corr.mirror]⟩

theorem Corr.mirror_mirror (c : Corr) : c.mirror.mirror = c := rfl

theorem img_not_yuv420_of_depth16 (m : MediaImage2)
    (h : m.mBitDepthAllocated = 16) : m.IsYUV420 = false := by
  cases hy : m.IsYUV420
  · rfl
  · exfalso
    simp [MediaImage2.IsYUV420, h] at hy

theorem img_not_nv12_of_depth16 (m : MediaImage2)
    (h : m.mBitDepthAllocated = 16) : m.IsNV12 = false := by
  simp [MediaImage2.IsNV12, img_not_yuv420_of_depth16 m h]

theorem img_not_nv21_of_depth16 (m : MediaImage2)
    (h : m.mBitDepthAllocated = 16) : m.IsNV21 = false := by
  simp [MediaImage2.IsNV21, img_not_yuv420_of_depth16 m h]

theorem img_not_i420_of_depth16 (m : MediaImage2)
    (h : m.mBitDepthAllocated = 16) : m.IsI420 = false := by
  simp [MediaImage2.IsI420, img_not_yuv420_of_depth16 m h]

theorem IsP010_facts (v : C2GraphicView) (h : IsP010 v = true) :
    v.layout.numPlanes = 3 ∧
    (v.layout.planes 0).colSampling = 1 ∧ (v.layout.planes 0).rowSampling = 1 ∧
    (v.layout.planes 0).allocatedDepth = 16 ∧
    (v.layout.planes 0).bitDepth = 10 ∧
    (v.layout.planes 0).rightShift = 6 ∧
    (v.layout.planes 1).colSampling = 2 ∧ (v.layout.planes 1).rowSampling = 2 ∧
    (v.layout.planes 1).allocatedDepth = 16 ∧
    (v.layout.planes 1).bitDepth = 10 ∧
    (v.layout.planes 1).rightShift = 6 ∧ (v.layout.planes 1).colInc = 4 ∧
    (v.layout.planes 2).colSampling = 2 ∧ (v.layout.planes 2).rowSampling = 2 ∧
    (v.layout.planes 2).allocatedDepth = 16 ∧
    (v.layout.planes 2).bitDepth = 10 ∧
    (v.layout.planes 2).rightShift = 6 ∧ (v.layout.planes 2).colInc = 4 := by
  have hy : IsYUV420_10bit v = true := by
    cases hy : IsYUV420_10bit v
    · simp [IsP010, hy] at h
    · rfl
  have h' := h
  simp only [IsP010, hy, Bool.not_true, Bool.false_eq_true, if_false,
    Bool.and_eq_true, beq_iff_eq, PLANE_Y, PLANE_U, PLANE_V, and_assoc] at h'
  simp only [IsYUV420_10bit, Bool.and_eq_true, beq_iff_eq, PLANE_Y, PLANE_U,
    PLANE_V, and_assoc] at hy
  obtain ⟨hnp, _, _, had0, hbd0, hcs0, hrs0, _, had1, hbd1, hcs1, hrs1, _,
    had2, hbd2, hcs2, hrs2⟩ := hy
  obtain ⟨_, hci1, _, _, hci2, _, _, hsh0, hsh1, hsh2⟩ := h'
  exact ⟨hnp, hcs0, hrs0, had0, hbd0, hsh0, hcs1, hrs1, had1, hbd1, hsh1,
    hci1, hcs2, hrs2, had2, hbd2, hsh2, hci2⟩

theorem imageCopyGeneric_succ (toImg : Bool) (s : Mem) (v : C2GraphicView)
    (img : MediaImage2) (b : Int) (i k : Nat) (d : Mem)
    (h : planeCompatible (v.layout.planes i) (img.mPlane i)
      img.mBitDepthAllocated (divUp img.mBitDepthAllocated 8) = true) :
    imageCopyGeneric toImg s v img b i (k + 1) d =
      imageCopyGeneric toImg s v img b (i + 1) k
        (cpyRowsOf s (genCorrAt toImg v img b i) d) := by
  simp [imageCopyGeneric, h, genCorrAt]

theorem _ImageCopy_three (toImg : Bool) (s : Mem) (v : C2GraphicView)
    (img : MediaImage2) (b : Int) (d : Mem)
    (hnp : v.layout.numPlanes = 3)
    (h0 : planeCompatible (v.layout.planes 0) (img.mPlane 0)
      img.mBitDepthAllocated (divUp img.mBitDepthAllocated 8) = true)
    (h1 : planeCompatible (v.layout.planes 1) (img.mPlane 1)
      img.mBitDepthAllocated (divUp img.mBitDepthAllocated 8) = true)
    (h2 : planeCompatible (v.layout.planes 2) (img.mPlane 2)
      img.mBitDepthAllocated (divUp img.mBitDepthAllocated 8) = true) :
    _ImageCopy toImg s v img b d =
      (.OK, applyCorrs s
        [genCorrAt toImg v img b 0, genCorrAt toImg v img b 1,
         genCorrAt toImg v img b 2] d) := by
  have s1 : imageCopyGeneric toImg s v img b 0 3 d =
      imageCopyGeneric toImg s v img b 1 2
        (cpyRowsOf s (genCorrAt toImg v img b 0) d) := by
    have hstep := imageCopyGeneric_succ toImg s v img b 0 2 d h0
    simpa using hstep
  have s2 : imageCopyGeneric toImg s v img b 1 2
        (cpyRowsOf s (genCorrAt toImg v img b 0) d) =
      imageCopyGeneric toImg s v img b 2 1
        (cpyRowsOf s (genCorrAt toImg v img b 1)
          (cpyRowsOf s (genCorrAt toImg v img b 0) d)) := by
    have hstep := imageCopyGeneric_succ toImg s v img b 1 1
      (cpyRowsOf s (genCorrAt toImg v img b 0) d) h1
    simpa using hstep
  have s3 : imageCopyGeneric toImg s v img b 2 1
        (cpyRowsOf s (genCorrAt toImg v img b 1)
          (cpyRowsOf s (genCorrAt toImg v img b 0) d)) =
      imageCopyGeneric toImg s v img b 3 0
        (cpyRowsOf s (genCorrAt toImg v img b 2)
          (cpyRowsOf s (genCorrAt toImg v img b 1)
            (cpyRowsOf s (genCorrAt toImg v img b 0) d))) := by
    have hstep := imageCopyGeneric_succ toImg s v img b 2 0
      (cpyRowsOf s (genCorrAt toImg v img b 1)
        (cpyRowsOf s (genCorrAt toImg v img b 0) d)) h2
    simpa using hstep
  unfold _ImageCopy
  rw [hnp, s1, s2, s3]
  rfl

theorem genPlaneCorr_DSane_dst (vB : Int) (plane : C2PlaneInfo) (iB : Int)
    (ip : MediaImage2Plane) (bpp planeW planeH : Nat)
    (hrow : canCopyByRow plane ip bpp = true) (h0 : 0 ≤ ip.mRowInc) :
    (genPlaneCorr vB plane iB ip bpp planeW planeH).DSane := by
  have hmin : ((min plane.rowInc ip.mRowInc).toNat : Int) ≤ ip.mRowInc := by
    have h1 : (min plane.rowInc ip.mRowInc).toNat ≤ ip.mRowInc.toNat :=
      Int.toNat_le_toNat (min_le_right _ _)
    omega
  by_cases hbp : plane.rowInc = ip.mRowInc
  · have hwp : copyGranularity plane ip bpp = .wholePlane := by
      simp [copyGranularity, canCopyByPlane, hrow, hbp]
    simp only [genPlaneCorr, hwp]
    exact ⟨le_refl 0, le_refl 0, fun h => absurd h (Nat.lt_irrefl 1),
      fun h => absurd h (Nat.lt_irrefl 1)⟩
  · have hpr : copyGranularity plane ip bpp = .perRow := by
      simp [copyGranularity, canCopyByPlane, hrow, hbp]
    simp only [genPlaneCorr, hpr]
    refine ⟨h0, le_refl 0, fun h => absurd h (Nat.lt_irrefl 1), fun _ => ?_⟩
    show (0 : Int) * (((1 : Nat) : Int) - 1) +
      ((min plane.rowInc ip.mRowInc).toNat : Int) ≤ ip.mRowInc
    simpa using hmin

theorem genPlaneCorr_DSane_mir (vB : Int) (plane : C2PlaneInfo) (iB : Int)
    (ip : MediaImage2Plane) (bpp planeW planeH : Nat)
    (hrow : canCopyByRow plane ip bpp = true) (h0 : 0 ≤ plane.rowInc) :
    (genPlaneCorr vB plane iB ip bpp planeW planeH).mirror.DSane := by
  have hmin : ((min plane.rowInc ip.mRowInc).toNat : Int) ≤ plane.rowInc := by
    have h1 : (min plane.rowInc ip.mRowInc).toNat ≤ plane.rowInc.toNat :=
      Int.toNat_le_toNat (min_le_left _ _)
    omega
  by_cases hbp : plane.rowInc = ip.mRowInc
  · have hwp : copyGranularity plane ip bpp = .wholePlane := by
      simp [copyGranularity, canCopyByPlane, hrow, hbp]
    simp only [genPlaneCorr, hwp, Corr.mirror]
    exact ⟨le_refl 0, le_refl 0, fun h => absurd h (Nat.lt_irrefl 1),
      fun h => absurd h (Nat.lt_irrefl 1)⟩
  · have hpr : copyGranularity plane ip bpp = .perRow := by
      simp [copyGranularity, canCopyByPlane, hrow, hbp]
    simp only [genPlaneCorr, hpr, Corr.mirror]
    refine ⟨h0, le_refl 0, fun h => absurd h (Nat.lt_irrefl 1), fun _ => ?_⟩
    show (0 : Int) * (((1 : Nat) : Int) - 1) +
      ((min plane.rowInc ip.mRowInc).toNat : Int) ≤ plane.rowInc
    simpa using hmin

theorem genPlaneCorr_dHi_le (vB : Int) (plane : C2PlaneInfo) (iB : Int)
    (ip : MediaImage2Plane) (bpp planeW planeH : Nat)
    (hrow : canCopyByRow plane ip bpp = true) (h0 : 0 ≤ ip.mRowInc) :
    (genPlaneCorr vB plane iB ip bpp planeW planeH).dHi ≤
      iB + ip.mRowInc * (planeH : Int) := by
  have hmin : ((min plane.rowInc ip.mRowInc).toNat : Int) ≤ ip.mRowInc := by
    have h1 : (min plane.rowInc ip.mRowInc).toNat ≤ ip.mRowInc.toNat :=
      Int.toNat_le_toNat (min_le_right _ _)
    omega
  have hH0 : (0 : Int) ≤ (planeH : Int) := Int.natCast_nonneg _
  by_cases hbp : plane.rowInc = ip.mRowInc
  · have hwp : copyGranularity plane ip bpp = .wholePlane := by
      simp [copyGranularity, canCopyByPlane, hrow, hbp]
    simp only [genPlaneCorr, hwp, Corr.dHi]
    rw [hbp]
    have hnn : (0 : Int) ≤ ip.mRowInc * (planeH : Int) := mul_nonneg h0 hH0
    rw [Int.toNat_of_nonneg hnn]
    simp only [Nat.cast_one]
    linarith
  · have hpr : copyGranularity plane ip bpp = .perRow := by
      simp [copyGranularity, canCopyByPlane, hrow, hbp]
    simp only [genPlaneCorr, hpr, Corr.dHi]
    have hring : ip.mRowInc * ((planeH : Int) - 1) =
        ip.mRowInc * (planeH : Int) - ip.mRowInc := by ring
    simp only [Nat.cast_one]
    linarith

theorem genPlaneCorr_dB (vB : Int) (plane : C2PlaneInfo) (iB : Int)
    (ip : MediaImage2Plane) (bpp planeW planeH : Nat) :
    (genPlaneCorr vB plane iB ip bpp planeW planeH).dB = iB := by
  cases hgr : copyGranularity plane ip bpp <;> simp [genPlaneCorr, hgr]

theorem fwd_p010 (v : C2GraphicView) (m : MediaImage2)
    (viewMem imgMem : Mem) (imgBase : Int)
    (hv : IsP010 v = true)
    (hw : v.cropWidth = m.mWidth) (hh : v.cropHeight = m.mHeight) :
    ImageCopyToImg imgMem imgBase m v viewMem =
      _ImageCopy true viewMem v m imgBase imgMem := by
  simp [ImageCopyToImg, view_not_nv12_of_p010 v hv, view_not_nv21_of_p010 v hv,
    view_not_i420_of_p010 v hv, hw, hh]

theorem back_p010 (v : C2GraphicView) (m : MediaImage2)
    (viewMem srcMem : Mem) (imgBase : Int)
    (hd16 : m.mBitDepthAllocated = 16)
    (hw : v.cropWidth = m.mWidth) (hh : v.cropHeight = m.mHeight) :
    ImageCopyToView viewMem v imgBase m srcMem =
      _ImageCopy false srcMem v m imgBase viewMem := by
  simp [ImageCopyToView, img_not_nv12_of_depth16 m hd16,
    img_not_nv21_of_depth16 m hd16, img_not_i420_of_depth16 m hd16, hw, hh]

theorem rt_p010_p010 (v : C2GraphicView) (m : MediaImage2)
    (viewMem imgMem : Mem) (imgBase : Int)
    (hv : IsP010 v = true)
    (hd16 : m.mBitDepthAllocated = 16)
    (hw : v.cropWidth = m.mWidth) (hh : v.cropHeight = m.mHeight)
    (h0h : (m.mPlane 0).mHorizSubsampling = 1)
    (h0v : (m.mPlane 0).mVertSubsampling = 1)
    (h1h : (m.mPlane 1).mHorizSubsampling = 2)
    (h1v : (m.mPlane 1).mVertSubsampling = 2)
    (h2h : (m.mPlane 2).mHorizSubsampling = 2)
    (h2v : (m.mPlane 2).mVertSubsampling = 2)
    (hYcolV : (v.layout.planes 0).colInc = 2)
    (hYcolI : (m.mPlane 0).mColInc = 2)
    (hUcolI : (m.mPlane 1).mColInc = 4)
    (hVcolI : (m.mPlane 2).mColInc = 4)
    (hEnd0 : (v.layout.planes 0).endianness = C2Endian.NATIVE)
    (hEnd1 : (v.layout.planes 1).endianness = C2Endian.NATIVE)
    (hEnd2 : (v.layout.planes 2).endianness = C2Endian.NATIVE)
    (hiY0 : 0 ≤ (m.mPlane 0).mRowInc)
    (hiU0 : 0 ≤ (m.mPlane 1).mRowInc)
    (hvY0 : 0 ≤ (v.layout.planes 0).rowInc)
    (hvU0 : 0 ≤ (v.layout.planes 1).rowInc)
    (hvV0 : 0 ≤ (v.layout.planes 2).rowInc)
    (hiUw : (4 : Int) * (((m.mWidth / 2 : Nat)) : Int) ≤ (m.mPlane 1).mRowInc)
    (hvUw : (4 : Int) * (((m.mWidth / 2 : Nat)) : Int) ≤
      (v.layout.planes 1).rowInc)
    (hvVw : (4 : Int) * (((m.mWidth / 2 : Nat)) : Int) ≤
      (v.layout.planes 2).rowInc)
    (hVoff : (m.mPlane 2).mOffset = (m.mPlane 1).mOffset + 2)
    (hSVU : (m.mPlane 2).mRowInc = (m.mPlane 1).mRowInc)
    (hYsep : imgPlaneAddr imgBase m 0 +
        (m.mPlane 0).mRowInc * (m.mHeight : Int) ≤ imgPlaneAddr imgBase m 1) :
    ∀ a, (ImageCopyToView viewMem v imgBase m
        (ImageCopyToImg imgMem imgBase m v viewMem).2).2 a = viewMem a := by
  intro a
  obtain ⟨hnp, hcs0, hrs0, had0, hbd0, hsh0, hcs1, hrs1, had1, hbd1, hsh1,
    hciU, hcs2, hrs2, had2, hbd2, hsh2, hciV⟩ := IsP010_facts v hv
  have hc0 : planeCompatible (v.layout.planes 0) (m.mPlane 0)
      m.mBitDepthAllocated (divUp m.mBitDepthAllocated 8) = true := by
    simp [planeCompatible, hd16, divUp, had0, hbd0, hsh0, hcs0, hrs0, h0h,
      h0v, hEnd0]
  have hc1 : planeCompatible (v.layout.planes 1) (m.mPlane 1)
      m.mBitDepthAllocated (divUp m.mBitDepthAllocated 8) = true := by
    simp [planeCompatible, hd16, divUp, had1, hbd1, hsh1, hcs1, hrs1, h1h,
      h1v, hEnd1]
  have hc2 : planeCompatible (v.layout.planes 2) (m.mPlane 2)
      m.mBitDepthAllocated (divUp m.mBitDepthAllocated 8) = true := by
    simp [planeCompatible, hd16, divUp, had2, hbd2, hsh2, hcs2, hrs2, h2h,
      h2v, hEnd2]
  have hrow0 : canCopyByRow (v.layout.planes 0) (m.mPlane 0) 2 = true := by
    simp [canCopyByRow, hYcolV, hYcolI]
  have hg0 : genCorrAt true v m imgBase 0 =
      genPlaneCorr (v.data 0) (v.layout.planes 0) (imgPlaneAddr imgBase m 0)
        (m.mPlane 0) 2 m.mWidth m.mHeight := by
    simp [genCorrAt, hcs0, hrs0, hd16, divUp]
  have hb0 : genCorrAt false v m imgBase 0 =
      (genPlaneCorr (v.data 0) (v.layout.planes 0) (imgPlaneAddr imgBase m 0)
        (m.mPlane 0) 2 m.mWidth m.mHeight).mirror := by
    simp [genCorrAt, hcs0, hrs0, hd16, divUp]
  have hg1 : genCorrAt true v m imgBase 1 =
      ⟨imgPlaneAddr imgBase m 1, (m.mPlane 1).mRowInc, 4, v.data 1,
        (v.layout.planes 1).rowInc, 4, 2, m.mHeight / 2, m.mWidth / 2⟩ := by
    simp [genCorrAt, genPlaneCorr, copyGranularity, canCopyByPlane,
      canCopyByRow, hciU, hUcolI, hd16, divUp, hcs1, hrs1]
  have hg2 : genCorrAt true v m imgBase 2 =
      ⟨imgPlaneAddr imgBase m 2, (m.mPlane 2).mRowInc, 4, v.data 2,
        (v.layout.planes 2).rowInc, 4, 2, m.mHeight / 2, m.mWidth / 2⟩ := by
    simp [genCorrAt, genPlaneCorr, copyGranularity, canCopyByPlane,
      canCopyByRow, hciV, hVcolI, hd16, divUp, hcs2, hrs2]
  have hb1 : genCorrAt false v m imgBase 1 =
      ⟨v.data 1, (v.layout.planes 1).rowInc, 4, imgPlaneAddr imgBase m 1,
        (m.mPlane 1).mRowInc, 4, 2, m.mHeight / 2, m.mWidth / 2⟩ := by
    rw [show genCorrAt false v m imgBase 1 =
      (genCorrAt true v m imgBase 1).mirror from rfl, hg1]
    rfl
  have hb2 : genCorrAt false v m imgBase 2 =
      ⟨v.data 2, (v.layout.planes 2).rowInc, 4, imgPlaneAddr imgBase m 2,
        (m.mPlane 2).mRowInc, 4, 2, m.mHeight / 2, m.mWidth / 2⟩ := by
    rw [show genCorrAt false v m imgBase 2 =
      (genCorrAt true v m imgBase 2).mirror from rfl, hg2]
    rfl
  have hiV0 : 0 ≤ (m.mPlane 2).mRowInc := by rw [hSVU]; exact hiU0
  have hiVw : (4 : Int) * (((m.mWidth / 2 : Nat)) : Int) ≤
      (m.mPlane 2).mRowInc := by rw [hSVU]; exact hiUw
  have hVaddr : imgPlaneAddr imgBase m 2 = imgPlaneAddr imgBase m 1 + 2 := by
    simp [imgPlaneAddr, hVoff]
    omega
  have hYhi := genPlaneCorr_dHi_le (v.data 0) (v.layout.planes 0)
    (imgPlaneAddr imgBase m 0) (m.mPlane 0) 2 m.mWidth m.mHeight hrow0 hiY0
  have hsane0 := genPlaneCorr_DSane_dst (v.data 0) (v.layout.planes 0)
    (imgPlaneAddr imgBase m 0) (m.mPlane 0) 2 m.mWidth m.mHeight hrow0 hiY0
  rw [fwd_p010 v m viewMem imgMem imgBase hv hw hh,
    _ImageCopy_three true viewMem v m imgBase imgMem hnp hc0 hc1 hc2,
    back_p010 v m viewMem _ imgBase hd16 hw hh,
    _ImageCopy_three false _ v m imgBase viewMem hnp hc0 hc1 hc2]
  simp only [hg0, hg1, hg2, hb0, hb1, hb2]
  apply roundTrip_master
  · intro c hc
    simp only [List.mem_cons, List.not_mem_nil, or_false] at hc
    rcases hc with rfl | rfl | rfl
    · exact hsane0
    · exact DSane_grid _ _ _ _ _ _ _ _ _ hiU0 (by norm_num) (by norm_num)
        (by simp only [Nat.cast_ofNat]; linarith [hiUw])
    · exact DSane_grid _ _ _ _ _ _ _ _ _ hiV0 (by norm_num) (by norm_num)
        (by simp only [Nat.cast_ofNat]; linarith [hiVw])
  · refine List.pairwise_cons.mpr ⟨?_,
      List.pairwise_cons.mpr ⟨?_, List.pairwise_singleton _ _⟩⟩
    · intro c' hc'
      simp only [List.mem_cons, List.not_mem_nil, or_false] at hc'
      rcases hc' with rfl | rfl
      · exact DDisj_of_sep _ _ hsane0.1 hsane0.2.1 hiU0 (by norm_num)
          (Or.inl (by
            show (genPlaneCorr (v.data 0) (v.layout.planes 0)
              (imgPlaneAddr imgBase m 0) (m.mPlane 0) 2 m.mWidth
              m.mHeight).dHi ≤ imgPlaneAddr imgBase m 1
            linarith [hYhi, hYsep]))
      · exact DDisj_of_sep _ _ hsane0.1 hsane0.2.1 hiV0 (by norm_num)
          (Or.inl (by
            show (genPlaneCorr (v.data 0) (v.layout.planes 0)
              (imgPlaneAddr imgBase m 0) (m.mPlane 0) 2 m.mWidth
              m.mHeight).dHi ≤ imgPlaneAddr imgBase m 2
            rw [hVaddr]
            linarith [hYhi, hYsep]))
    · intro c' hc'
      simp only [List.mem_singleton] at hc'
      subst hc'
      rw [hVaddr, hSVU]
      exact DDisj_interleave (imgPlaneAddr imgBase m 1)
        ((m.mPlane 1).mRowInc) 4 2 2 (m.mHeight / 2) (m.mWidth / 2)
        (v.data 1) ((v.layout.planes 1).rowInc) 4
        (v.data 2) ((v.layout.planes 2).rowInc) 4
        (by norm_num) (by norm_num) (by norm_num) (by norm_num) hiU0 hiUw
  · intro cB hcB
    simp only [List.mem_cons, List.not_mem_nil, or_false] at hcB
    rcases hcB with rfl | rfl | rfl
    · refine ⟨genPlaneCorr_DSane_mir _ _ _ _ _ _ _ hrow0 hvY0, ?_⟩
      rw [Corr.mirror_mirror]
      exact List.mem_cons_self _ _
    · refine ⟨DSane_grid _ _ _ _ _ _ _ _ _ hvU0 (by norm_num) (by norm_num)
        (by simp only [Nat.cast_ofNat]; linarith [hvUw]), ?_⟩
      simp [Corr.mirror]
    · refine ⟨DSane_grid _ _ _ _ _ _ _ _ _ hvV0 (by norm_num) (by norm_num)
        (by simp only [Nat.cast_ofNat]; linarith [hvVw]), ?_⟩
      simp [Corr.mirror]

/-- C1: round-trip identity of the two `ImageCopy` directions.  For a view
classified as NV12, NV21, I420 or P010 and a flat image of the matching or
convertible canonical shape, with matching dimensions, nonnegative row
strides at least as long as a row's data, and destination plane regions
separated, copying the view into the image and back restores every byte of
the view memory.  (The claim as stated, without the stride-sanity and
separation hypotheses, is refuted by the degenerate-stride counterexample.) -/
theorem C1_round_trip (v : C2GraphicView) (m : MediaImage2)
    (viewMem imgMem : Mem) (imgBase : Int)
    (h :
    (IsNV12 v = true ∧
     m.IsNV12 = true ∧
     v.cropWidth = m.mWidth ∧
     v.cropHeight = m.mHeight ∧
     0 ≤ (m.mPlane 0).mRowInc ∧
     (v.cropWidth : Int) ≤ (m.mPlane 0).mRowInc ∧
     0 ≤ (m.mPlane 1).mRowInc ∧
     (v.cropWidth : Int) ≤ (m.mPlane 1).mRowInc ∧
     0 ≤ (v.layout.planes 0).rowInc ∧
     (v.cropWidth : Int) ≤ (v.layout.planes 0).rowInc ∧
     0 ≤ (v.layout.planes 1).rowInc ∧
     (v.cropWidth : Int) ≤ (v.layout.planes 1).rowInc ∧
     Corr.Sep (CopyPlaneCorr (v.data 0) ((v.layout.planes 0).rowInc) (imgPlaneAddr imgBase m 0) ((m.mPlane 0).mRowInc) v.cropWidth v.cropHeight) (CopyPlaneCorr (v.data 1) ((v.layout.planes 1).rowInc) (imgPlaneAddr imgBase m 1) ((m.mPlane 1).mRowInc) v.cropWidth (v.cropHeight / 2))) ∨
    (IsNV12 v = true ∧
     m.IsNV21 = true ∧
     v.cropWidth = m.mWidth ∧
     v.cropHeight = m.mHeight ∧
     0 < v.cropWidth ∧
     0 < v.cropHeight ∧
     0 ≤ (m.mPlane 0).mRowInc ∧
     (v.cropWidth : Int) ≤ (m.mPlane 0).mRowInc ∧
     0 ≤ (m.mPlane 2).mRowInc ∧
     2 * ((((v.cropWidth + 1) / 2 : Nat)) : Int) ≤ (m.mPlane 2).mRowInc ∧
     0 ≤ (v.layout.planes 0).rowInc ∧
     (v.cropWidth : Int) ≤ (v.layout.planes 0).rowInc ∧
     0 ≤ (v.layout.planes 1).rowInc ∧
     2 * ((((v.cropWidth + 1) / 2 : Nat)) : Int) ≤ (v.layout.planes 1).rowInc ∧
     Corr.Sep ⟨imgPlaneAddr imgBase m 0, (m.mPlane 0).mRowInc, 1, v.data 0, (v.layout.planes 0).rowInc, 1, v.cropWidth, v.cropHeight, 1⟩ ⟨imgPlaneAddr imgBase m 2, (m.mPlane 2).mRowInc, 2, v.data 1 + 1, (v.layout.planes 1).rowInc, 2, 2, (v.cropHeight + 1) / 2, (v.cropWidth + 1) / 2⟩) ∨
    (IsNV12 v = true ∧
     m.IsI420 = true ∧
     v.cropWidth = m.mWidth ∧
     v.cropHeight = m.mHeight ∧
     0 < v.cropWidth ∧
     0 < v.cropHeight ∧
     0 ≤ (m.mPlane 0).mRowInc ∧
     (v.cropWidth : Int) ≤ (m.mPlane 0).mRowInc ∧
     0 ≤ (m.mPlane 1).mRowInc ∧
     ((((v.cropWidth + 1) / 2 : Nat)) : Int) ≤ (m.mPlane 1).mRowInc ∧
     0 ≤ (m.mPlane 2).mRowInc ∧
     ((((v.cropWidth + 1) / 2 : Nat)) : Int) ≤ (m.mPlane 2).mRowInc ∧
     0 ≤ (v.layout.planes 0).rowInc ∧
     (v.cropWidth : Int) ≤ (v.layout.planes 0).rowInc ∧
     0 ≤ (v.layout.planes 1).rowInc ∧
     2 * ((((v.cropWidth + 1) / 2 : Nat)) : Int) ≤ (v.layout.planes 1).rowInc ∧
     Corr.Sep ⟨imgPlaneAddr imgBase m 0, (m.mPlane 0).mRowInc, 1, v.data 0, (v.layout.planes 0).rowInc, 1, v.cropWidth, v.cropHeight, 1⟩ ⟨imgPlaneAddr imgBase m 1, (m.mPlane 1).mRowInc, 1, v.data 1, (v.layout.planes 1).rowInc, 2, 1, (v.cropHeight + 1) / 2, (v.cropWidth + 1) / 2⟩ ∧
     Corr.Sep ⟨imgPlaneAddr imgBase m 0, (m.mPlane 0).mRowInc, 1, v.data 0, (v.layout.planes 0).rowInc, 1, v.cropWidth, v.cropHeight, 1⟩ ⟨imgPlaneAddr imgBase m 2, (m.mPlane 2).mRowInc, 1, v.data 1 + 1, (v.layout.planes 1).rowInc, 2, 1, (v.cropHeight + 1) / 2, (v.cropWidth + 1) / 2⟩ ∧
     Corr.Sep ⟨imgPlaneAddr imgBase m 1, (m.mPlane 1).mRowInc, 1, v.data 1, (v.layout.planes 1).rowInc, 2, 1, (v.cropHeight + 1) / 2, (v.cropWidth + 1) / 2⟩ ⟨imgPlaneAddr imgBase m 2, (m.mPlane 2).mRowInc, 1, v.data 1 + 1, (v.layout.planes 1).rowInc, 2, 1, (v.cropHeight + 1) / 2, (v.cropWidth + 1) / 2⟩) ∨
    (IsNV21 v = true ∧
     m.IsNV12 = true ∧
     v.cropWidth = m.mWidth ∧
     v.cropHeight = m.mHeight ∧
     0 < v.cropWidth ∧
     0 < v.cropHeight ∧
     0 ≤ (m.mPlane 0).mRowInc ∧
     (v.cropWidth : Int) ≤ (m.mPlane 0).mRowInc ∧
     0 ≤ (m.mPlane 1).mRowInc ∧
     2 * ((((v.cropWidth + 1) / 2 : Nat)) : Int) ≤ (m.mPlane 1).mRowInc ∧
     0 ≤ (v.layout.planes 0).rowInc ∧
     (v.cropWidth : Int) ≤ (v.layout.planes 0).rowInc ∧
     0 ≤ (v.layout.planes 2).rowInc ∧
     2 * ((((v.cropWidth + 1) / 2 : Nat)) : Int) ≤ (v.layout.planes 2).rowInc ∧
     Corr.Sep ⟨imgPlaneAddr imgBase m 0, (m.mPlane 0).mRowInc, 1, v.data 0, (v.layout.planes 0).rowInc, 1, v.cropWidth, v.cropHeight, 1⟩ ⟨imgPlaneAddr imgBase m 1, (m.mPlane 1).mRowInc, 2, v.data 2 + 1, (v.layout.planes 2).rowInc, 2, 2, (v.cropHeight + 1) / 2, (v.cropWidth + 1) / 2⟩) ∨
    (IsNV21 v = true ∧
     m.IsNV21 = true ∧
     v.cropWidth = m.mWidth ∧
     v.cropHeight = m.mHeight ∧
     0 ≤ (m.mPlane 0).mRowInc ∧
     (v.cropWidth : Int) ≤ (m.mPlane 0).mRowInc ∧
     0 ≤ (m.mPlane 2).mRowInc ∧
     (v.cropWidth : Int) ≤ (m.mPlane 2).mRowInc ∧
     0 ≤ (v.layout.planes 0).rowInc ∧
     (v.cropWidth : Int) ≤ (v.layout.planes 0).rowInc ∧
     0 ≤ (v.layout.planes 2).rowInc ∧
     (v.cropWidth : Int) ≤ (v.layout.planes 2).rowInc ∧
     Corr.Sep (CopyPlaneCorr (v.data 0) ((v.layout.planes 0).rowInc) (imgPlaneAddr imgBase m 0) ((m.mPlane 0).mRowInc) v.cropWidth v.cropHeight) (CopyPlaneCorr (v.data 2) ((v.layout.planes 2).rowInc) (imgPlaneAddr imgBase m 2) ((m.mPlane 2).mRowInc) v.cropWidth (v.cropHeight / 2))) ∨
    (IsNV21 v = true ∧
     m.IsI420 = true ∧
     v.cropWidth = m.mWidth ∧
     v.cropHeight = m.mHeight ∧
     0 < v.cropWidth ∧
     0 < v.cropHeight ∧
     0 ≤ (m.mPlane 0).mRowInc ∧
     (v.cropWidth : Int) ≤ (m.mPlane 0).mRowInc ∧
     0 ≤ (m.mPlane 1).mRowInc ∧
     ((((v.cropWidth + 1) / 2 : Nat)) : Int) ≤ (m.mPlane 1).mRowInc ∧
     0 ≤ (m.mPlane 2).mRowInc ∧
     ((((v.cropWidth + 1) / 2 : Nat)) : Int) ≤ (m.mPlane 2).mRowInc ∧
     0 ≤ (v.layout.planes 0).rowInc ∧
     (v.cropWidth : Int) ≤ (v.layout.planes 0).rowInc ∧
     0 ≤ (v.layout.planes 2).rowInc ∧
     2 * ((((v.cropWidth + 1) / 2 : Nat)) : Int) ≤ (v.layout.planes 2).rowInc ∧
     Corr.Sep ⟨imgPlaneAddr imgBase m 0, (m.mPlane 0).mRowInc, 1, v.data 0, (v.layout.planes 0).rowInc, 1, v.cropWidth, v.cropHeight, 1⟩ ⟨imgPlaneAddr imgBase m 2, (m.mPlane 2).mRowInc, 1, v.data 2, (v.layout.planes 2).rowInc, 2, 1, (v.cropHeight + 1) / 2, (v.cropWidth + 1) / 2⟩ ∧
     Corr.Sep ⟨imgPlaneAddr imgBase m 0, (m.mPlane 0).mRowInc, 1, v.data 0, (v.layout.planes 0).rowInc, 1, v.cropWidth, v.cropHeight, 1⟩ ⟨imgPlaneAddr imgBase m 1, (m.mPlane 1).mRowInc, 1, v.data 2 + 1, (v.layout.planes 2).rowInc, 2, 1, (v.cropHeight + 1) / 2, (v.cropWidth + 1) / 2⟩ ∧
     Corr.Sep ⟨imgPlaneAddr imgBase m 2, (m.mPlane 2).mRowInc, 1, v.data 2, (v.layout.planes 2).rowInc, 2, 1, (v.cropHeight + 1) / 2, (v.cropWidth + 1) / 2⟩ ⟨imgPlaneAddr imgBase m 1, (m.mPlane 1).mRowInc, 1, v.data 2 + 1, (v.layout.planes 2).rowInc, 2, 1, (v.cropHeight + 1) / 2, (v.cropWidth + 1) / 2⟩) ∨
    (IsI420 v = true ∧
     m.IsNV12 = true ∧
     v.cropWidth = m.mWidth ∧
     v.cropHeight = m.mHeight ∧
     0 < v.cropWidth ∧
     0 < v.cropHeight ∧
     0 ≤ (m.mPlane 0).mRowInc ∧
     (v.cropWidth : Int) ≤ (m.mPlane 0).mRowInc ∧
     0 ≤ (m.mPlane 1).mRowInc ∧
     2 * ((((v.cropWidth + 1) / 2 : Nat)) : Int) ≤ (m.mPlane 1).mRowInc ∧
     0 ≤ (v.layout.planes 0).rowInc ∧
     (v.cropWidth : Int) ≤ (v.layout.planes 0).rowInc ∧
     0 ≤ (v.layout.planes 1).rowInc ∧
     ((((v.cropWidth + 1) / 2 : Nat)) : Int) ≤ (v.layout.planes 1).rowInc ∧
     0 ≤ (v.layout.planes 2).rowInc ∧
     ((((v.cropWidth + 1) / 2 : Nat)) : Int) ≤ (v.layout.planes 2).rowInc ∧
     Corr.Sep ⟨imgPlaneAddr imgBase m 0, (m.mPlane 0).mRowInc, 1, v.data 0, (v.layout.planes 0).rowInc, 1, v.cropWidth, v.cropHeight, 1⟩ ⟨imgPlaneAddr imgBase m 1, (m.mPlane 1).mRowInc, 2, v.data 1, (v.layout.planes 1).rowInc, 1, 2, (v.cropHeight + 1) / 2, (v.cropWidth + 1) / 2⟩) ∨
    (IsI420 v = true ∧
     m.IsNV21 = true ∧
     v.cropWidth = m.mWidth ∧
     v.cropHeight = m.mHeight ∧
     0 < v.cropWidth ∧
     0 < v.cropHeight ∧
     0 ≤ (m.mPlane 0).mRowInc ∧
     (v.cropWidth : Int) ≤ (m.mPlane 0).mRowInc ∧
     0 ≤ (m.mPlane 2).mRowInc ∧
     2 * ((((v.cropWidth + 1) / 2 : Nat)) : Int) ≤ (m.mPlane 2).mRowInc ∧
     0 ≤ (v.layout.planes 0).rowInc ∧
     (v.cropWidth : Int) ≤ (v.layout.planes 0).rowInc ∧
     0 ≤ (v.layout.planes 1).rowInc ∧
     ((((v.cropWidth + 1) / 2 : Nat)) : Int) ≤ (v.layout.planes 1).rowInc ∧
     0 ≤ (v.layout.planes 2).rowInc ∧
     ((((v.cropWidth + 1) / 2 : Nat)) : Int) ≤ (v.layout.planes 2).rowInc ∧
     Corr.Sep ⟨imgPlaneAddr imgBase m 0, (m.mPlane 0).mRowInc, 1, v.data 0, (v.layout.planes 0).rowInc, 1, v.cropWidth, v.cropHeight, 1⟩ ⟨imgPlaneAddr imgBase m 2, (m.mPlane 2).mRowInc, 2, v.data 2, (v.layout.planes 2).rowInc, 1, 2, (v.cropHeight + 1) / 2, (v.cropWidth + 1) / 2⟩) ∨
    (IsI420 v = true ∧
     m.IsI420 = true ∧
     v.cropWidth = m.mWidth ∧
     v.cropHeight = m.mHeight ∧
     0 ≤ (m.mPlane 0).mRowInc ∧
     (v.cropWidth : Int) ≤ (m.mPlane 0).mRowInc ∧
     0 ≤ (m.mPlane 1).mRowInc ∧
     (((v.cropWidth / 2 : Nat)) : Int) ≤ (m.mPlane 1).mRowInc ∧
     0 ≤ (m.mPlane 2).mRowInc ∧
     (((v.cropWidth / 2 : Nat)) : Int) ≤ (m.mPlane 2).mRowInc ∧
     0 ≤ (v.layout.planes 0).rowInc ∧
     (v.cropWidth : Int) ≤ (v.layout.planes 0).rowInc ∧
     0 ≤ (v.layout.planes 1).rowInc ∧
     (((v.cropWidth / 2 : Nat)) : Int) ≤ (v.layout.planes 1).rowInc ∧
     0 ≤ (v.layout.planes 2).rowInc ∧
     (((v.cropWidth / 2 : Nat)) : Int) ≤ (v.layout.planes 2).rowInc ∧
     Corr.Sep (CopyPlaneCorr (v.data 0) ((v.layout.planes 0).rowInc) (imgPlaneAddr imgBase m 0) ((m.mPlane 0).mRowInc) v.cropWidth v.cropHeight) (CopyPlaneCorr (v.data 1) ((v.layout.planes 1).rowInc) (imgPlaneAddr imgBase m 1) ((m.mPlane 1).mRowInc) (v.cropWidth / 2) (v.cropHeight / 2)) ∧
     Corr.Sep (CopyPlaneCorr (v.data 0) ((v.layout.planes 0).rowInc) (imgPlaneAddr imgBase m 0) ((m.mPlane 0).mRowInc) v.cropWidth v.cropHeight) (CopyPlaneCorr (v.data 2) ((v.layout.planes 2).rowInc) (imgPlaneAddr imgBase m 2) ((m.mPlane 2).mRowInc) (v.cropWidth / 2) (v.cropHeight / 2)) ∧
     Corr.Sep (CopyPlaneCorr (v.data 1) ((v.layout.planes 1).rowInc) (imgPlaneAddr imgBase m 1) ((m.mPlane 1).mRowInc) (v.cropWidth / 2) (v.cropHeight / 2)) (CopyPlaneCorr (v.data 2) ((v.layout.planes 2).rowInc) (imgPlaneAddr imgBase m 2) ((m.mPlane 2).mRowInc) (v.cropWidth / 2) (v.cropHeight / 2))) ∨
    (IsP010 v = true ∧
     m.mBitDepthAllocated = 16 ∧
     v.cropWidth = m.mWidth ∧
     v.cropHeight = m.mHeight ∧
     (m.mPlane 0).mHorizSubsampling = 1 ∧
     (m.mPlane 0).mVertSubsampling = 1 ∧
     (m.mPlane 1).mHorizSubsampling = 2 ∧
     (m.mPlane 1).mVertSubsampling = 2 ∧
     (m.mPlane 2).mHorizSubsampling = 2 ∧
     (m.mPlane 2).mVertSubsampling = 2 ∧
     (v.layout.planes 0).colInc = 2 ∧
     (m.mPlane 0).mColInc = 2 ∧
     (m.mPlane 1).mColInc = 4 ∧
     (m.mPlane 2).mColInc = 4 ∧
     (v.layout.planes 0).endianness = C2Endian.NATIVE ∧
     (v.layout.planes 1).endianness = C2Endian.NATIVE ∧
     (v.layout.planes 2).endianness = C2Endian.NATIVE ∧
     0 ≤ (m.mPlane 0).mRowInc ∧
     0 ≤ (m.mPlane 1).mRowInc ∧
     0 ≤ (v.layout.planes 0).rowInc ∧
     0 ≤ (v.layout.planes 1).rowInc ∧
     0 ≤ (v.layout.planes 2).rowInc ∧
     (4 : Int) * (((m.mWidth / 2 : Nat)) : Int) ≤ (m.mPlane 1).mRowInc ∧
     (4 : Int) * (((m.mWidth / 2 : Nat)) : Int) ≤ (v.layout.planes 1).rowInc ∧
     (4 : Int) * (((m.mWidth / 2 : Nat)) : Int) ≤ (v.layout.planes 2).rowInc ∧
     (m.mPlane 2).mOffset = (m.mPlane 1).mOffset + 2 ∧
     (m.mPlane 2).mRowInc = (m.mPlane 1).mRowInc ∧
     imgPlaneAddr imgBase m 0 + (m.mPlane 0).mRowInc * (m.mHeight : Int) ≤ imgPlaneAddr imgBase m 1)) :
    ∀ a, (ImageCopyToView viewMem v imgBase m
        (ImageCopyToImg imgMem imgBase m v viewMem).2).2 a = viewMem a := by
  intro a
  rcases h with
      ⟨hv, hm, hw, hh, hiY0, hiY, hiU0, hiU, hvY0, hvY, hvU0, hvU, hsep⟩ |
      ⟨hv, hm, hw, hh, hw0, hh0, hiY0, hiY, hiV0, hiV, hvY0, hvY, hvU0, hvU, hsep⟩ |
      ⟨hv, hm, hw, hh, hw0, hh0, hiY0, hiY, hiU0, hiU, hiV0, hiV, hvY0, hvY, hvU0, hvU, hsepYU, hsepYV, hsepUV⟩ |
      ⟨hv, hm, hw, hh, hw0, hh0, hiY0, hiY, hiU0, hiU, hvY0, hvY, hvV0, hvV, hsep⟩ |
      ⟨hv, hm, hw, hh, hiY0, hiY, hiV0, hiV, hvY0, hvY, hvV0, hvV, hsep⟩ |
      ⟨hv, hm, hw, hh, hw0, hh0, hiY0, hiY, hiU0, hiU, hiV0, hiV, hvY0, hvY, hvV0, hvV, hsepYV, hsepYU, hsepVU⟩ |
      ⟨hv, hm, hw, hh, hw0, hh0, hiY0, hiY, hiU0, hiU, hvY0, hvY, hvU0, hvU, hvV0, hvV, hsep⟩ |
      ⟨hv, hm, hw, hh, hw0, hh0, hiY0, hiY, hiV0, hiV, hvY0, hvY, hvU0, hvU, hvV0, hvV, hsep⟩ |
      ⟨hv, hm, hw, hh, hiY0, hiY, hiU0, hiU, hiV0, hiV, hvY0, hvY, hvU0, hvU, hvV0, hvV, hsepYU, hsepYV, hsepUV⟩ |
      ⟨hv, hd16, hw, hh, h0h, h0v, h1h, h1v, h2h, h2v, hYcolV, hYcolI, hUcolI, hVcolI, hEnd0, hEnd1, hEnd2, hiY0, hiU0, hvY0, hvU0, hvV0, hiUw, hvUw, hvVw, hVoff, hSVU, hYsep⟩
  · exact rt_nv12_nv12 v m viewMem imgMem imgBase hv hm hw hh hiY0 hiY hiU0 hiU hvY0 hvY hvU0 hvU hsep a
  · exact rt_nv12_nv21 v m viewMem imgMem imgBase hv hm hw hh hw0 hh0 hiY0 hiY hiV0 hiV hvY0 hvY hvU0 hvU hsep a
  · exact rt_nv12_i420 v m viewMem imgMem imgBase hv hm hw hh hw0 hh0 hiY0 hiY hiU0 hiU hiV0 hiV hvY0 hvY hvU0 hvU hsepYU hsepYV hsepUV a
  · exact rt_nv21_nv12 v m viewMem imgMem imgBase hv hm hw hh hw0 hh0 hiY0 hiY hiU0 hiU hvY0 hvY hvV0 hvV hsep a
  · exact rt_nv21_nv21 v m viewMem imgMem imgBase hv hm hw hh hiY0 hiY hiV0 hiV hvY0 hvY hvV0 hvV hsep a
  · exact rt_nv21_i420 v m viewMem imgMem imgBase hv hm hw hh hw0 hh0 hiY0 hiY hiU0 hiU hiV0 hiV hvY0 hvY hvV0 hvV hsepYV hsepYU hsepVU a
  · exact rt_i420_nv12 v m viewMem imgMem imgBase hv hm hw hh hw0 hh0 hiY0 hiY hiU0 hiU hvY0 hvY hvU0 hvU hvV0 hvV hsep a
  · exact rt_i420_nv21 v m viewMem imgMem imgBase hv hm hw hh hw0 hh0 hiY0 hiY hiV0 hiV hvY0 hvY hvU0 hvU hvV0 hvV hsep a
  · exact rt_i420_i420 v m viewMem imgMem imgBase hv hm hw hh hiY0 hiY hiU0 hiU hiV0 hiV hvY0 hvY hvU0 hvU hvV0 hvV hsepYU hsepYV hsepUV a
  · exact rt_p010_p010 v m viewMem imgMem imgBase hv hd16 hw hh h0h h0v h1h h1v h2h h2v hYcolV hYcolI hUcolI hVcolI hEnd0 hEnd1 hEnd2 hiY0 hiU0 hvY0 hvU0 hvV0 hiUw hvUw hvVw hVoff hSVU hYsep a

/-- C1 counterexample: with the degenerate flat image whose luma row stride
is zero, both classifiers still match NV12 and the dimensions agree, yet the
round trip corrupts the view byte at address 0. -/
theorem C1_round_trip_counterexample :
    IsNV12 nv12ViewSmall = true ∧
    nv12ImgDegenerate.IsNV12 = true ∧
    nv12ViewSmall.cropWidth = nv12ImgDegenerate.mWidth ∧
    nv12ViewSmall.cropHeight = nv12ImgDegenerate.mHeight ∧
    ¬ ((ImageCopyToView exMem nv12ViewSmall 0 nv12ImgDegenerate
        (ImageCopyToImg exMem2 0 nv12ImgDegenerate nv12ViewSmall
          exMem).2).2 0 = exMem 0) := by
  refine ⟨by decide, by decide, by decide, by decide, by decide⟩

/-- C1 witness: the round-trip theorem applied to the concrete 4×4 NV12
view and NV12 flat image at address 5. -/
theorem C1_round_trip_witness :
    (IsNV12 nv12ViewEx = true ∧ nv12ImgEx.IsNV12 = true ∧
      nv12ViewEx.cropWidth = nv12ImgEx.mWidth ∧
      nv12ViewEx.cropHeight = nv12ImgEx.mHeight) ∧
    (ImageCopyToView exMem nv12ViewEx 0 nv12ImgEx
        (ImageCopyToImg exMem2 0 nv12ImgEx nv12ViewEx exMem).2).2 5 =
      exMem 5 :=
  ⟨by decide,
   C1_round_trip nv12ViewEx nv12ImgEx exMem exMem2 0 (Or.inl (by decide)) 5⟩

/-- C3: fetch evicts every free block of a different size, sets the
current-size watermark, returns a block of the requested size — a fresh one
when the surviving free list is empty, else its front — and release returns
a block to the free list exactly when its size equals the watermark.  In
the trace fetch(100), release, fetch(200), release, fetch(100) the third
fetch allocates a fresh block, while fetch(4096), release, fetch(4096)
returns the same block twice. -/
theorem C3_memory_block_pool (st : PoolState) (size : Nat) (b : PoolBlock) :
    (st.fetch size).2.mCurrentSize = size ∧
    (st.fetch size).1.size = size ∧
    (st.fetch size).1 =
      (match st.mFreeBlocks.filter (fun x => x.size == size) with
       | [] => ⟨st.nextId, size⟩
       | x :: _ => x) ∧
    (st.fetch size).2.mFreeBlocks =
      (st.mFreeBlocks.filter (fun x => x.size == size)).drop 1 ∧
    (st.release b).mFreeBlocks =
      (if b.size = st.mCurrentSize then b :: st.mFreeBlocks
       else st.mFreeBlocks) ∧
    poolTrace1c.1.blockId = poolTrace1b.2.nextId ∧
    poolTrace1c.1 ≠ poolTrace1a.1 ∧ poolTrace1c.1 ≠ poolTrace1b.1 ∧
    poolTrace2b.1 = poolTrace2a.1 := by
  have hrel : (st.release b).mFreeBlocks =
      (if b.size = st.mCurrentSize then b :: st.mFreeBlocks
       else st.mFreeBlocks) := by
    by_cases hb : b.size = st.mCurrentSize <;> simp [PoolState.release, hb]
  cases hf : st.mFreeBlocks.filter (fun x => x.size == size) with
  | nil =>
    refine ⟨?_, ?_, ?_, ?_, hrel, by decide, by decide, by decide, by decide⟩
      <;> simp [PoolState.fetch, hf]
  | cons x rest =>
    have hx : x.size = size := by
      have hmem : x ∈ st.mFreeBlocks.filter (fun x => x.size == size) := by
        rw [hf]; exact List.mem_cons_self _ _
      simpa using (List.mem_filter.mp hmem).2
    refine ⟨?_, ?_, ?_, ?_, hrel, by decide, by decide, by decide, by decide⟩
      <;> simp [PoolState.fetch, hf, hx]

/-- C10: DummyContainerBuffer::copy succeeds unconditionally — even for a
wrapper that already holds a reference, where canCopy is false — replacing
the held reference with the new source and setting the visible range to 1
when a source is given and 0 otherwise. -/
theorem C10_dummy_copy_unconditional (st : DummyContainer)
    (buffer : Option Nat)
    (h : DummyContainerBuffer.canCopy st buffer = false) :
    (DummyContainerBuffer.copy st buffer).1 = true ∧
    (DummyContainerBuffer.copy st buffer).2.mBufferRef = buffer ∧
    (DummyContainerBuffer.copy st buffer).2.rangeLength =
      (if buffer.isSome then 1 else 0) :=
  ⟨rfl, rfl, rfl⟩

/-- C10 witness: a wrapper already holding reference 3 (canCopy is false)
still copies reference 5 successfully with range 1. -/
theorem C10_dummy_copy_unconditional_witness :
    DummyContainerBuffer.canCopy ⟨some 3, 1⟩ (some 5) = false ∧
    ((DummyContainerBuffer.copy ⟨some 3, 1⟩ (some 5)).1 = true ∧
     (DummyContainerBuffer.copy ⟨some 3, 1⟩ (some 5)).2.mBufferRef = some 5 ∧
     (DummyContainerBuffer.copy ⟨some 3, 1⟩ (some 5)).2.rangeLength =
       (if (some 5 : Option Nat).isSome then 1 else 0)) :=
  ⟨by decide, C10_dummy_copy_unconditional ⟨some 3, 1⟩ (some 5) (by decide)⟩

/-- C8: the encrypted mapped sub-view cursor.  copyDecryptedContent fails
without effect when fewer than `length` bytes remain in the view; on success
(no mapping error, enough room) it copies exactly the `length` bytes at the
cursor from the decrypted source, touches nothing else, and advances the
cursor by `length`; the destructor resets the cursor, and a freshly
constructed sub-view starts at cursor zero. -/
theorem C8_mapped_block_cursor (mView : C2WriteViewM) (mem decrypted : Mem)
    (dAddr : Int) (length : Nat) (e b : Int) (c : Nat) :
    (mView.size < length →
      MappedBlock.copyDecryptedContent mView mem decrypted dAddr length =
        (false, mView, mem)) ∧
    (mView.err = 0 → ¬ mView.size < length →
      (MappedBlock.copyDecryptedContent mView mem decrypted dAddr
          length).1 = true ∧
      (MappedBlock.copyDecryptedContent mView mem decrypted dAddr
          length).2.1.offset = mView.offset + length ∧
      (∀ a : Int, mView.dataAddr ≤ a → a < mView.dataAddr + length →
        (MappedBlock.copyDecryptedContent mView mem decrypted dAddr
            length).2.2 a = decrypted (dAddr + (a - mView.dataAddr))) ∧
      (∀ a : Int, ¬ (mView.dataAddr ≤ a ∧ a < mView.dataAddr + length) →
        (MappedBlock.copyDecryptedContent mView mem decrypted dAddr
            length).2.2 a = mem a)) ∧
    (MappedBlock.destruct mView).offset = 0 ∧
    (MappedBlock.construct e b c).offset = 0 := by
  refine ⟨?_, ?_, rfl, rfl⟩
  · intro hlt
    by_cases he : mView.err = 0 <;>
      simp [MappedBlock.copyDecryptedContent, he, hlt]
  · intro he hns
    have hred : MappedBlock.copyDecryptedContent mView mem decrypted dAddr
        length = (true, { mView with offset := mView.offset + length },
          memcpyM mem mView.dataAddr decrypted dAddr length) := by
      simp [MappedBlock.copyDecryptedContent, he, hns]
    rw [hred]
    refine ⟨rfl, rfl, ?_, ?_⟩
    · intro a h1 h2
      show memcpyM mem mView.dataAddr decrypted dAddr length a = _
      unfold memcpyM
      rw [if_pos ⟨h1, h2⟩]
    · intro a hn
      show memcpyM mem mView.dataAddr decrypted dAddr length a = mem a
      unfold memcpyM
      rw [if_neg hn]

theorem bool_flip (p q : Bool) (h : q = true → p = false) (hp : p = true) :
    q = false := by
  cases hq : q
  · rfl
  · exact absurd hp (by simp [h hq])

/-- C5: classifier exclusivity.  A graphic view satisfies at most one of
IsNV12, IsNV21, IsI420, IsP010; a flat image satisfies at most one of
IsNV12, IsNV21, IsI420; and when a side matches none of the classifiers the
corresponding ImageCopy direction falls through to the generic template
(after the dimension guard). -/
theorem C5_classifier_exclusivity (v : C2GraphicView) (m : MediaImage2)
    (viewMem imgMem : Mem) (imgBase : Int) :
    ((IsNV12 v = true →
        IsNV21 v = false ∧ IsI420 v = false ∧ IsP010 v = false) ∧
     (IsNV21 v = true →
        IsNV12 v = false ∧ IsI420 v = false ∧ IsP010 v = false) ∧
     (IsI420 v = true →
        IsNV12 v = false ∧ IsNV21 v = false ∧ IsP010 v = false) ∧
     (IsP010 v = true →
        IsNV12 v = false ∧ IsNV21 v = false ∧ IsI420 v = false)) ∧
    ((m.IsNV12 = true → m.IsNV21 = false ∧ m.IsI420 = false) ∧
     (m.IsNV21 = true → m.IsNV12 = false ∧ m.IsI420 = false) ∧
     (m.IsI420 = true → m.IsNV12 = false ∧ m.IsNV21 = false)) ∧
    (IsNV12 v = false → IsNV21 v = false → IsI420 v = false →
      ImageCopyToImg imgMem imgBase m v viewMem =
        (if v.cropWidth ≠ m.mWidth ∨ v.cropHeight ≠ m.mHeight
         then (.BAD_VALUE, imgMem)
         else _ImageCopy true viewMem v m imgBase imgMem)) ∧
    (m.IsNV12 = false → m.IsNV21 = false → m.IsI420 = false →
      ImageCopyToView viewMem v imgBase m imgMem =
        (if v.cropWidth ≠ m.mWidth ∨ v.cropHeight ≠ m.mHeight
         then (.BAD_VALUE, viewMem)
         else _ImageCopy false imgMem v m imgBase viewMem)) := by
  refine ⟨⟨?_, ?_, ?_, ?_⟩, ⟨?_, ?_, ?_⟩, ?_, ?_⟩
  · intro h
    exact ⟨bool_flip _ _ (view_not_nv12_of_nv21 v) h,
      bool_flip _ _ (view_not_nv12_of_i420 v) h,
      view_not_p010_of_yuv420 v (view_nv12_yuv420 v h)⟩
  · intro h
    exact ⟨view_not_nv12_of_nv21 v h,
      bool_flip _ _ (view_not_nv21_of_i420 v) h,
      view_not_p010_of_yuv420 v (view_nv21_yuv420 v h)⟩
  · intro h
    exact ⟨view_not_nv12_of_i420 v h, view_not_nv21_of_i420 v h,
      view_not_p010_of_yuv420 v (view_i420_yuv420 v h)⟩
  · intro h
    exact ⟨view_not_nv12_of_p010 v h, view_not_nv21_of_p010 v h,
      view_not_i420_of_p010 v h⟩
  · intro h
    exact ⟨bool_flip _ _ (img_not_nv12_of_nv21 m) h,
      bool_flip _ _ (img_not_nv12_of_i420 m) h⟩
  · intro h
    exact ⟨img_not_nv12_of_nv21 m h,
      bool_flip _ _ (img_not_nv21_of_i420 m) h⟩
  · intro h
    exact ⟨img_not_nv12_of_i420 m h, img_not_nv21_of_i420 m h⟩
  · intro h12 h21 h420
    by_cases hd : v.cropWidth ≠ m.mWidth ∨ v.cropHeight ≠ m.mHeight
    · simp [ImageCopyToImg, hd]
    · simp [ImageCopyToImg, hd, h12, h21, h420]
  · intro h12 h21 h420
    by_cases hd : v.cropWidth ≠ m.mWidth ∨ v.cropHeight ≠ m.mHeight
    · simp [ImageCopyToView, hd]
    · simp [ImageCopyToView, hd, h12, h21, h420]

theorem planeCompatible_iff (plane : C2PlaneInfo) (ip : MediaImage2Plane)
    (bda bpp : Nat) :
    planeCompatible plane ip bda bpp = true ↔
      (plane.colSampling = ip.mHorizSubsampling ∧
       plane.rowSampling = ip.mVertSubsampling ∧
       plane.allocatedDepth = bda ∧
       plane.bitDepth ≤ plane.allocatedDepth ∧
       plane.rightShift = plane.allocatedDepth - plane.bitDepth ∧
       (1 < bpp → plane.endianness = C2Endian.NATIVE)) := by
  simp [planeCompatible, not_lt, and_assoc]
  intro _ _ _ _ _
  constructor
  · rintro (hle | hnat) hgt
    · omega
    · exact hnat
  · intro h
    by_cases hb : 1 < bpp
    · exact Or.inr (h hb)
    · exact Or.inl (by omega)

/-- C4: per-plane compatibility and copy granularity of the generic path.
The compatibility guard accepts a plane exactly when subsampling matches,
the view plane's allocated depth equals the image's allocated bit depth, the
meaningful bits are MSB-aligned, and endianness is native for multi-byte
samples; an incompatible plane aborts the loop with BAD_VALUE.  The
granularity is whole-plane exactly when the column increments equal the
sample width on both sides AND the row strides are equal (not on row-stride
equality alone, as claimed — see the counterexample), per-row when the
column increments match the sample width but the row strides differ, and
per-pixel otherwise. -/
theorem C4_generic_compat_granularity (plane : C2PlaneInfo)
    (ip : MediaImage2Plane) (bda bpp : Nat) (toImg : Bool) (s : Mem)
    (v : C2GraphicView) (img : MediaImage2) (b : Int) (i k : Nat) (d : Mem) :
    (planeCompatible plane ip bda bpp = true ↔
      (plane.colSampling = ip.mHorizSubsampling ∧
       plane.rowSampling = ip.mVertSubsampling ∧
       plane.allocatedDepth = bda ∧
       plane.bitDepth ≤ plane.allocatedDepth ∧
       plane.rightShift = plane.allocatedDepth - plane.bitDepth ∧
       (1 < bpp → plane.endianness = C2Endian.NATIVE))) ∧
    (planeCompatible (v.layout.planes i) (img.mPlane i)
        img.mBitDepthAllocated (divUp img.mBitDepthAllocated 8) = false →
      imageCopyGeneric toImg s v img b i (k + 1) d = (.BAD_VALUE, d)) ∧
    (canCopyByRow plane ip bpp = true ↔
      (plane.colInc = (bpp : Int) ∧ ip.mColInc = (bpp : Int))) ∧
    (copyGranularity plane ip bpp = .wholePlane ↔
      (canCopyByRow plane ip bpp = true ∧ plane.rowInc = ip.mRowInc)) ∧
    (copyGranularity plane ip bpp = .perRow ↔
      (canCopyByRow plane ip bpp = true ∧ plane.rowInc ≠ ip.mRowInc)) ∧
    (copyGranularity plane ip bpp = .perPixel ↔
      canCopyByRow plane ip bpp = false) := by
  refine ⟨planeCompatible_iff plane ip bda bpp, ?_, ?_, ?_, ?_, ?_⟩
  · intro h
    simp [imageCopyGeneric, h]
  · simp [canCopyByRow]
  · by_cases hr : canCopyByRow plane ip bpp = true <;>
      by_cases hp : plane.rowInc = ip.mRowInc <;>
        simp [copyGranularity, canCopyByPlane, hr, hp]
  · by_cases hr : canCopyByRow plane ip bpp = true <;>
      by_cases hp : plane.rowInc = ip.mRowInc <;>
        simp [copyGranularity, canCopyByPlane, hr, hp]
  · by_cases hr : canCopyByRow plane ip bpp = true <;>
      by_cases hp : plane.rowInc = ip.mRowInc <;>
        simp [copyGranularity, canCopyByPlane, hr, hp]

/-- C4 counterexample: a view plane and image plane with identical row
strides but a view column increment of 2 against a 1-byte sample width are
copied per-pixel, not whole-plane as the claim's granularity rule states. -/
theorem C4_generic_compat_granularity_counterexample :
    (mkPlane .Y 2 8 1 1 8 8 0 0 0).rowInc =
      (⟨0, 1, 8, 1, 1⟩ : MediaImage2Plane).mRowInc ∧
    copyGranularity (mkPlane .Y 2 8 1 1 8 8 0 0 0) ⟨0, 1, 8, 1, 1⟩ 1 ≠
      Granularity.wholePlane ∧
    copyGranularity (mkPlane .Y 2 8 1 1 8 8 0 0 0) ⟨0, 1, 8, 1, 1⟩ 1 =
      Granularity.perPixel := by
  refine ⟨by decide, by decide, by decide⟩

/-- C6: linear copy capacity guard and atomicity.  canCopyLinear rejects a
single linear block larger than the destination capacity; copyLinear fails
without touching the visible range or the memory when the mapping errors or
the mapped capacity exceeds the destination capacity; and a null source or a
zero-block source succeeds with an empty visible range — for canCopyLinear,
however, only when the destination base pointer is non-null (and, for the
zero-block case, the source is of LINEAR type): the claim's unconditional
reading is refuted by the counterexample. -/
theorem C6_linear_copy_guard (w : LinearWrapper) (mem : Mem)
    (buf : C2BufferData) (blk : LinBlock) (rest : List LinBlock) :
    (w.capacity < blk.size →
      Codec2Buffer.canCopyLinear w
        (some { buf with linearBlocks := [blk] }) = false) ∧
    (blk.size ≠ 0 → blk.mapErr ≠ 0 →
      Codec2Buffer.copyLinear w mem (some ⟨buf.btype, blk :: rest⟩) =
        (false, w, mem)) ∧
    (blk.size ≠ 0 → blk.mapErr = 0 → w.capacity < blk.mapCapacity →
      Codec2Buffer.copyLinear w mem (some ⟨buf.btype, blk :: rest⟩) =
        (false, w, mem)) ∧
    (w.base.isSome → Codec2Buffer.canCopyLinear w none = true) ∧
    (w.base.isSome → buf.btype = C2BufType.LINEAR → buf.linearBlocks = [] →
      Codec2Buffer.canCopyLinear w (some buf) = true) ∧
    (Codec2Buffer.copyLinear w mem none =
      (true, { w with rangeOffset := 0, rangeLength := 0 }, mem)) ∧
    (buf.linearBlocks = [] →
      Codec2Buffer.copyLinear w mem (some buf) =
        (true, { w with rangeOffset := 0, rangeLength := 0 }, mem)) := by
  refine ⟨?_, ?_, ?_, ?_, ?_, rfl, ?_⟩
  · intro hcap
    unfold Codec2Buffer.canCopyLinear
    cases hb : w.base
    · simp
    · by_cases ht : buf.btype = C2BufType.LINEAR <;> simp [ht, hcap]
  · intro hsz herr
    simp [Codec2Buffer.copyLinear, hsz, herr]
  · intro hsz herr hcap
    simp [Codec2Buffer.copyLinear, hsz, herr, hcap]
  · intro hb
    unfold Codec2Buffer.canCopyLinear
    cases hs : w.base
    · rw [hs] at hb
      cases hb
    · simp
  · intro hb ht hblocks
    unfold Codec2Buffer.canCopyLinear
    cases hs : w.base
    · rw [hs] at hb
      cases hb
    · simp [ht, hblocks]
  · intro hblocks
    simp [Codec2Buffer.copyLinear, hblocks]

/-- C6 counterexample: a wrapper whose base pointer is null cannot copy even
a null source, and a zero-block GRAPHIC source is rejected as well — the
claim's "null source or zero blocks always makes canCopy true" is false. -/
theorem C6_linear_copy_guard_counterexample :
    Codec2Buffer.canCopyLinear ⟨none, 10, 0, 0⟩ none = false ∧
    Codec2Buffer.canCopyLinear ⟨some 0, 10, 0, 0⟩
      (some ⟨C2BufType.GRAPHIC, []⟩) = false := by
  refine ⟨by decide, by decide⟩

/-- C6 witness: a 10-byte wrapper with a valid base rejects a 16-byte block,
fails cleanly on a mapping error, and accepts the empty source. -/
theorem C6_linear_copy_guard_witness :
    ((⟨some 0, 10, 0, 0⟩ : LinearWrapper).capacity <
      (⟨16, 1, 0, 16⟩ : LinBlock).size) ∧
    Codec2Buffer.canCopyLinear ⟨some 0, 10, 0, 0⟩
      (some { (⟨C2BufType.LINEAR, []⟩ : C2BufferData) with
        linearBlocks := [⟨16, 1, 0, 16⟩] }) = false :=
  ⟨by decide,
   (C6_linear_copy_guard ⟨some 0, 10, 0, 0⟩ exMem ⟨C2BufType.LINEAR, []⟩
     ⟨16, 1, 0, 16⟩ []).1 (by decide)⟩

/-- C9: error taxonomy of the converter constructor.  A YUVA layout is
rejected with NO_INIT (unsupported configuration), but an RGB or RGBA layout
whose client color format has no rule is rejected with BAD_VALUE — not with
the unsupported-configuration status the claim asserts (see the
counterexample); the two statuses are distinct. -/
theorem C9_unsupported_vs_bad_arg (view : C2GraphicView) (format : AMessageM)
    (copy : Bool) :
    (view.err = 0 → view.layout.numPlanes ≠ 0 →
      view.layout.type = C2LayoutType.YUVA →
      (GraphicView2MediaImageConverter view format copy).initCheck =
        Status.NO_INIT) ∧
    (view.err = 0 → view.layout.numPlanes ≠ 0 →
      view.layout.type = C2LayoutType.RGB →
      ¬ (format.colorFormat.getD COLOR_FormatYUV420Flexible =
           COLOR_FormatSurface ∨
         format.colorFormat.getD COLOR_FormatYUV420Flexible =
           COLOR_FormatRGBFlexible ∨
         format.colorFormat.getD COLOR_FormatYUV420Flexible =
           COLOR_Format24bitBGR888 ∨
         format.colorFormat.getD COLOR_FormatYUV420Flexible =
           COLOR_Format24bitRGB888) →
      (GraphicView2MediaImageConverter view format copy).initCheck =
        Status.BAD_VALUE) ∧
    (view.err = 0 → view.layout.numPlanes ≠ 0 →
      view.layout.type = C2LayoutType.RGBA →
      ¬ (format.colorFormat.getD COLOR_FormatYUV420Flexible =
           COLOR_FormatSurface ∨
         format.colorFormat.getD COLOR_FormatYUV420Flexible =
           COLOR_FormatRGBAFlexible ∨
         format.colorFormat.getD COLOR_FormatYUV420Flexible =
           COLOR_Format32bitABGR8888 ∨
         format.colorFormat.getD COLOR_FormatYUV420Flexible =
           COLOR_Format32bitARGB8888 ∨
         format.colorFormat.getD COLOR_FormatYUV420Flexible =
           COLOR_Format32bitBGRA8888) →
      (GraphicView2MediaImageConverter view format copy).initCheck =
        Status.BAD_VALUE) ∧
    Status.NO_INIT ≠ Status.BAD_VALUE := by
  refine ⟨?_, ?_, ?_, by decide⟩
  · intro herr hnp htype
    simp [GraphicView2MediaImageConverter, ConverterState.initCheck, herr,
      hnp, htype]
  · intro herr hnp htype hno
    simp [GraphicView2MediaImageConverter, ConverterState.initCheck, herr,
      hnp, htype, hno]
  · intro herr hnp htype hno
    simp [GraphicView2MediaImageConverter, ConverterState.initCheck, herr,
      hnp, htype, hno]

/-- C9 counterexample: an RGB view with the unrecognized client color format
42 is recorded as BAD_VALUE, not as the unsupported-configuration status
NO_INIT. -/
theorem C9_unsupported_vs_bad_arg_counterexample :
    (GraphicView2MediaImageConverter rgbViewEx ⟨some 42, none⟩
      true).initCheck = Status.BAD_VALUE ∧
    (GraphicView2MediaImageConverter yuvaViewEx ⟨some 42, none⟩
      true).initCheck = Status.NO_INIT := by
  refine ⟨by decide, by decide⟩

theorem converterTail_wrap_shape (view : C2GraphicView)
    (clientFmt compFmt : Int) (d bitDepth stride vStride : Nat)
    (img1 : MediaImage2) (tw : Bool) :
    (converterTail view clientFmt compFmt d bitDepth stride vStride img1
        tw).mBackBuffer = none ∧
    ((converterTail view clientFmt compFmt d bitDepth stride vStride img1
        tw).mWrapped = none ∨
      ((wrapScan view d).1 = view.data 0 ∧
       (wrapScan view d).2.1 - (wrapScan view d).1 ≤ (wrapScan view d).2.2 ∧
       (converterTail view clientFmt compFmt d bitDepth stride vStride img1
          tw).mWrapped = some ⟨(wrapScan view d).1,
            ((wrapScan view d).2.1 - (wrapScan view d).1).toNat,
            ((wrapScan view d).2.1 - (wrapScan view d).1).toNat⟩)) := by
  unfold converterTail
  by_cases hdw : (tw = true) ∧ (wrapScan view d).1 = view.data 0 ∧
      (wrapScan view d).2.1 - (wrapScan view d).1 ≤ (wrapScan view d).2.2
  · cases hfc : converterFinalCheck view.layout d bitDepth stride vStride <;>
      simp only [hfc] <;>
      refine ⟨by trivial, Or.inr ⟨hdw.2.1, hdw.2.2, ?_⟩⟩ <;>
      · show (if (tw = true) ∧ (wrapScan view d).1 = view.data 0 ∧
            (wrapScan view d).2.1 - (wrapScan view d).1 ≤
              (wrapScan view d).2.2
          then some (⟨(wrapScan view d).1,
            ((wrapScan view d).2.1 - (wrapScan view d).1).toNat,
            ((wrapScan view d).2.1 - (wrapScan view d).1).toNat⟩ : ABufferM)
          else none) = _
        rw [if_pos hdw]
  · cases hfc : converterFinalCheck view.layout d bitDepth stride vStride <;>
      simp only [hfc] <;>
      refine ⟨by trivial, Or.inl ?_⟩ <;>
      · show (if (tw = true) ∧ (wrapScan view d).1 = view.data 0 ∧
            (wrapScan view d).2.1 - (wrapScan view d).1 ≤
              (wrapScan view d).2.2
          then some (⟨(wrapScan view d).1,
            ((wrapScan view d).2.1 - (wrapScan view d).1).toNat,
            ((wrapScan view d).2.1 - (wrapScan view d).1).toNat⟩ : ABufferM)
          else none) = none
        rw [if_neg hdw]

theorem converterYUV_wrap_shape (view : C2GraphicView) (format : AMessageM)
    (copy : Bool) :
    (converterYUV view format copy).mBackBuffer = none ∧
    ((converterYUV view format copy).mWrapped = none ∨
      ((wrapScan view (view.layout.planes 0).allocatedDepth).1 =
          view.data 0 ∧
       (wrapScan view (view.layout.planes 0).allocatedDepth).2.1 -
          (wrapScan view (view.layout.planes 0).allocatedDepth).1 ≤
          (wrapScan view (view.layout.planes 0).allocatedDepth).2.2 ∧
       (converterYUV view format copy).mWrapped =
         some ⟨(wrapScan view (view.layout.planes 0).allocatedDepth).1,
           ((wrapScan view (view.layout.planes 0).allocatedDepth).2.1 -
             (wrapScan view (view.layout.planes 0).allocatedDepth).1).toNat,
           ((wrapScan view (view.layout.planes 0).allocatedDepth).2.1 -
             (wrapScan view (view.layout.planes 0).allocatedDepth).1).toNat⟩)) := by
  unfold converterYUV
  simp only []
  repeat' split
  all_goals first
    | exact ⟨rfl, Or.inl rfl⟩
    | exact converterTail_wrap_shape _ _ _ _ _ _ _ _ _

theorem converter_wrap_cases (view : C2GraphicView) (format : AMessageM)
    (copy : Bool) :
    (GraphicView2MediaImageConverter view format copy).mBackBuffer = none ∧
    ((GraphicView2MediaImageConverter view format copy).mWrapped = none ∨
      ((wrapScan view (view.layout.planes 0).allocatedDepth).1 =
          view.data 0 ∧
       (wrapScan view (view.layout.planes 0).allocatedDepth).2.1 -
          (wrapScan view (view.layout.planes 0).allocatedDepth).1 ≤
          (wrapScan view (view.layout.planes 0).allocatedDepth).2.2 ∧
       (GraphicView2MediaImageConverter view format copy).mWrapped =
         some ⟨(wrapScan view (view.layout.planes 0).allocatedDepth).1,
           ((wrapScan view (view.layout.planes 0).allocatedDepth).2.1 -
             (wrapScan view (view.layout.planes 0).allocatedDepth).1).toNat,
           ((wrapScan view (view.layout.planes 0).allocatedDepth).2.1 -
             (wrapScan view (view.layout.planes 0).allocatedDepth).1).toNat⟩)) := by
  by_cases herr : view.err ≠ 0
  · simp only [GraphicView2MediaImageConverter, if_pos herr]
    exact ⟨trivial, Or.inl trivial⟩
  · by_cases hnp : view.layout.numPlanes = 0
    · simp only [GraphicView2MediaImageConverter, if_neg herr, if_pos hnp]
      exact ⟨trivial, Or.inl trivial⟩
    · cases htype : view.layout.type <;>
        simp only [GraphicView2MediaImageConverter, if_neg herr, if_neg hnp,
          htype] <;>
        repeat' split
      all_goals first
        | exact ⟨trivial, Or.inl trivial⟩
        | exact ⟨rfl, Or.inl rfl⟩
        | exact converterYUV_wrap_shape view format copy
        | exact converterTail_wrap_shape _ _ _ _ _ _ _ _ _

/-- C2: the wrapped span.  Whenever wrap() returns a buffer, the buffer
starts at the view's plane-0 data pointer, which is the minimum plane
pointer of the wrapping scan, and its capacity is the span maxPtr - minPtr,
which is at most — not, as claimed, equal to — the sum of the theoretical
per-plane sizes (the counterexample wraps a view whose span is strictly
smaller than the padded theoretical size). -/
theorem C2_wrap_span (view : C2GraphicView) (format : AMessageM)
    (copy : Bool) (b : ABufferM)
    (h : (GraphicView2MediaImageConverter view format copy).wrap = some b) :
    b.base = view.data 0 ∧
    b.base = (wrapScan view (view.layout.planes 0).allocatedDepth).1 ∧
    b.capacity =
      ((wrapScan view (view.layout.planes 0).allocatedDepth).2.1 -
        (wrapScan view (view.layout.planes 0).allocatedDepth).1).toNat ∧
    (wrapScan view (view.layout.planes 0).allocatedDepth).2.1 -
      (wrapScan view (view.layout.planes 0).allocatedDepth).1 ≤
      (wrapScan view (view.layout.planes 0).allocatedDepth).2.2 := by
  obtain ⟨hbb, hcase⟩ := converter_wrap_cases view format copy
  unfold ConverterState.wrap at h
  rw [hbb] at h
  simp only [Option.isNone_none, if_true] at h
  rcases hcase with hn | ⟨h1, h2, hs⟩
  · rw [hn] at h
    cases h
  · rw [hs] at h
    injection h with hb
    subst hb
    exact ⟨h1, rfl, rfl, h2⟩

/-- C2 counterexample: the 16x16 single-plane view wraps successfully with a
256-byte span, but the sum of theoretical plane sizes is 1024 (the height is
padded to a multiple of 64): the span does not equal the plane-size sum. -/
theorem C2_wrap_span_counterexample :
    (GraphicView2MediaImageConverter unknownViewEx ⟨none, none⟩ false).wrap =
      some ⟨0, 256, 256⟩ ∧
    ((256 : Int) ≠
      (wrapScan unknownViewEx
        (unknownViewEx.layout.planes 0).allocatedDepth).2.2) := by
  refine ⟨by decide, by decide⟩

/-- C2 witness: the wrap-span theorem applied to the successfully wrapped
16x16 single-plane view. -/
theorem C2_wrap_span_witness :
    ((GraphicView2MediaImageConverter unknownViewEx ⟨none, none⟩ false).wrap =
      some ⟨0, 256, 256⟩) ∧
    ((⟨0, 256, 256⟩ : ABufferM).base = unknownViewEx.data 0 ∧
     (⟨0, 256, 256⟩ : ABufferM).base =
       (wrapScan unknownViewEx
         (unknownViewEx.layout.planes 0).allocatedDepth).1 ∧
     (⟨0, 256, 256⟩ : ABufferM).capacity =
       ((wrapScan unknownViewEx
           (unknownViewEx.layout.planes 0).allocatedDepth).2.1 -
         (wrapScan unknownViewEx
           (unknownViewEx.layout.planes 0).allocatedDepth).1).toNat ∧
     (wrapScan unknownViewEx
         (unknownViewEx.layout.planes 0).allocatedDepth).2.1 -
       (wrapScan unknownViewEx
         (unknownViewEx.layout.planes 0).allocatedDepth).1 ≤
       (wrapScan unknownViewEx
         (unknownViewEx.layout.planes 0).allocatedDepth).2.2) :=
  ⟨by decide,
   C2_wrap_span unknownViewEx ⟨none, none⟩ false ⟨0, 256, 256⟩ (by decide)⟩

/-- C7: converter state machine.  When the recorded init status is an error,
copyToMediaImage returns that error — but setBackBuffer does not consult the
init status at all: it rejects only a null or too-small buffer and accepts
any adequate buffer even on a failed or wrapped instance (see the
counterexample), and once a back buffer is adopted wrap() returns null; the
wrapped/copied exclusivity is enforced by wrap() gating on the back buffer,
not by rejecting the transition. -/
theorem C7_converter_state_machine (st : ConverterState)
    (viewMem imgMem : Mem) (b : ABufferM) :
    (st.mInitCheck ≠ .OK →
      st.copyToMediaImage viewMem imgMem = some (st.mInitCheck, imgMem)) ∧
    (st.setBackBuffer none = (false, st)) ∧
    (b.capacity < st.mBackBufferSize →
      st.setBackBuffer (some b) = (false, st)) ∧
    (¬ b.capacity < st.mBackBufferSize →
      st.setBackBuffer (some b) =
        (true,
         { st with mBackBuffer := some { b with size := st.mBackBufferSize } })) ∧
    (¬ b.capacity < st.mBackBufferSize →
      (st.setBackBuffer (some b)).2.wrap = none) := by
  refine ⟨?_, rfl, ?_, ?_, ?_⟩
  · intro h
    simp [ConverterState.copyToMediaImage, h]
  · intro h
    simp [ConverterState.setBackBuffer, h]
  · intro h
    simp [ConverterState.setBackBuffer, h]
  · intro h
    simp [ConverterState.setBackBuffer, ConverterState.wrap, h]

/-- C7 counterexample: a converter whose construction failed (BAD_VALUE)
still accepts a back buffer with `true`, and a converter whose wrapping
succeeded also accepts a back buffer — after which wrap() is null and
copyToMediaImage proceeds — so neither "all operations are no-ops once
failed" nor "a wrapped instance never reaches the copied state" holds. -/
theorem C7_converter_state_machine_counterexample :
    (GraphicView2MediaImageConverter rgbViewEx ⟨some 42, none⟩
        true).initCheck ≠ Status.OK ∧
    ((GraphicView2MediaImageConverter rgbViewEx ⟨some 42, none⟩
        true).setBackBuffer (some ⟨0, 4, 4⟩)).1 = true ∧
    (GraphicView2MediaImageConverter unknownViewEx ⟨none, none⟩
        false).wrap = some ⟨0, 256, 256⟩ ∧
    ((GraphicView2MediaImageConverter unknownViewEx ⟨none, none⟩
        false).setBackBuffer (some ⟨0, 1024, 1024⟩)).1 = true ∧
    ((GraphicView2MediaImageConverter unknownViewEx ⟨none, none⟩
        false).setBackBuffer (some ⟨0, 1024, 1024⟩)).2.wrap = none ∧
    (((GraphicView2MediaImageConverter unknownViewEx ⟨none, none⟩
        false).setBackBuffer (some ⟨0, 1024, 1024⟩)).2.copyToMediaImage
          exMem exMem2).isSome = true := by
  refine ⟨by decide, by decide, by decide, by decide, by decide, by decide⟩
